import Mathlib

/-!
# Device routing of the audio HAL (`tizen-audio-routing.c`)

A shallow embedding of the routing layer: the two device catalogs, the device
string resolver, `__set_devices`, the three routing strategies and the role
dispatcher `audio_update_route`.

Conventions of the embedding.

* `uint32_t` values are natural numbers; only `&`, `|` and `==` are applied to
  them, so no wrap-around can occur.
* A C string is a `String`; `strncmp` compares its characters.
* `*ah` is passed explicitly (`audio_hal_t`), and a function returns the new
  `*ah` in its `Outcome`.
* A function returns `none` where the C program has undefined behaviour: a
  store to `active_devices` at an index outside the array, a read of a table or
  of the caller's array outside its bounds.
* The backend `_ucm_set_devices` is external: it is a parameter `ucm` giving
  the status code for the handle, verb and array it is called with; the call
  is recorded in the `Outcome` with the whole array, `NULL` slots included, so
  that an array without a `NULL` slot shows as such.  The backend does not
  write the masks or the mode.  The handle and the `devices` pointer are taken
  to be non-null.
* The constants of the headers that are not at hand are either fixed to the
  values the specification gives (the device values) or collected in `Header`
  and left arbitrary; assumptions on them are hypotheses of the theorems.
-/

namespace TizenAudio

/-! ## Constants of the missing headers -/

/-- Modelled from the spec: the constants of `tizen-audio-internal.h` and
`tizen-audio.h` (not part of the sources at hand) whose values neither the
source nor the specification fixes.  Every definition takes them as a
parameter. -/
structure Header where
  /-- The number of slots of `active_devices`. -/
  MAX_DEVICES : Nat
  /-- The bound given to `strncmp`. -/
  MAX_NAME_LEN : Nat
  AUDIO_DIRECTION_IN : Nat
  AUDIO_DIRECTION_OUT : Nat
  AUDIO_RET_OK : Int
  AUDIO_ERR_PARAMETER : Int
  AUDIO_DEVICE_OUT_RECEIVER : Nat
deriving DecidableEq, Repr

/-- Modelled from the spec: `AUDIO_DEVICE_NONE` is 0. -/
def AUDIO_DEVICE_NONE : Nat := 0

/-- Modelled from the spec: the flag bit of input devices, `0x80000000`. -/
def AUDIO_DEVICE_IN : Nat := 0x80000000

/-- Modelled from the spec: `AUDIO_DEVICE_OUT_SPEAKER = 0x1`. -/
def AUDIO_DEVICE_OUT_SPEAKER : Nat := 0x1

/-- Modelled from the spec: `AUDIO_DEVICE_OUT_JACK = 0x4`. -/
def AUDIO_DEVICE_OUT_JACK : Nat := 0x4

/-- Modelled from the spec: `AUDIO_DEVICE_OUT_BT_SCO = 0x8`. -/
def AUDIO_DEVICE_OUT_BT_SCO : Nat := 0x8

/-- Modelled from the spec: `AUDIO_DEVICE_OUT_AUX = 0x10`. -/
def AUDIO_DEVICE_OUT_AUX : Nat := 0x10

/-- Modelled from the spec: `AUDIO_DEVICE_OUT_HDMI = 0x20`. -/
def AUDIO_DEVICE_OUT_HDMI : Nat := 0x20

/-- Modelled from the spec: `AUDIO_DEVICE_IN_MAIN_MIC = AUDIO_DEVICE_IN | 0x1`. -/
def AUDIO_DEVICE_IN_MAIN_MIC : Nat := AUDIO_DEVICE_IN ||| 0x1

/-- Modelled from the spec: `AUDIO_DEVICE_IN_JACK = AUDIO_DEVICE_IN | 0x4`. -/
def AUDIO_DEVICE_IN_JACK : Nat := AUDIO_DEVICE_IN ||| 0x4

/-- Modelled from the spec: `AUDIO_DEVICE_IN_BT_SCO = AUDIO_DEVICE_IN | 0x8`. -/
def AUDIO_DEVICE_IN_BT_SCO : Nat := AUDIO_DEVICE_IN ||| 0x8

/-- Modelled from the spec: the verb string `AUDIO_USE_CASE_VERB_HIFI`, "HiFi". -/
def AUDIO_USE_CASE_VERB_HIFI : String := "HiFi"

/-- Modelled from the spec: `VERB_NORMAL`, the mode of the single entry of
`mode_to_verb_str`, is index 0. -/
def VERB_NORMAL : Nat := 0

/-- The complement `~x` of a 32-bit value. -/
def not32 (x : Nat) : Nat := 0xFFFFFFFF - x

/-! ## Data model -/

/-- The struct `device_type_t`: a device value and its name (`NULL` in the sentinel). -/
structure device_type_t where
  type : Nat
  name : Option String
deriving DecidableEq, Repr

/-- The struct `device_info_t`: the fields the routing code reads. -/
structure device_info_t where
  type : String
  direction : Nat
deriving DecidableEq, Repr

/-- The member `device` of the handle. -/
structure audio_hal_device_t where
  active_in : Nat
  active_out : Nat
  mode : Nat
deriving DecidableEq, Repr

/-- The part of `audio_hal_t` the routing code touches. -/
structure audio_hal_t where
  device : audio_hal_device_t
deriving DecidableEq, Repr

/-- The struct `audio_route_info_t`. -/
structure audio_route_info_t where
  role : String
  device_infos : List device_info_t
  num_of_devices : Nat
deriving DecidableEq, Repr

/-- One invocation of `_ucm_set_devices`: the verb and the whole array handed over. -/
structure UcmCall where
  verb : String
  devices : List (Option String)
deriving DecidableEq, Repr

/-- What a routing function leaves behind: its return value, the handle, and
the backend invocation it made, if any. -/
structure Outcome where
  ret : Int
  ah : audio_hal_t
  call : Option UcmCall
deriving DecidableEq, Repr

/-- The external `_ucm_set_devices(ah, verb, devices)`: its status code. -/
abbrev Ucm := audio_hal_t → String → List (Option String) → Int

/-- The handle together with the locals `active_devices` and `dev_idx`. -/
structure Frame where
  ah : audio_hal_t
  active_devices : List (Option String)
  dev_idx : Nat
deriving DecidableEq, Repr

/-- The frame at entry: `const char *active_devices[MAX_DEVICES] = {NULL,}`, `dev_idx = 0`. -/
def Frame.enter (H : Header) (ah : audio_hal_t) : Frame :=
  ⟨ah, List.replicate H.MAX_DEVICES none, 0⟩

/-- The statement `active_devices[dev_idx++] = name`; undefined when `dev_idx`
is not an index of the array. -/
def Frame.store (fr : Frame) (name : Option String) : Option Frame :=
  if fr.dev_idx < fr.active_devices.length then
    some ⟨fr.ah, fr.active_devices.set fr.dev_idx name, fr.dev_idx + 1⟩
  else none

/-! ## Catalogs -/

/-- The table `outDeviceTypes`, sentinel included. -/
def outDeviceTypes : List device_type_t :=
  [ ⟨AUDIO_DEVICE_OUT_SPEAKER, some "Speaker"⟩,
    ⟨AUDIO_DEVICE_OUT_JACK, some "Headphones"⟩,
    ⟨AUDIO_DEVICE_OUT_BT_SCO, some "Bluetooth"⟩,
    ⟨AUDIO_DEVICE_OUT_AUX, some "Line"⟩,
    ⟨AUDIO_DEVICE_OUT_HDMI, some "HDMI"⟩,
    ⟨0, none⟩ ]

/-- The table `inDeviceTypes`, sentinel included. -/
def inDeviceTypes : List device_type_t :=
  [ ⟨AUDIO_DEVICE_IN_MAIN_MIC, some "MainMic"⟩,
    ⟨AUDIO_DEVICE_IN_JACK, some "HeadsetMic"⟩,
    ⟨AUDIO_DEVICE_IN_BT_SCO, some "BT Mic"⟩,
    ⟨0, none⟩ ]

/-- The table `mode_to_verb_str`. -/
def mode_to_verb_str : List String := [AUDIO_USE_CASE_VERB_HIFI]

/-! ## The resolver -/

/-- The C library `strncmp` on the characters of two strings (a C string is
the sequence of its characters before the terminator, none of which is the
terminator): 0 when the first `n` characters agree, otherwise negative or
positive after the order of the first two characters that differ, the end of
a string coming before every character. -/
def strncmpAux : List Char → List Char → Nat → Int
  | _, _, 0 => 0
  | [], [], _ + 1 => 0
  | [], _ :: _, _ + 1 => -1
  | _ :: _, [], _ + 1 => 1
  | a :: s, b :: t, n + 1 =>
    if a = b then strncmpAux s t n else if a.toNat < b.toNat then -1 else 1

/-- The call `strncmp(s1, s2, n)`. -/
def strncmp (s1 s2 : String) (n : Nat) : Int := strncmpAux s1.data s2.data n

/-- The function `__convert_device_string_to_enum`. -/
def __convert_device_string_to_enum (H : Header) (device_str : String) (direction : Nat) : Nat :=
  if strncmp device_str "builtin-speaker" H.MAX_NAME_LEN = 0 then
    AUDIO_DEVICE_OUT_SPEAKER
  else if strncmp device_str "builtin-receiver" H.MAX_NAME_LEN = 0 then
    H.AUDIO_DEVICE_OUT_RECEIVER
  else if strncmp device_str "audio-jack" H.MAX_NAME_LEN = 0 ∧ direction = H.AUDIO_DIRECTION_OUT then
    AUDIO_DEVICE_OUT_JACK
  else if strncmp device_str "bt" H.MAX_NAME_LEN = 0 ∧ direction = H.AUDIO_DIRECTION_OUT then
    AUDIO_DEVICE_OUT_BT_SCO
  else if strncmp device_str "aux" H.MAX_NAME_LEN = 0 then
    AUDIO_DEVICE_OUT_AUX
  else if strncmp device_str "hdmi" H.MAX_NAME_LEN = 0 then
    AUDIO_DEVICE_OUT_HDMI
  else if strncmp device_str "builtin-mic" H.MAX_NAME_LEN = 0 then
    AUDIO_DEVICE_IN_MAIN_MIC
  else if strncmp device_str "audio-jack" H.MAX_NAME_LEN = 0 ∧ direction = H.AUDIO_DIRECTION_IN then
    AUDIO_DEVICE_IN_JACK
  else if strncmp device_str "bt" H.MAX_NAME_LEN = 0 ∧ direction = H.AUDIO_DIRECTION_IN then
    AUDIO_DEVICE_IN_BT_SCO
  else
    AUDIO_DEVICE_NONE

/-! ## The routing engine -/

/-- The loop `for (j = 0; j < table[j].type; j++) body(table[j])`, entered
with the entries from index `j` on; reading past the end of the table is
undefined. -/
def catalogLoop (body : device_type_t → Frame → Option Frame) :
    List device_type_t → Nat → Frame → Option Frame
  | [], _, _ => none
  | e :: rest, j, fr =>
    if j < e.type then (body e fr).bind (catalogLoop body rest (j + 1)) else some fr

/-- Body of the loops "check the active in devices". -/
def scanInBody (e : device_type_t) (fr : Frame) : Option Frame :=
  if (fr.ah.device.active_in &&& not32 AUDIO_DEVICE_IN) &&& e.type ≠ 0 then
    fr.store e.name
  else some fr

/-- Body of the loops "check the active out devices". -/
def scanOutBody (e : device_type_t) (fr : Frame) : Option Frame :=
  if fr.ah.device.active_out &&& e.type ≠ 0 then
    fr.store e.name
  else some fr

/-- The statement `ah->device.active_in |= new_device`. -/
def orIn (new_device : Nat) (ah : audio_hal_t) : audio_hal_t :=
  { device := { ah.device with active_in := ah.device.active_in ||| new_device } }

/-- The statement `ah->device.active_out |= new_device`. -/
def orOut (new_device : Nat) (ah : audio_hal_t) : audio_hal_t :=
  { device := { ah.device with active_out := ah.device.active_out ||| new_device } }

/-- The statement `ah->device.active_out &= 0x0`. -/
def clearOut (ah : audio_hal_t) : audio_hal_t :=
  { device := { ah.device with active_out := ah.device.active_out &&& 0x0 } }

/-- The statement `ah->device.active_in &= 0x0`. -/
def clearIn (ah : audio_hal_t) : audio_hal_t :=
  { device := { ah.device with active_in := ah.device.active_in &&& 0x0 } }

/-- Body of the request loop over `inDeviceTypes`. -/
def requestInBody (new_device : Nat) (e : device_type_t) (fr : Frame) : Option Frame :=
  if new_device = e.type then
    (fr.store e.name).map fun fr1 => { fr1 with ah := orIn new_device fr1.ah }
  else some fr

/-- Body of the request loop over `outDeviceTypes`. -/
def requestOutBody (new_device : Nat) (e : device_type_t) (fr : Frame) : Option Frame :=
  if new_device = e.type then
    (fr.store e.name).map fun fr1 => { fr1 with ah := orOut new_device fr1.ah }
  else some fr

/-- One iteration of `for (i = 0; i < num_of_devices; i++)` of `__set_devices`. -/
def requestStep (H : Header) (d : device_info_t) (fr : Frame) : Option Frame :=
  let new_device := __convert_device_string_to_enum H d.type d.direction
  if new_device &&& AUDIO_DEVICE_IN ≠ 0 then
    catalogLoop (requestInBody new_device) inDeviceTypes 0 fr
  else
    catalogLoop (requestOutBody new_device) outDeviceTypes 0 fr

/-- The loop `for (i = 0; i < num_of_devices; i++)` of `__set_devices`, with
the entries of the caller's array from index `i` on and the number of
iterations left; reading past the end of the array is undefined. -/
def requestLoop (H : Header) : List device_info_t → Nat → Frame → Option Frame
  | _, 0, fr => some fr
  | [], _ + 1, _ => none
  | d :: rest, n + 1, fr => (requestStep H d fr).bind (requestLoop H rest n)

/-- The first part of `__set_devices`: clear the mask of the direction of
`devices[0]` and collect the names of the other direction. -/
def setDevicesScan (H : Header) (direction : Nat) (fr : Frame) : Option Frame :=
  if direction = H.AUDIO_DIRECTION_OUT then
    let fr1 := { fr with ah := clearOut fr.ah }
    if fr1.ah.device.active_in ≠ 0 then catalogLoop scanInBody inDeviceTypes 0 fr1
    else some fr1
  else if direction = H.AUDIO_DIRECTION_IN then
    let fr1 := { fr with ah := clearIn fr.ah }
    if fr1.ah.device.active_out ≠ 0 then catalogLoop scanOutBody outDeviceTypes 0 fr1
    else some fr1
  else some fr

/-- The function `__set_devices`. -/
def __set_devices (H : Header) (ucm : Ucm) (ah : audio_hal_t) (verb : String)
    (devices : List device_info_t) (num_of_devices : Nat) : Option Outcome :=
  if num_of_devices = 0 then some ⟨H.AUDIO_ERR_PARAMETER, ah, none⟩
  else if num_of_devices > H.MAX_DEVICES then some ⟨H.AUDIO_ERR_PARAMETER, ah, none⟩
  else
    match devices with
    | [] => none
    | d0 :: _ =>
      (setDevicesScan H d0.direction (Frame.enter H ah)).bind fun fr1 =>
      (requestLoop H devices num_of_devices fr1).bind fun fr2 =>
      match fr2.active_devices with
      | [] => none
      | none :: _ => some ⟨H.AUDIO_ERR_PARAMETER, fr2.ah, none⟩
      | some _ :: _ =>
        some ⟨ucm fr2.ah verb fr2.active_devices, fr2.ah, some ⟨verb, fr2.active_devices⟩⟩

/-- The function `__update_route_ap_playback_capture`. -/
def __update_route_ap_playback_capture (H : Header) (ucm : Ucm) (ah : audio_hal_t)
    (route_info : audio_route_info_t) : Option Outcome :=
  match mode_to_verb_str[VERB_NORMAL]? with
  | none => none
  | some verb =>
    (__set_devices H ucm ah verb route_info.device_infos route_info.num_of_devices).map fun o =>
      if o.ret ≠ 0 then o
      else { o with ah := { device := { o.ah.device with mode := VERB_NORMAL } } }

/-- The function `__update_route_voip`. -/
def __update_route_voip (H : Header) (ucm : Ucm) (ah : audio_hal_t)
    (devices : List device_info_t) (num_of_devices : Nat) : Option Outcome :=
  match mode_to_verb_str[VERB_NORMAL]? with
  | none => none
  | some verb =>
    (__set_devices H ucm ah verb devices num_of_devices).map fun o =>
      if o.ret ≠ 0 then o
      else { o with ah := { device := { o.ah.device with mode := VERB_NORMAL } } }

/-- The first part of `__update_route_reset`: clear the mask of `direction`
and collect the names of the other direction. -/
def resetScan (H : Header) (direction : Nat) (fr : Frame) : Option Frame :=
  if direction = H.AUDIO_DIRECTION_OUT then
    let fr1 := { fr with ah := clearOut fr.ah }
    if fr1.ah.device.active_in ≠ 0 then catalogLoop scanInBody inDeviceTypes 0 fr1
    else some fr1
  else
    let fr1 := { fr with ah := clearIn fr.ah }
    if fr1.ah.device.active_out ≠ 0 then catalogLoop scanOutBody outDeviceTypes 0 fr1
    else some fr1

/-- The function `__update_route_reset`. -/
def __update_route_reset (H : Header) (ucm : Ucm) (ah : audio_hal_t) (direction : Nat) :
    Option Outcome :=
  (resetScan H direction (Frame.enter H ah)).bind fun fr =>
    match fr.active_devices with
    | [] => none
    | none :: _ => some ⟨H.AUDIO_RET_OK, fr.ah, none⟩
    | some _ :: _ =>
      match mode_to_verb_str[fr.ah.device.mode]? with
      | none => none
      | some verb =>
        some ⟨ucm fr.ah verb fr.active_devices, fr.ah, some ⟨verb, fr.active_devices⟩⟩

/-- The function `audio_update_route`. -/
def audio_update_route (H : Header) (ucm : Ucm) (ah : audio_hal_t) (info : audio_route_info_t) :
    Option Outcome :=
  if strncmp "voip" info.role H.MAX_NAME_LEN = 0 then
    __update_route_voip H ucm ah info.device_infos info.num_of_devices
  else if strncmp "reset" info.role H.MAX_NAME_LEN = 0 then
    match info.device_infos with
    | [] => none
    | d0 :: _ => __update_route_reset H ucm ah d0.direction
  else
    __update_route_ap_playback_capture H ucm ah info

/-- The external `_ucm_init(ah)`: its status code. -/
abbrev UcmInit := audio_hal_t → Int

/-- The function `_audio_routing_init`; here the handle is a pointer that may
be null (`none`), as the function tests it.  The result is the return value
and the handle. -/
def _audio_routing_init (H : Header) (ucm_init : UcmInit) (ah : Option audio_hal_t) :
    Int × Option audio_hal_t :=
  match ah with
  | none => (H.AUDIO_ERR_PARAMETER, none)
  | some a =>
    let a1 : audio_hal_t := { device := { a.device with active_in := 0x0 } }
    let a2 : audio_hal_t := { device := { a1.device with active_out := 0x0 } }
    let a3 : audio_hal_t := { device := { a2.device with mode := VERB_NORMAL } }
    (ucm_init a3, some a3)

/-- The struct `audio_route_option_t`. -/
structure audio_route_option_t where
  role : String
  name : String
  value : Int
deriving DecidableEq, Repr

/-- The function `audio_update_route_option`: it logs its argument and returns
`AUDIO_RET_OK`. -/
def audio_update_route_option (H : Header) (ah : audio_hal_t) (_option : audio_route_option_t) :
    Outcome :=
  ⟨H.AUDIO_RET_OK, ah, none⟩

/-- A sample header for concrete runs: five slots in `active_devices`, names
compared over 32 characters, In = 0, Out = 1, `AUDIO_ERR_PARAMETER` the
32-bit value `0x80001002`, `AUDIO_DEVICE_OUT_RECEIVER = 0x2`. -/
def tizenHeader : Header :=
  { MAX_DEVICES := 5, MAX_NAME_LEN := 32,
    AUDIO_DIRECTION_IN := 0, AUDIO_DIRECTION_OUT := 1,
    AUDIO_RET_OK := 0, AUDIO_ERR_PARAMETER := -2147479550,
    AUDIO_DEVICE_OUT_RECEIVER := 0x2 }

/-- A backend that always reports success. -/
def ucmOk : Ucm := fun _ _ _ => 0

/-! ## Reference definitions for the statements -/

/-- The resolver as tabulated by the specification. -/
def resolverTable (H : Header) (s : String) (d : Nat) : Nat :=
  if s = "builtin-speaker" then AUDIO_DEVICE_OUT_SPEAKER
  else if s = "builtin-receiver" then H.AUDIO_DEVICE_OUT_RECEIVER
  else if s = "aux" then AUDIO_DEVICE_OUT_AUX
  else if s = "hdmi" then AUDIO_DEVICE_OUT_HDMI
  else if s = "builtin-mic" then AUDIO_DEVICE_IN_MAIN_MIC
  else if s = "audio-jack" then
    (if d = H.AUDIO_DIRECTION_OUT then AUDIO_DEVICE_OUT_JACK
     else if d = H.AUDIO_DIRECTION_IN then AUDIO_DEVICE_IN_JACK
     else AUDIO_DEVICE_NONE)
  else if s = "bt" then
    (if d = H.AUDIO_DIRECTION_OUT then AUDIO_DEVICE_OUT_BT_SCO
     else if d = H.AUDIO_DIRECTION_IN then AUDIO_DEVICE_IN_BT_SCO
     else AUDIO_DEVICE_NONE)
  else AUDIO_DEVICE_NONE

/-- The frame in which exactly `names` have been stored, in this order, since entry. -/
def Frame.ofNames (H : Header) (ah : audio_hal_t) (names : List (Option String)) : Frame :=
  ⟨ah, names ++ List.replicate (H.MAX_DEVICES - names.length) none, names.length⟩

/-- The common shape of the four loop bodies: when the test `c` holds, store the
name of the entry and apply the statement `g` to the handle. -/
def storeIf (c : audio_hal_t → device_type_t → Bool) (g : audio_hal_t → audio_hal_t)
    (e : device_type_t) (fr : Frame) : Option Frame :=
  if c fr.ah e then (fr.store e.name).map fun fr1 => { fr1 with ah := g fr1.ah } else some fr

/-- The input catalog: the entries of `inDeviceTypes` before the sentinel. -/
def inCatalog : List device_type_t := inDeviceTypes.dropLast

/-- The output catalog: the entries of `outDeviceTypes` before the sentinel. -/
def outCatalog : List device_type_t := outDeviceTypes.dropLast

/-- The test of the loops "check the active in devices". -/
def inActive (ah : audio_hal_t) (e : device_type_t) : Bool :=
  decide ((ah.device.active_in &&& not32 AUDIO_DEVICE_IN) &&& e.type ≠ 0)

/-- The test of the loops "check the active out devices". -/
def outActive (ah : audio_hal_t) (e : device_type_t) : Bool :=
  decide (ah.device.active_out &&& e.type ≠ 0)

/-- Names of the input-catalog entries active in the handle, in catalog order. -/
def inScanNames (ah : audio_hal_t) : List (Option String) :=
  (inCatalog.filter (inActive ah)).map (·.name)

/-- Names of the output-catalog entries active in the handle, in catalog order. -/
def outScanNames (ah : audio_hal_t) : List (Option String) :=
  (outCatalog.filter (outActive ah)).map (·.name)

/-- The names collected for the direction a batch does not set. -/
def scanNames (H : Header) (direction : Nat) (ah : audio_hal_t) : List (Option String) :=
  if direction = H.AUDIO_DIRECTION_OUT then inScanNames ah
  else if direction = H.AUDIO_DIRECTION_IN then outScanNames ah
  else []

/-- The handle after the mask of the batch's direction has been cleared. -/
def clearedAh (H : Header) (direction : Nat) (ah : audio_hal_t) : audio_hal_t :=
  if direction = H.AUDIO_DIRECTION_OUT then clearOut ah
  else if direction = H.AUDIO_DIRECTION_IN then clearIn ah
  else ah

/-- The catalog entries a requested entry matches: those of the input catalog
equal to its resolved value when that value carries the input flag, those of
the output catalog otherwise. -/
def requestEntries (H : Header) (d : device_info_t) : List device_type_t :=
  if __convert_device_string_to_enum H d.type d.direction &&& AUDIO_DEVICE_IN ≠ 0 then
    inCatalog.filter fun e => decide (__convert_device_string_to_enum H d.type d.direction = e.type)
  else
    outCatalog.filter fun e => decide (__convert_device_string_to_enum H d.type d.direction = e.type)

/-- The names a requested entry contributes. -/
def requestNames (H : Header) (d : device_info_t) : List (Option String) :=
  (requestEntries H d).map (·.name)

/-- The effect of a requested entry on the handle. -/
def requestAh (H : Header) (d : device_info_t) (ah : audio_hal_t) : audio_hal_t :=
  if requestEntries H d = [] then ah
  else if __convert_device_string_to_enum H d.type d.direction &&& AUDIO_DEVICE_IN ≠ 0 then
    orIn (__convert_device_string_to_enum H d.type d.direction) ah
  else orOut (__convert_device_string_to_enum H d.type d.direction) ah

/-- The names a batch contributes, in the caller's order. -/
def batchNames (H : Header) (devices : List device_info_t) : List (Option String) :=
  devices.flatMap (requestNames H)

/-- The effect of a batch on the handle. -/
def batchAh (H : Header) (devices : List device_info_t) (ah : audio_hal_t) : audio_hal_t :=
  devices.foldl (fun a d => requestAh H d a) ah

/-- The names `__set_devices` assembles for a batch: those of the other
direction, then those of the requested entries. -/
def setDevicesNames (H : Header) (ah : audio_hal_t) (devices : List device_info_t) :
    List (Option String) :=
  match devices with
  | [] => []
  | d0 :: _ => scanNames H d0.direction ah ++ batchNames H devices

/-- The handle `__set_devices` leaves for a batch. -/
def setDevicesAh (H : Header) (ah : audio_hal_t) (devices : List device_info_t) : audio_hal_t :=
  match devices with
  | [] => ah
  | d0 :: _ => batchAh H devices (clearedAh H d0.direction ah)

/-- The array `active_devices` holding `names` in its first slots and `NULL` in the others. -/
def padded (H : Header) (names : List (Option String)) : List (Option String) :=
  names ++ List.replicate (H.MAX_DEVICES - names.length) none

/-- The names the scan of `__update_route_reset` collects. -/
def resetNames (H : Header) (direction : Nat) (ah : audio_hal_t) : List (Option String) :=
  if direction = H.AUDIO_DIRECTION_OUT then inScanNames ah else outScanNames ah

/-- The handle `__update_route_reset` leaves. -/
def resetAh (H : Header) (direction : Nat) (ah : audio_hal_t) : audio_hal_t :=
  if direction = H.AUDIO_DIRECTION_OUT then clearOut ah else clearIn ah

/-- The mask of the direction opposite to the one `__update_route_reset` is
given: `active_in` for Out, `active_out` otherwise. -/
def oppositeMask (H : Header) (direction : Nat) (ah : audio_hal_t) : Nat :=
  if direction = H.AUDIO_DIRECTION_OUT then ah.device.active_in else ah.device.active_out

/-- The device tags the resolver recognizes. -/
def recognizedTags : List String :=
  ["builtin-speaker", "builtin-receiver", "audio-jack", "bt", "aux", "hdmi", "builtin-mic"]

/-- The device values of the input catalog. -/
def inCatalogTypes : List Nat := inCatalog.map (·.type)

/-- The device values of the output catalog. -/
def outCatalogTypes : List Nat := outCatalog.map (·.type)

/-- The bitwise OR of a list of values. -/
def orAll (vs : List Nat) : Nat := vs.foldr (fun v m => v ||| m) 0

/-- What a requested entry adds to `active_in`: its resolved value when that
is a device of the input catalog, nothing otherwise. -/
def requestInMask (H : Header) (d : device_info_t) : Nat :=
  if __convert_device_string_to_enum H d.type d.direction ∈ inCatalogTypes then
    __convert_device_string_to_enum H d.type d.direction
  else 0

/-- What a requested entry adds to `active_out`: its resolved value when that
is a device of the output catalog, nothing otherwise. -/
def requestOutMask (H : Header) (d : device_info_t) : Nat :=
  if __convert_device_string_to_enum H d.type d.direction ∈ outCatalogTypes then
    __convert_device_string_to_enum H d.type d.direction
  else 0

/-- The resolved values of the entries of a batch. -/
def resolvedValues (H : Header) (devices : List device_info_t) : List Nat :=
  devices.map fun d => __convert_device_string_to_enum H d.type d.direction

/-- The statement `ah->device.mode = VERB_NORMAL` of the two routing
strategies, reached only when `__set_devices` returned 0. -/
def setModeOnSuccess (o : Outcome) : Outcome :=
  if o.ret ≠ 0 then o
  else { o with ah := { device := { o.ah.device with mode := VERB_NORMAL } } }

/-- The states the handle can be in: the one `_audio_routing_init` leaves, and
those left by a call of `audio_update_route` that has a defined outcome or by
a call of `audio_update_route_option`, whatever the backend answers. -/
inductive Reachable (H : Header) : audio_hal_t → Prop
  | init (ucm_init : UcmInit) (a s : audio_hal_t)
      (h : (_audio_routing_init H ucm_init (some a)).2 = some s) : Reachable H s
  | route (ucm : Ucm) (ah : audio_hal_t) (info : audio_route_info_t) (o : Outcome)
      (hr : Reachable H ah) (h : audio_update_route H ucm ah info = some o) : Reachable H o.ah
  | option (ah : audio_hal_t) (opt : audio_route_option_t)
      (hr : Reachable H ah) : Reachable H (audio_update_route_option H ah opt).ah

/-- The device values of both catalogs. -/
def catalogTypes : List Nat := inCatalogTypes ++ outCatalogTypes

/-- A batch without its repeated requests: an entry is dropped when its
resolved value is a catalog device that an earlier entry (one with a value in
`seen`) already resolved to. -/
def dropRepeatedFrom (H : Header) (seen : List Nat) : List device_info_t → List device_info_t
  | [] => []
  | d :: rest =>
    if __convert_device_string_to_enum H d.type d.direction ∈ catalogTypes ∧
        __convert_device_string_to_enum H d.type d.direction ∈ seen then
      dropRepeatedFrom H seen rest
    else
      d :: dropRepeatedFrom H (__convert_device_string_to_enum H d.type d.direction :: seen) rest

/-- The batch with the repeated entries removed, keeping the first. -/
def dropRepeated (H : Header) (devices : List device_info_t) : List device_info_t :=
  dropRepeatedFrom H [] devices

/-- How many entries of a batch resolve to the device value `v`. -/
def timesRequested (H : Header) (v : Nat) (devices : List device_info_t) : Nat :=
  (devices.filter fun d => decide (__convert_device_string_to_enum H d.type d.direction = v)).length

/-- A batch in which every type string "builtin-receiver" is replaced by `u`. -/
def replaceReceiver (u : String) (devices : List device_info_t) : List device_info_t :=
  devices.map fun d => if d.type = "builtin-receiver" then ⟨u, d.direction⟩ else d

/-- A mask that is the bitwise OR of some values of `types` (0 when of none). -/
def IsOrOf (types : List Nat) (m : Nat) : Prop :=
  ∃ vs : List Nat, (∀ v ∈ vs, v ∈ types) ∧ m = orAll vs

/-- The invariant of the handle: `active_out` is an OR of output-catalog
values, `active_in` is an OR of input-catalog values, the mode is
`VERB_NORMAL`. -/
def RouteInvariant (ah : audio_hal_t) : Prop :=
  IsOrOf outCatalogTypes ah.device.active_out ∧ IsOrOf inCatalogTypes ah.device.active_in ∧
    ah.device.mode = VERB_NORMAL

/-- The eight values an OR of input-catalog values can take. -/
def inMasks : List Nat :=
  [0, 0x80000001, 0x80000004, 0x80000005, 0x80000008, 0x80000009, 0x8000000C, 0x8000000D]

/-- The thirty-two values an OR of output-catalog values can take: the masks
below 64 without the bit 0x2. -/
def outMasks : List Nat := (List.range 64).filter fun m => decide (m &&& 0x3D = m)

/-! ## The resolver: proofs -/

theorem strncmpAux_eq_zero_iff (n : Nat) : ∀ s t : List Char,
    strncmpAux s t n = 0 ↔ s.take n = t.take n := by
  induction n with
  | zero => intro s t; simp [strncmpAux]
  | succ n ih =>
    intro s t
    cases s with
    | nil => cases t <;> simp [strncmpAux]
    | cons a s =>
      cases t with
      | nil => simp [strncmpAux]
      | cons b t =>
        by_cases hab : a = b
        · simp [strncmpAux, hab, ih]
        · have h1 : (if a.toNat < b.toNat then (-1 : Int) else 1) ≠ 0 := by
            split <;> decide
          simp [strncmpAux, hab, h1]

theorem take_eq_of_short {α : Type} (s t : List α) (n : Nat) (h : t.length < n) :
    s.take n = t.take n ↔ s = t := by
  have ht : t.take n = t := List.take_of_length_le (Nat.le_of_lt h)
  rw [ht]
  constructor
  · intro hs
    have hlen : (s.take n).length = t.length := by rw [hs]
    rw [List.length_take] at hlen
    have hsn : s.length ≤ n := by omega
    rw [List.take_of_length_le hsn] at hs
    exact hs
  · intro hs
    rw [hs, ht]

theorem strncmp_eq_zero_iff (s t : String) (n : Nat) (h : t.length < n) :
    strncmp s t n = 0 ↔ s = t := by
  unfold strncmp
  rw [strncmpAux_eq_zero_iff, take_eq_of_short _ _ _ h]
  constructor
  · intro hd
    exact String.ext hd
  · intro hd
    rw [hd]

/-- C5: when `MAX_NAME_LEN` exceeds the longest tag, the resolver
`__convert_device_string_to_enum` agrees, for every string and every direction,
with the table of the specification: the five direction-independent tags, the
tags "audio-jack" and "bt" resolved after the direction (none for a direction
that is neither Out nor In), and `AUDIO_DEVICE_NONE` for every other string. -/
theorem convert_device_string_to_enum_eq_table (H : Header) (hlen : 16 < H.MAX_NAME_LEN)
    (s : String) (d : Nat) :
    __convert_device_string_to_enum H s d = resolverTable H s d := by
  have h1 := strncmp_eq_zero_iff s "builtin-speaker" H.MAX_NAME_LEN
    (by have : "builtin-speaker".length = 15 := by decide
        omega)
  have h2 := strncmp_eq_zero_iff s "builtin-receiver" H.MAX_NAME_LEN
    (by have : "builtin-receiver".length = 16 := by decide
        omega)
  have h3 := strncmp_eq_zero_iff s "audio-jack" H.MAX_NAME_LEN
    (by have : "audio-jack".length = 10 := by decide
        omega)
  have h4 := strncmp_eq_zero_iff s "bt" H.MAX_NAME_LEN
    (by have : "bt".length = 2 := by decide
        omega)
  have h5 := strncmp_eq_zero_iff s "aux" H.MAX_NAME_LEN
    (by have : "aux".length = 3 := by decide
        omega)
  have h6 := strncmp_eq_zero_iff s "hdmi" H.MAX_NAME_LEN
    (by have : "hdmi".length = 4 := by decide
        omega)
  have h7 := strncmp_eq_zero_iff s "builtin-mic" H.MAX_NAME_LEN
    (by have : "builtin-mic".length = 11 := by decide
        omega)
  unfold __convert_device_string_to_enum resolverTable
  simp only [h1, h2, h3, h4, h5, h6, h7]
  by_cases c1 : s = "builtin-speaker"
  · subst c1; simp
  by_cases c2 : s = "builtin-receiver"
  · subst c2; simp
  by_cases c3 : s = "aux"
  · subst c3; simp
  by_cases c4 : s = "hdmi"
  · subst c4; simp
  by_cases c5 : s = "builtin-mic"
  · subst c5; simp
  by_cases c6 : s = "audio-jack"
  · subst c6; simp
  by_cases c7 : s = "bt"
  · subst c7; simp
  simp [c1, c2, c3, c4, c5, c6, c7]

/-- A concrete instance for C5: the tag "bt" with direction In under the Tizen header. -/
theorem convert_device_string_to_enum_eq_table_witness :
    16 < tizenHeader.MAX_NAME_LEN ∧
      __convert_device_string_to_enum tizenHeader "bt" 0 = resolverTable tizenHeader "bt" 0 :=
  ⟨by decide, convert_device_string_to_enum_eq_table tizenHeader (by decide) "bt" 0⟩

/-- C10: a count that is zero or larger than `MAX_DEVICES` makes `__set_devices`
return `AUDIO_ERR_PARAMETER` without calling the backend and with the handle
(both masks and the mode) as it was; no truncated batch is processed. -/
theorem set_devices_rejects_bad_count (H : Header) (ucm : Ucm) (ah : audio_hal_t)
    (verb : String) (devices : List device_info_t) (n : Nat)
    (hn : n = 0 ∨ H.MAX_DEVICES < n) :
    __set_devices H ucm ah verb devices n = some ⟨H.AUDIO_ERR_PARAMETER, ah, none⟩ := by
  unfold __set_devices
  rcases hn with h0 | hbig
  · simp [h0]
  · by_cases h0 : n = 0
    · simp [h0]
    · simp [h0, hbig]

/-- A concrete instance for C10: a batch of six entries under the Tizen header. -/
theorem set_devices_rejects_bad_count_witness :
    (6 = 0 ∨ tizenHeader.MAX_DEVICES < 6) ∧
      __set_devices tizenHeader ucmOk ⟨⟨AUDIO_DEVICE_IN_MAIN_MIC, 0x1, 0⟩⟩ "HiFi"
          (List.replicate 6 ⟨"builtin-speaker", 1⟩) 6
        = some ⟨tizenHeader.AUDIO_ERR_PARAMETER, ⟨⟨AUDIO_DEVICE_IN_MAIN_MIC, 0x1, 0⟩⟩, none⟩ :=
  ⟨Or.inr (by decide),
    set_devices_rejects_bad_count tizenHeader ucmOk _ "HiFi" _ 6 (Or.inr (by decide))⟩

/-! ## The array `active_devices` -/

theorem enter_eq_ofNames (H : Header) (ah : audio_hal_t) :
    Frame.enter H ah = Frame.ofNames H ah [] := by
  simp [Frame.enter, Frame.ofNames]

theorem store_ofNames (H : Header) (ah : audio_hal_t) (ns : List (Option String))
    (x : Option String) (h : ns.length < H.MAX_DEVICES) :
    (Frame.ofNames H ah ns).store x = some (Frame.ofNames H ah (ns ++ [x])) := by
  obtain ⟨k, hk⟩ : ∃ k, H.MAX_DEVICES - ns.length = k + 1 := ⟨H.MAX_DEVICES - ns.length - 1, by omega⟩
  have hk2 : H.MAX_DEVICES - (ns.length + 1) = k := by omega
  simp [Frame.store, Frame.ofNames, hk, hk2, List.replicate_succ]

theorem store_ofNames_full (H : Header) (ah : audio_hal_t) (ns : List (Option String))
    (x : Option String) (h : H.MAX_DEVICES ≤ ns.length) :
    (Frame.ofNames H ah ns).store x = none := by
  have hk : H.MAX_DEVICES - ns.length = 0 := by omega
  simp [Frame.store, Frame.ofNames, hk]

theorem foldlM_storeIf (H : Header) (c : audio_hal_t → device_type_t → Bool)
    (g : audio_hal_t → audio_hal_t) (hc : ∀ ah e, c (g ah) e = c ah e)
    (hg : ∀ ah, g (g ah) = g ah) :
    ∀ (es : List device_type_t) (ah : audio_hal_t) (ns : List (Option String)),
      ns.length ≤ H.MAX_DEVICES →
      List.foldlM (fun fr e => storeIf c g e fr) (Frame.ofNames H ah ns) es =
        if ns.length + (es.filter (c ah)).length ≤ H.MAX_DEVICES then
          some (Frame.ofNames H (if es.filter (c ah) = [] then ah else g ah)
            (ns ++ (es.filter (c ah)).map (·.name)))
        else none := by
  intro es
  induction es with
  | nil =>
    intro ah ns hns
    simp [hns]
  | cons e es ih =>
    intro ah ns hns
    have hcg : c (g ah) = c ah := funext (hc ah)
    rw [List.foldlM_cons]
    by_cases hce : c ah e = true
    · by_cases hfull : ns.length < H.MAX_DEVICES
      · have hstep : storeIf c g e (Frame.ofNames H ah ns)
            = some (Frame.ofNames H (g ah) (ns ++ [e.name])) := by
          unfold storeIf
          have hce2 : c (Frame.ofNames H ah ns).ah e = true := hce
          rw [if_pos hce2, store_ofNames H ah ns e.name hfull]
          rfl
        have hlen : (ns ++ [e.name]).length ≤ H.MAX_DEVICES := by
          simp only [List.length_append, List.length_singleton]; omega
        rw [hstep]
        show List.foldlM _ (Frame.ofNames H (g ah) (ns ++ [e.name])) es = _
        rw [ih (g ah) (ns ++ [e.name]) hlen, hcg]
        simp only [List.filter_cons, hce, if_true, List.length_append, List.length_singleton,
          List.length_cons, hg, ite_self, List.map_cons, List.append_assoc, List.singleton_append,
          reduceCtorEq, if_false]
        have harith : ns.length + 1 + (List.filter (c ah) es).length
            = ns.length + ((List.filter (c ah) es).length + 1) := by omega
        simp only [List.length_nil, Nat.zero_add, harith]
      · have hstep : storeIf c g e (Frame.ofNames H ah ns) = none := by
          unfold storeIf
          have hce2 : c (Frame.ofNames H ah ns).ah e = true := hce
          rw [if_pos hce2, store_ofNames_full H ah ns e.name (by omega)]
          rfl
        rw [hstep]
        have hover : ¬ (ns.length + (List.filter (c ah) (e :: es)).length ≤ H.MAX_DEVICES) := by
          simp only [List.filter_cons, hce, if_true, List.length_cons]; omega
        rw [if_neg hover]
        rfl
    · have hstep : storeIf c g e (Frame.ofNames H ah ns) = some (Frame.ofNames H ah ns) := by
        unfold storeIf
        have hce2 : ¬ c (Frame.ofNames H ah ns).ah e = true := hce
        rw [if_neg hce2]
      rw [hstep]
      show List.foldlM _ (Frame.ofNames H ah ns) es = _
      rw [ih ah ns hns]
      simp only [List.filter_cons, hce, if_false, Bool.false_eq_true]

/-! ## The catalog loops -/

theorem catalogLoop_inDeviceTypes (body : device_type_t → Frame → Option Frame) (fr : Frame) :
    catalogLoop body inDeviceTypes 0 fr = List.foldlM (fun fr e => body e fr) fr inCatalog := by
  rfl

theorem catalogLoop_outDeviceTypes (body : device_type_t → Frame → Option Frame) (fr : Frame) :
    catalogLoop body outDeviceTypes 0 fr = List.foldlM (fun fr e => body e fr) fr outCatalog := by
  rfl

theorem scanInBody_eq : scanInBody = storeIf inActive id := by
  funext e fr
  unfold scanInBody storeIf inActive
  by_cases h : (fr.ah.device.active_in &&& not32 AUDIO_DEVICE_IN) &&& e.type ≠ 0
  · rw [if_pos h, if_pos (decide_eq_true h)]
    cases fr.store e.name <;> rfl
  · rw [if_neg h, if_neg (by simpa using h)]

theorem scanOutBody_eq : scanOutBody = storeIf outActive id := by
  funext e fr
  unfold scanOutBody storeIf outActive
  by_cases h : fr.ah.device.active_out &&& e.type ≠ 0
  · rw [if_pos h, if_pos (decide_eq_true h)]
    cases fr.store e.name <;> rfl
  · rw [if_neg h, if_neg (by simpa using h)]

theorem requestInBody_eq (v : Nat) :
    requestInBody v = storeIf (fun _ e => decide (v = e.type)) (orIn v) := by
  funext e fr
  unfold requestInBody storeIf
  by_cases h : v = e.type
  · rw [if_pos h, if_pos (decide_eq_true h)]
  · rw [if_neg h, if_neg (by simpa using h)]

theorem requestOutBody_eq (v : Nat) :
    requestOutBody v = storeIf (fun _ e => decide (v = e.type)) (orOut v) := by
  funext e fr
  unfold requestOutBody storeIf
  by_cases h : v = e.type
  · rw [if_pos h, if_pos (decide_eq_true h)]
  · rw [if_neg h, if_neg (by simpa using h)]

theorem orIn_orIn (v : Nat) (ah : audio_hal_t) : orIn v (orIn v ah) = orIn v ah := by
  simp [orIn, Nat.or_assoc]

theorem orOut_orOut (v : Nat) (ah : audio_hal_t) : orOut v (orOut v ah) = orOut v ah := by
  simp [orOut, Nat.or_assoc]

theorem scanIn_ofNames (H : Header) (ah : audio_hal_t) (ns : List (Option String))
    (hns : ns.length ≤ H.MAX_DEVICES) :
    catalogLoop scanInBody inDeviceTypes 0 (Frame.ofNames H ah ns) =
      if ns.length + (inScanNames ah).length ≤ H.MAX_DEVICES then
        some (Frame.ofNames H ah (ns ++ inScanNames ah))
      else none := by
  rw [catalogLoop_inDeviceTypes, scanInBody_eq,
    foldlM_storeIf H inActive id (fun _ _ => rfl) (fun _ => rfl) inCatalog ah ns hns]
  simp [inScanNames]

theorem scanOut_ofNames (H : Header) (ah : audio_hal_t) (ns : List (Option String))
    (hns : ns.length ≤ H.MAX_DEVICES) :
    catalogLoop scanOutBody outDeviceTypes 0 (Frame.ofNames H ah ns) =
      if ns.length + (outScanNames ah).length ≤ H.MAX_DEVICES then
        some (Frame.ofNames H ah (ns ++ outScanNames ah))
      else none := by
  rw [catalogLoop_outDeviceTypes, scanOutBody_eq,
    foldlM_storeIf H outActive id (fun _ _ => rfl) (fun _ => rfl) outCatalog ah ns hns]
  simp [outScanNames]

theorem inScanNames_of_zero (ah : audio_hal_t) (h : ah.device.active_in = 0) :
    inScanNames ah = [] := by
  simp [inScanNames, inActive, h]

theorem outScanNames_of_zero (ah : audio_hal_t) (h : ah.device.active_out = 0) :
    outScanNames ah = [] := by
  simp [outScanNames, outActive, h]

theorem requestStep_ofNames (H : Header) (d : device_info_t) (ah : audio_hal_t)
    (ns : List (Option String)) (hns : ns.length ≤ H.MAX_DEVICES) :
    requestStep H d (Frame.ofNames H ah ns) =
      if ns.length + (requestNames H d).length ≤ H.MAX_DEVICES then
        some (Frame.ofNames H (requestAh H d ah) (ns ++ requestNames H d))
      else none := by
  unfold requestStep requestNames requestAh requestEntries
  by_cases hin : __convert_device_string_to_enum H d.type d.direction &&& AUDIO_DEVICE_IN ≠ 0
  · simp only [if_pos hin]
    rw [catalogLoop_inDeviceTypes, requestInBody_eq,
      foldlM_storeIf H
        (fun _ e => decide (__convert_device_string_to_enum H d.type d.direction = e.type))
        (orIn (__convert_device_string_to_enum H d.type d.direction))
        (fun _ _ => rfl) (orIn_orIn _) inCatalog ah ns hns]
    simp only [List.length_map]
  · simp only [if_neg hin]
    rw [catalogLoop_outDeviceTypes, requestOutBody_eq,
      foldlM_storeIf H
        (fun _ e => decide (__convert_device_string_to_enum H d.type d.direction = e.type))
        (orOut (__convert_device_string_to_enum H d.type d.direction))
        (fun _ _ => rfl) (orOut_orOut _) outCatalog ah ns hns]
    simp only [List.length_map]

theorem requestLoop_ofNames (H : Header) :
    ∀ (ds : List device_info_t) (ah : audio_hal_t) (ns : List (Option String)),
      ns.length ≤ H.MAX_DEVICES →
      requestLoop H ds ds.length (Frame.ofNames H ah ns) =
        if ns.length + (batchNames H ds).length ≤ H.MAX_DEVICES then
          some (Frame.ofNames H (batchAh H ds ah) (ns ++ batchNames H ds))
        else none := by
  intro ds
  induction ds with
  | nil =>
    intro ah ns hns
    simp [requestLoop, batchNames, batchAh, hns]
  | cons d ds ih =>
    intro ah ns hns
    simp only [List.length_cons, requestLoop]
    rw [requestStep_ofNames H d ah ns hns]
    by_cases hfit : ns.length + (requestNames H d).length ≤ H.MAX_DEVICES
    · rw [if_pos hfit]
      show requestLoop H ds ds.length (Frame.ofNames H (requestAh H d ah) (ns ++ requestNames H d)) = _
      rw [ih (requestAh H d ah) (ns ++ requestNames H d) (by simpa using hfit)]
      simp only [batchNames, batchAh, List.flatMap_cons, List.length_append, List.foldl_cons,
        List.append_assoc, Nat.add_assoc]
    · rw [if_neg hfit]
      have hover : ¬ (ns.length + (batchNames H (d :: ds)).length ≤ H.MAX_DEVICES) := by
        simp only [batchNames, List.flatMap_cons, List.length_append]
        omega
      rw [if_neg hover]
      rfl

theorem inScanNames_clearOut (ah : audio_hal_t) : inScanNames (clearOut ah) = inScanNames ah := rfl

theorem outScanNames_clearIn (ah : audio_hal_t) : outScanNames (clearIn ah) = outScanNames ah := rfl

theorem setDevicesScan_enter (H : Header) (direction : Nat) (ah : audio_hal_t) :
    setDevicesScan H direction (Frame.enter H ah) =
      if (scanNames H direction ah).length ≤ H.MAX_DEVICES then
        some (Frame.ofNames H (clearedAh H direction ah) (scanNames H direction ah))
      else none := by
  rw [enter_eq_ofNames]
  unfold setDevicesScan scanNames clearedAh
  by_cases hout : direction = H.AUDIO_DIRECTION_OUT
  · simp only [if_pos hout]
    show (if (clearOut ah).device.active_in ≠ 0 then
        catalogLoop scanInBody inDeviceTypes 0 (Frame.ofNames H (clearOut ah) [])
      else some (Frame.ofNames H (clearOut ah) [])) = _
    by_cases hz : (clearOut ah).device.active_in ≠ 0
    · rw [if_pos hz, scanIn_ofNames H (clearOut ah) [] (Nat.zero_le _), inScanNames_clearOut]
      simp
    · have hz2 : ah.device.active_in = 0 := by simpa [clearOut] using hz
      rw [if_neg hz, inScanNames_of_zero ah hz2]
      simp
  · simp only [if_neg hout]
    by_cases hin : direction = H.AUDIO_DIRECTION_IN
    · simp only [if_pos hin]
      show (if (clearIn ah).device.active_out ≠ 0 then
          catalogLoop scanOutBody outDeviceTypes 0 (Frame.ofNames H (clearIn ah) [])
        else some (Frame.ofNames H (clearIn ah) [])) = _
      by_cases hz : (clearIn ah).device.active_out ≠ 0
      · rw [if_pos hz, scanOut_ofNames H (clearIn ah) [] (Nat.zero_le _), outScanNames_clearIn]
        simp
      · have hz2 : ah.device.active_out = 0 := by simpa [clearIn] using hz
        rw [if_neg hz, outScanNames_of_zero ah hz2]
        simp
    · simp only [if_neg hin]
      simp

theorem resetScan_enter (H : Header) (direction : Nat) (ah : audio_hal_t) :
    resetScan H direction (Frame.enter H ah) =
      if (resetNames H direction ah).length ≤ H.MAX_DEVICES then
        some (Frame.ofNames H (resetAh H direction ah) (resetNames H direction ah))
      else none := by
  rw [enter_eq_ofNames]
  unfold resetScan resetNames resetAh
  by_cases hout : direction = H.AUDIO_DIRECTION_OUT
  · simp only [if_pos hout]
    show (if (clearOut ah).device.active_in ≠ 0 then
        catalogLoop scanInBody inDeviceTypes 0 (Frame.ofNames H (clearOut ah) [])
      else some (Frame.ofNames H (clearOut ah) [])) = _
    by_cases hz : (clearOut ah).device.active_in ≠ 0
    · rw [if_pos hz, scanIn_ofNames H (clearOut ah) [] (Nat.zero_le _), inScanNames_clearOut]
      simp
    · have hz2 : ah.device.active_in = 0 := by simpa [clearOut] using hz
      rw [if_neg hz, inScanNames_of_zero ah hz2]
      simp
  · simp only [if_neg hout]
    show (if (clearIn ah).device.active_out ≠ 0 then
        catalogLoop scanOutBody outDeviceTypes 0 (Frame.ofNames H (clearIn ah) [])
      else some (Frame.ofNames H (clearIn ah) [])) = _
    by_cases hz : (clearIn ah).device.active_out ≠ 0
    · rw [if_pos hz, scanOut_ofNames H (clearIn ah) [] (Nat.zero_le _), outScanNames_clearIn]
      simp
    · have hz2 : ah.device.active_out = 0 := by simpa [clearIn] using hz
      rw [if_neg hz, outScanNames_of_zero ah hz2]
      simp

/-! ## The assembled names are never `NULL` -/

theorem inCatalog_name_ne_none : ∀ e ∈ inCatalog, e.name ≠ none := by decide

theorem outCatalog_name_ne_none : ∀ e ∈ outCatalog, e.name ≠ none := by decide

theorem inScanNames_ne_none (ah : audio_hal_t) : ∀ x ∈ inScanNames ah, x ≠ none := by
  intro x hx
  simp only [inScanNames, List.mem_map, List.mem_filter] at hx
  obtain ⟨e, ⟨he, _⟩, rfl⟩ := hx
  exact inCatalog_name_ne_none e he

theorem outScanNames_ne_none (ah : audio_hal_t) : ∀ x ∈ outScanNames ah, x ≠ none := by
  intro x hx
  simp only [outScanNames, List.mem_map, List.mem_filter] at hx
  obtain ⟨e, ⟨he, _⟩, rfl⟩ := hx
  exact outCatalog_name_ne_none e he

theorem scanNames_ne_none (H : Header) (direction : Nat) (ah : audio_hal_t) :
    ∀ x ∈ scanNames H direction ah, x ≠ none := by
  intro x hx
  unfold scanNames at hx
  split at hx
  · exact inScanNames_ne_none ah x hx
  · split at hx
    · exact outScanNames_ne_none ah x hx
    · simp at hx

theorem resetNames_ne_none (H : Header) (direction : Nat) (ah : audio_hal_t) :
    ∀ x ∈ resetNames H direction ah, x ≠ none := by
  intro x hx
  unfold resetNames at hx
  split at hx
  · exact inScanNames_ne_none ah x hx
  · exact outScanNames_ne_none ah x hx

theorem requestNames_ne_none (H : Header) (d : device_info_t) :
    ∀ x ∈ requestNames H d, x ≠ none := by
  intro x hx
  simp only [requestNames, requestEntries, List.mem_map] at hx
  obtain ⟨e, he, rfl⟩ := hx
  split at he
  · exact inCatalog_name_ne_none e (List.mem_filter.mp he).1
  · exact outCatalog_name_ne_none e (List.mem_filter.mp he).1

theorem batchNames_ne_none (H : Header) (ds : List device_info_t) :
    ∀ x ∈ batchNames H ds, x ≠ none := by
  intro x hx
  simp only [batchNames, List.mem_flatMap] at hx
  obtain ⟨d, _, hd⟩ := hx
  exact requestNames_ne_none H d x hd

theorem setDevicesNames_ne_none (H : Header) (ah : audio_hal_t) (ds : List device_info_t) :
    ∀ x ∈ setDevicesNames H ah ds, x ≠ none := by
  intro x hx
  cases ds with
  | nil => simp [setDevicesNames] at hx
  | cons d0 rest =>
    simp only [setDevicesNames, List.mem_append] at hx
    rcases hx with h | h
    · exact scanNames_ne_none H _ ah x h
    · exact batchNames_ne_none H _ x h

/-! ## `__set_devices` and `__update_route_reset` in closed form -/

theorem ofNames_active_devices (H : Header) (ah : audio_hal_t) (ns : List (Option String)) :
    (Frame.ofNames H ah ns).active_devices = padded H ns := rfl

theorem padded_nil_of_pos (H : Header) (hM : 0 < H.MAX_DEVICES) :
    ∃ t, padded H [] = none :: t := by
  obtain ⟨k, hk⟩ : ∃ k, H.MAX_DEVICES = k + 1 := ⟨H.MAX_DEVICES - 1, by omega⟩
  exact ⟨List.replicate k none, by simp [padded, hk, List.replicate_succ]⟩

/-- Closed form of `__set_devices` on a non-empty batch of at most `MAX_DEVICES`
entries: undefined when more names are assembled than the array has slots, a
parameter error when none is assembled, and otherwise one backend call with
the array holding exactly the assembled names. -/
theorem set_devices_eq (H : Header) (ucm : Ucm) (ah : audio_hal_t) (verb : String)
    (devices : List device_info_t) (hne : devices ≠ [])
    (hM : devices.length ≤ H.MAX_DEVICES) :
    __set_devices H ucm ah verb devices devices.length =
      if H.MAX_DEVICES < (setDevicesNames H ah devices).length then none
      else if setDevicesNames H ah devices = [] then
        some ⟨H.AUDIO_ERR_PARAMETER, setDevicesAh H ah devices, none⟩
      else
        some ⟨ucm (setDevicesAh H ah devices) verb (padded H (setDevicesNames H ah devices)),
          setDevicesAh H ah devices,
          some ⟨verb, padded H (setDevicesNames H ah devices)⟩⟩ := by
  cases devices with
  | nil => exact absurd rfl hne
  | cons d0 rest =>
    have hpos : 0 < H.MAX_DEVICES := by
      simp only [List.length_cons] at hM; omega
    have hn0 : (d0 :: rest).length ≠ 0 := by simp
    have hnM : ¬ (d0 :: rest).length > H.MAX_DEVICES := by omega
    unfold __set_devices
    rw [if_neg hn0, if_neg hnM]
    simp only []
    rw [setDevicesScan_enter]
    by_cases hscan : (scanNames H d0.direction ah).length ≤ H.MAX_DEVICES
    · rw [if_pos hscan, Option.some_bind,
        requestLoop_ofNames H (d0 :: rest) _ _ hscan]
      by_cases hfit : (scanNames H d0.direction ah).length + (batchNames H (d0 :: rest)).length
          ≤ H.MAX_DEVICES
      · have hfit2 : ¬ H.MAX_DEVICES < (setDevicesNames H ah (d0 :: rest)).length := by
          simp only [setDevicesNames, List.length_append]; omega
        rw [if_pos hfit, Option.some_bind, if_neg hfit2, ofNames_active_devices]
        show (match padded H (setDevicesNames H ah (d0 :: rest)) with
          | [] => none
          | none :: _ =>
            some (Outcome.mk H.AUDIO_ERR_PARAMETER (setDevicesAh H ah (d0 :: rest)) none)
          | some _ :: _ =>
            some (Outcome.mk (ucm (setDevicesAh H ah (d0 :: rest)) verb
                (padded H (setDevicesNames H ah (d0 :: rest))))
              (setDevicesAh H ah (d0 :: rest))
              (some (UcmCall.mk verb (padded H (setDevicesNames H ah (d0 :: rest)))))) : Option Outcome)
            = _
        have hsome := setDevicesNames_ne_none H ah (d0 :: rest)
        generalize setDevicesNames H ah (d0 :: rest) = names at hsome ⊢
        cases names with
        | nil =>
          obtain ⟨t, ht⟩ := padded_nil_of_pos H hpos
          simp [ht]
        | cons x xs =>
          cases x with
          | none => exact absurd rfl (hsome none (List.mem_cons_self _ _))
          | some v => simp [padded]
      · have hfit2 : H.MAX_DEVICES < (setDevicesNames H ah (d0 :: rest)).length := by
          simp only [setDevicesNames, List.length_append]; omega
        rw [if_neg hfit, if_pos hfit2]
        rfl
    · have hfit2 : H.MAX_DEVICES < (setDevicesNames H ah (d0 :: rest)).length := by
        simp only [setDevicesNames, List.length_append]; omega
      rw [if_neg hscan, if_pos hfit2]
      rfl

theorem resetAh_mode (H : Header) (direction : Nat) (ah : audio_hal_t) :
    (resetAh H direction ah).device.mode = ah.device.mode := by
  unfold resetAh
  split <;> rfl

/-- Closed form of `__update_route_reset`: undefined when the scan stores more
names than the array has slots or when the mode is not an index of
`mode_to_verb_str` at the call, success without a call when the scan stores
nothing, and otherwise one backend call with the scanned names. -/
theorem update_route_reset_eq (H : Header) (ucm : Ucm) (ah : audio_hal_t) (direction : Nat)
    (hpos : 0 < H.MAX_DEVICES) :
    __update_route_reset H ucm ah direction =
      if H.MAX_DEVICES < (resetNames H direction ah).length then none
      else if resetNames H direction ah = [] then
        some ⟨H.AUDIO_RET_OK, resetAh H direction ah, none⟩
      else
        match mode_to_verb_str[ah.device.mode]? with
        | none => none
        | some verb =>
          some ⟨ucm (resetAh H direction ah) verb (padded H (resetNames H direction ah)),
            resetAh H direction ah, some ⟨verb, padded H (resetNames H direction ah)⟩⟩ := by
  unfold __update_route_reset
  rw [resetScan_enter]
  by_cases hfit : (resetNames H direction ah).length ≤ H.MAX_DEVICES
  · rw [if_pos hfit, if_neg (by omega), Option.some_bind, ofNames_active_devices]
    have hsome := resetNames_ne_none H direction ah
    have hmode := resetAh_mode H direction ah
    generalize resetNames H direction ah = names at hsome ⊢
    cases names with
    | nil =>
      obtain ⟨t, ht⟩ := padded_nil_of_pos H hpos
      simp [ht, Frame.ofNames]
    | cons x xs =>
      cases x with
      | none => exact absurd rfl (hsome none (List.mem_cons_self _ _))
      | some v =>
        simp only [padded, List.cons_append, reduceCtorEq, if_false]
        show (match mode_to_verb_str[(resetAh H direction ah).device.mode]? with
          | none => none
          | some verb => _) = _
        rw [hmode]
        rfl
  · rw [if_neg hfit, if_pos (by omega)]
    rfl

theorem inScanNames_length_le (ah : audio_hal_t) : (inScanNames ah).length ≤ 3 := by
  unfold inScanNames
  rw [List.length_map]
  exact List.length_filter_le _ _

theorem outScanNames_length_le (ah : audio_hal_t) : (outScanNames ah).length ≤ 5 := by
  unfold outScanNames
  rw [List.length_map]
  exact List.length_filter_le _ _

theorem resetNames_length_le (H : Header) (direction : Nat) (ah : audio_hal_t) :
    (resetNames H direction ah).length ≤ 5 := by
  unfold resetNames
  split
  · exact Nat.le_trans (inScanNames_length_le ah) (by decide)
  · exact outScanNames_length_le ah

/-- C9: when the mask of the direction opposite to `direction` is zero,
`__update_route_reset` makes no backend call and returns `AUDIO_RET_OK`
(the array `active_devices` having at least one slot). -/
theorem update_route_reset_noop (H : Header) (ucm : Ucm) (ah : audio_hal_t) (direction : Nat)
    (hpos : 0 < H.MAX_DEVICES) (hzero : oppositeMask H direction ah = 0) :
    ∃ o, __update_route_reset H ucm ah direction = some o ∧
      o.ret = H.AUDIO_RET_OK ∧ o.call = none := by
  have hnames : resetNames H direction ah = [] := by
    unfold resetNames
    unfold oppositeMask at hzero
    split
    · rename_i hd
      rw [if_pos hd] at hzero
      exact inScanNames_of_zero ah hzero
    · rename_i hd
      rw [if_neg hd] at hzero
      exact outScanNames_of_zero ah hzero
  refine ⟨⟨H.AUDIO_RET_OK, resetAh H direction ah, none⟩, ?_, rfl, rfl⟩
  rw [update_route_reset_eq H ucm ah direction hpos, hnames]
  simp

/-- A concrete instance for C9: reset of Out with no input device active. -/
theorem update_route_reset_noop_witness :
    0 < tizenHeader.MAX_DEVICES ∧
      oppositeMask tizenHeader 1 ⟨⟨0, AUDIO_DEVICE_OUT_SPEAKER, 0⟩⟩ = 0 ∧
      ∃ o, __update_route_reset tizenHeader ucmOk ⟨⟨0, AUDIO_DEVICE_OUT_SPEAKER, 0⟩⟩ 1 = some o ∧
        o.ret = tizenHeader.AUDIO_RET_OK ∧ o.call = none :=
  ⟨by decide, by decide,
    update_route_reset_noop tizenHeader ucmOk ⟨⟨0, AUDIO_DEVICE_OUT_SPEAKER, 0⟩⟩ 1
      (by decide) (by decide)⟩

/-! ## Reset -/

theorem mode_to_verb_str_normal : mode_to_verb_str[VERB_NORMAL]? = some AUDIO_USE_CASE_VERB_HIFI :=
  rfl

/-- Reset with a valid mode and an array that holds every catalog: the outcome
in closed form. -/
theorem update_route_reset_normal (H : Header) (ucm : Ucm) (ah : audio_hal_t) (direction : Nat)
    (hM : 5 ≤ H.MAX_DEVICES) (hmode : ah.device.mode = VERB_NORMAL) :
    __update_route_reset H ucm ah direction =
      if resetNames H direction ah = [] then
        some ⟨H.AUDIO_RET_OK, resetAh H direction ah, none⟩
      else
        some ⟨ucm (resetAh H direction ah) AUDIO_USE_CASE_VERB_HIFI
            (padded H (resetNames H direction ah)),
          resetAh H direction ah,
          some ⟨AUDIO_USE_CASE_VERB_HIFI, padded H (resetNames H direction ah)⟩⟩ := by
  have hfit : ¬ H.MAX_DEVICES < (resetNames H direction ah).length := by
    have := resetNames_length_le H direction ah
    omega
  rw [update_route_reset_eq H ucm ah direction (by omega), if_neg hfit, hmode,
    mode_to_verb_str_normal]

theorem strncmp_voip_reset (H : Header) (hlen : 16 < H.MAX_NAME_LEN) :
    strncmp "voip" "reset" H.MAX_NAME_LEN ≠ 0 := by
  rw [Ne, strncmp_eq_zero_iff "voip" "reset" H.MAX_NAME_LEN
    (by have : "reset".length = 5 := by decide
        omega)]
  decide

theorem strncmp_reset_reset (H : Header) (hlen : 16 < H.MAX_NAME_LEN) :
    strncmp "reset" "reset" H.MAX_NAME_LEN = 0 := by
  rw [strncmp_eq_zero_iff "reset" "reset" H.MAX_NAME_LEN
    (by have : "reset".length = 5 := by decide
        omega)]

/-- C8: with `MAX_NAME_LEN` above 16 and `MAX_DEVICES` at least 5, in every
state whose mode is `VERB_NORMAL` (the mode whose verb is "HiFi", and the only
value the routing code assigns to the mode) and in which the scan of the other direction's
catalog is non-empty, `audio_update_route` with role "reset" makes one backend
call, with the verb "HiFi" and the array holding exactly the scanned names in
catalog order, returns the backend's status code, and leaves the handle with
the mask of the given direction cleared; the type string of the first entry,
the further entries and the count play no part. -/
theorem audio_update_route_reset (H : Header) (ucm : Ucm) (ah : audio_hal_t) (type : String)
    (direction : Nat) (rest : List device_info_t) (n : Nat)
    (hlen : 16 < H.MAX_NAME_LEN) (hM : 5 ≤ H.MAX_DEVICES)
    (hmode : ah.device.mode = VERB_NORMAL) (hscan : resetNames H direction ah ≠ []) :
    audio_update_route H ucm ah ⟨"reset", ⟨type, direction⟩ :: rest, n⟩ =
      some ⟨ucm (resetAh H direction ah) AUDIO_USE_CASE_VERB_HIFI
          (padded H (resetNames H direction ah)),
        resetAh H direction ah,
        some ⟨AUDIO_USE_CASE_VERB_HIFI, padded H (resetNames H direction ah)⟩⟩ := by
  unfold audio_update_route
  simp only []
  rw [if_neg (strncmp_voip_reset H hlen), if_pos (strncmp_reset_reset H hlen),
    update_route_reset_normal H ucm ah direction hM hmode, if_neg hscan]

/-- A concrete instance for C8, the scenario of the specification: with
`active_in = AUDIO_DEVICE_IN_MAIN_MIC`, reset of Out clears `active_out` and
calls the backend with "MainMic" only. -/
theorem audio_update_route_reset_witness :
    16 < tizenHeader.MAX_NAME_LEN ∧ 5 ≤ tizenHeader.MAX_DEVICES ∧
      resetNames tizenHeader 1 ⟨⟨AUDIO_DEVICE_IN_MAIN_MIC, AUDIO_DEVICE_OUT_SPEAKER, 0⟩⟩ ≠ [] ∧
      audio_update_route tizenHeader (fun _ _ _ => 7)
          ⟨⟨AUDIO_DEVICE_IN_MAIN_MIC, AUDIO_DEVICE_OUT_SPEAKER, 0⟩⟩
          ⟨"reset", [⟨"no such device", 1⟩], 0⟩
        = some ⟨7, ⟨⟨AUDIO_DEVICE_IN_MAIN_MIC, 0, 0⟩⟩,
            some ⟨"HiFi", [some "MainMic", none, none, none, none]⟩⟩ :=
  ⟨by decide, by decide, by decide,
    (audio_update_route_reset tizenHeader (fun _ _ _ => 7)
      ⟨⟨AUDIO_DEVICE_IN_MAIN_MIC, AUDIO_DEVICE_OUT_SPEAKER, 0⟩⟩ "no such device" 1 [] 0
      (by decide) (by decide) rfl (by decide)).trans (by decide)⟩

/-! ## Requests for single tags -/

theorem strncmp_tags (H : Header) (hlen : 16 < H.MAX_NAME_LEN) (s : String) :
    (strncmp s "builtin-speaker" H.MAX_NAME_LEN = 0 ↔ s = "builtin-speaker") ∧
    (strncmp s "builtin-receiver" H.MAX_NAME_LEN = 0 ↔ s = "builtin-receiver") ∧
    (strncmp s "audio-jack" H.MAX_NAME_LEN = 0 ↔ s = "audio-jack") ∧
    (strncmp s "bt" H.MAX_NAME_LEN = 0 ↔ s = "bt") ∧
    (strncmp s "aux" H.MAX_NAME_LEN = 0 ↔ s = "aux") ∧
    (strncmp s "hdmi" H.MAX_NAME_LEN = 0 ↔ s = "hdmi") ∧
    (strncmp s "builtin-mic" H.MAX_NAME_LEN = 0 ↔ s = "builtin-mic") := by
  refine ⟨?_, ?_, ?_, ?_, ?_, ?_, ?_⟩ <;>
    exact strncmp_eq_zero_iff _ _ _ (Nat.lt_of_le_of_lt (by decide) hlen)

theorem convert_speaker (H : Header) (hlen : 16 < H.MAX_NAME_LEN) (d : Nat) :
    __convert_device_string_to_enum H "builtin-speaker" d = AUDIO_DEVICE_OUT_SPEAKER := by
  obtain ⟨h1, -⟩ := strncmp_tags H hlen "builtin-speaker"
  unfold __convert_device_string_to_enum
  rw [if_pos (h1.mpr rfl)]

theorem convert_aux (H : Header) (hlen : 16 < H.MAX_NAME_LEN) (d : Nat) :
    __convert_device_string_to_enum H "aux" d = AUDIO_DEVICE_OUT_AUX := by
  obtain ⟨h1, h2, h3, h4, h5, -⟩ := strncmp_tags H hlen "aux"
  unfold __convert_device_string_to_enum
  simp only [h1, h2, h3, h4, h5]
  simp

theorem convert_mic (H : Header) (hlen : 16 < H.MAX_NAME_LEN) (d : Nat) :
    __convert_device_string_to_enum H "builtin-mic" d = AUDIO_DEVICE_IN_MAIN_MIC := by
  obtain ⟨h1, h2, h3, h4, h5, h6, h7⟩ := strncmp_tags H hlen "builtin-mic"
  unfold __convert_device_string_to_enum
  simp only [h1, h2, h3, h4, h5, h6, h7]
  simp

theorem convert_bt_in (H : Header) (hlen : 16 < H.MAX_NAME_LEN)
    (hdir : H.AUDIO_DIRECTION_IN ≠ H.AUDIO_DIRECTION_OUT) :
    __convert_device_string_to_enum H "bt" H.AUDIO_DIRECTION_IN = AUDIO_DEVICE_IN_BT_SCO := by
  obtain ⟨h1, h2, h3, h4, h5, h6, h7⟩ := strncmp_tags H hlen "bt"
  unfold __convert_device_string_to_enum
  simp only [h1, h2, h3, h4, h5, h6, h7]
  simp [hdir]

theorem requestNames_speaker (H : Header) (hlen : 16 < H.MAX_NAME_LEN) (d : Nat) :
    requestNames H ⟨"builtin-speaker", d⟩ = [some "Speaker"] := by
  unfold requestNames requestEntries
  simp only [convert_speaker H hlen]
  rfl

theorem requestNames_aux (H : Header) (hlen : 16 < H.MAX_NAME_LEN) (d : Nat) :
    requestNames H ⟨"aux", d⟩ = [some "Line"] := by
  unfold requestNames requestEntries
  simp only [convert_aux H hlen]
  rfl

theorem requestNames_mic (H : Header) (hlen : 16 < H.MAX_NAME_LEN) (d : Nat) :
    requestNames H ⟨"builtin-mic", d⟩ = [some "MainMic"] := by
  unfold requestNames requestEntries
  simp only [convert_mic H hlen]
  rfl

theorem requestNames_bt_in (H : Header) (hlen : 16 < H.MAX_NAME_LEN)
    (hdir : H.AUDIO_DIRECTION_IN ≠ H.AUDIO_DIRECTION_OUT) :
    requestNames H ⟨"bt", H.AUDIO_DIRECTION_IN⟩ = [some "BT Mic"] := by
  unfold requestNames requestEntries
  simp only [convert_bt_in H hlen hdir]
  rfl

theorem batchNames_replicate_of_single (H : Header) (d : device_info_t) (x : Option String)
    (hx : requestNames H d = [x]) (n : Nat) :
    batchNames H (List.replicate n d) = List.replicate n x := by
  induction n with
  | zero => simp [batchNames]
  | succ n ih =>
    simp only [batchNames] at ih
    simp only [batchNames, List.replicate_succ, List.flatMap_cons, ih, hx, List.singleton_append]

theorem setDevicesNames_replicate (H : Header) (ah : audio_hal_t) (d : device_info_t)
    (x : Option String) (hx : requestNames H d = [x]) (n : Nat) (hn : 0 < n) :
    setDevicesNames H ah (List.replicate n d)
      = scanNames H d.direction ah ++ List.replicate n x := by
  rw [← batchNames_replicate_of_single H d x hx n]
  obtain ⟨k, rfl⟩ : ∃ k, n = k + 1 := ⟨n - 1, by omega⟩
  simp [setDevicesNames, List.replicate_succ]

/-! ## Batches that do not fit the array -/

theorem inScanNames_congr (ah : audio_hal_t) (a : Nat) (h : ah.device.active_in = a) :
    inScanNames ah = inScanNames ⟨⟨a, 0, 0⟩⟩ := by
  subst h
  rfl

theorem outScanNames_congr (ah : audio_hal_t) (a : Nat) (h : ah.device.active_out = a) :
    outScanNames ah = outScanNames ⟨⟨0, a, 0⟩⟩ := by
  subst h
  rfl

/-- C1, where the code departs from it: with `active_in = AUDIO_DEVICE_IN_MAIN_MIC`
and a batch of `MAX_DEVICES` entries "builtin-speaker" of direction Out, the
names to hand over are "MainMic" followed by `MAX_DEVICES` times "Speaker", one
more than `active_devices` has slots; the last store falls outside the array
and `__set_devices` has no defined outcome. -/
theorem set_devices_out_batch_overflow (H : Header) (ucm : Ucm) (active_out mode : Nat)
    (verb : String) (hM : 0 < H.MAX_DEVICES) (hlen : 16 < H.MAX_NAME_LEN) :
    setDevicesNames H ⟨⟨AUDIO_DEVICE_IN_MAIN_MIC, active_out, mode⟩⟩
        (List.replicate H.MAX_DEVICES ⟨"builtin-speaker", H.AUDIO_DIRECTION_OUT⟩)
      = some "MainMic" :: List.replicate H.MAX_DEVICES (some "Speaker") ∧
    __set_devices H ucm ⟨⟨AUDIO_DEVICE_IN_MAIN_MIC, active_out, mode⟩⟩ verb
        (List.replicate H.MAX_DEVICES ⟨"builtin-speaker", H.AUDIO_DIRECTION_OUT⟩) H.MAX_DEVICES
      = none := by
  have hnames : setDevicesNames H ⟨⟨AUDIO_DEVICE_IN_MAIN_MIC, active_out, mode⟩⟩
        (List.replicate H.MAX_DEVICES ⟨"builtin-speaker", H.AUDIO_DIRECTION_OUT⟩)
      = some "MainMic" :: List.replicate H.MAX_DEVICES (some "Speaker") := by
    rw [setDevicesNames_replicate H _ _ _ (requestNames_speaker H hlen _) _ hM]
    have hscan : inScanNames ⟨⟨AUDIO_DEVICE_IN_MAIN_MIC, active_out, mode⟩⟩ = [some "MainMic"] :=
      (inScanNames_congr _ AUDIO_DEVICE_IN_MAIN_MIC rfl).trans (by decide)
    simp only [scanNames, if_true, hscan, List.singleton_append]
  refine ⟨hnames, ?_⟩
  have hrun := set_devices_eq H ucm ⟨⟨AUDIO_DEVICE_IN_MAIN_MIC, active_out, mode⟩⟩ verb
    (List.replicate H.MAX_DEVICES ⟨"builtin-speaker", H.AUDIO_DIRECTION_OUT⟩)
    (by intro h
        have hl := congrArg List.length h
        simp only [List.length_replicate, List.length_nil] at hl
        omega)
    (by simp)
  rw [List.length_replicate] at hrun
  rw [hrun, hnames, if_pos (by simp)]

/-- A concrete instance for C1's failure: the Tizen header, five "builtin-speaker"
entries of direction Out, one input device active. -/
theorem set_devices_out_batch_overflow_witness :
    0 < tizenHeader.MAX_DEVICES ∧ 16 < tizenHeader.MAX_NAME_LEN ∧
      __set_devices tizenHeader ucmOk ⟨⟨AUDIO_DEVICE_IN_MAIN_MIC, 0, 0⟩⟩ "HiFi"
        (List.replicate 5 ⟨"builtin-speaker", 1⟩) 5 = none :=
  ⟨by decide, by decide,
    (set_devices_out_batch_overflow tizenHeader ucmOk 0 0 "HiFi" (by decide) (by decide)).2⟩

theorem strncmp_voip_voip (H : Header) (hlen : 16 < H.MAX_NAME_LEN) :
    strncmp "voip" "voip" H.MAX_NAME_LEN = 0 := by
  rw [strncmp_eq_zero_iff "voip" "voip" H.MAX_NAME_LEN
    (by have : "voip".length = 4 := by decide
        omega)]

/-- C2, where the code departs from it: with `active_out = AUDIO_DEVICE_OUT_SPEAKER`,
`audio_update_route` with role "voip" and a batch of `MAX_DEVICES` entries "bt"
of direction In stores "Speaker" and then `MAX_DEVICES` times "BT Mic"; the
last store falls outside `active_devices`, so the call leaves no defined
value of `active_in`. -/
theorem audio_update_route_voip_overflow (H : Header) (ucm : Ucm) (active_in mode : Nat)
    (hM : 0 < H.MAX_DEVICES) (hlen : 16 < H.MAX_NAME_LEN)
    (hdir : H.AUDIO_DIRECTION_IN ≠ H.AUDIO_DIRECTION_OUT) :
    audio_update_route H ucm ⟨⟨active_in, AUDIO_DEVICE_OUT_SPEAKER, mode⟩⟩
        ⟨"voip", List.replicate H.MAX_DEVICES ⟨"bt", H.AUDIO_DIRECTION_IN⟩, H.MAX_DEVICES⟩
      = none := by
  have hnames : setDevicesNames H ⟨⟨active_in, AUDIO_DEVICE_OUT_SPEAKER, mode⟩⟩
        (List.replicate H.MAX_DEVICES ⟨"bt", H.AUDIO_DIRECTION_IN⟩)
      = some "Speaker" :: List.replicate H.MAX_DEVICES (some "BT Mic") := by
    rw [setDevicesNames_replicate H _ _ _ (requestNames_bt_in H hlen hdir) _ hM]
    have hscan : outScanNames ⟨⟨active_in, AUDIO_DEVICE_OUT_SPEAKER, mode⟩⟩ = [some "Speaker"] :=
      (outScanNames_congr _ AUDIO_DEVICE_OUT_SPEAKER rfl).trans (by decide)
    simp only [scanNames, if_neg hdir, if_true, hscan, List.singleton_append]
  have hrun := set_devices_eq H ucm ⟨⟨active_in, AUDIO_DEVICE_OUT_SPEAKER, mode⟩⟩
    AUDIO_USE_CASE_VERB_HIFI
    (List.replicate H.MAX_DEVICES ⟨"bt", H.AUDIO_DIRECTION_IN⟩)
    (by intro h
        have hl := congrArg List.length h
        simp only [List.length_replicate, List.length_nil] at hl
        omega)
    (by simp)
  rw [List.length_replicate, hnames, if_pos (by simp)] at hrun
  unfold audio_update_route __update_route_voip
  simp only []
  rw [if_pos (strncmp_voip_voip H hlen), mode_to_verb_str_normal]
  simp only []
  rw [hrun]
  rfl

/-- A concrete instance for C2's failure: the Tizen header, five "bt" entries
of direction In, the speaker active. -/
theorem audio_update_route_voip_overflow_witness :
    0 < tizenHeader.MAX_DEVICES ∧ 16 < tizenHeader.MAX_NAME_LEN ∧
      tizenHeader.AUDIO_DIRECTION_IN ≠ tizenHeader.AUDIO_DIRECTION_OUT ∧
      audio_update_route tizenHeader ucmOk ⟨⟨0, AUDIO_DEVICE_OUT_SPEAKER, 0⟩⟩
        ⟨"voip", List.replicate 5 ⟨"bt", 0⟩, 5⟩ = none :=
  ⟨by decide, by decide, by decide,
    audio_update_route_voip_overflow tizenHeader ucmOk 0 0 (by decide) (by decide) (by decide)⟩

/-! ## Direction isolation -/

theorem requestEntries_eq_nil_of_not_in (H : Header) (d : device_info_t)
    (hin : __convert_device_string_to_enum H d.type d.direction &&& AUDIO_DEVICE_IN ≠ 0)
    (h : __convert_device_string_to_enum H d.type d.direction ∉ inCatalogTypes) :
    requestEntries H d = [] := by
  unfold requestEntries
  rw [if_pos hin, List.filter_eq_nil_iff]
  intro e he hd
  apply h
  have hd2 : __convert_device_string_to_enum H d.type d.direction = e.type := by simpa using hd
  rw [hd2]
  exact List.mem_map_of_mem _ he

theorem requestEntries_eq_nil_of_not_out (H : Header) (d : device_info_t)
    (hin : ¬ __convert_device_string_to_enum H d.type d.direction &&& AUDIO_DEVICE_IN ≠ 0)
    (h : __convert_device_string_to_enum H d.type d.direction ∉ outCatalogTypes) :
    requestEntries H d = [] := by
  unfold requestEntries
  rw [if_neg hin, List.filter_eq_nil_iff]
  intro e he hd
  apply h
  have hd2 : __convert_device_string_to_enum H d.type d.direction = e.type := by simpa using hd
  rw [hd2]
  exact List.mem_map_of_mem _ he

theorem requestAh_active_in (H : Header) (d : device_info_t) (ah : audio_hal_t)
    (h : __convert_device_string_to_enum H d.type d.direction ∉ inCatalogTypes) :
    (requestAh H d ah).device.active_in = ah.device.active_in := by
  unfold requestAh
  by_cases hin : __convert_device_string_to_enum H d.type d.direction &&& AUDIO_DEVICE_IN ≠ 0
  · rw [if_pos (requestEntries_eq_nil_of_not_in H d hin h)]
  · by_cases hnil : requestEntries H d = []
    · rw [if_pos hnil]
    · rw [if_neg hnil, if_neg hin]
      rfl

theorem requestAh_active_out (H : Header) (d : device_info_t) (ah : audio_hal_t)
    (h : __convert_device_string_to_enum H d.type d.direction ∉ outCatalogTypes) :
    (requestAh H d ah).device.active_out = ah.device.active_out := by
  unfold requestAh
  by_cases hin : __convert_device_string_to_enum H d.type d.direction &&& AUDIO_DEVICE_IN ≠ 0
  · by_cases hnil : requestEntries H d = []
    · rw [if_pos hnil]
    · rw [if_neg hnil, if_pos hin]
      rfl
  · rw [if_pos (requestEntries_eq_nil_of_not_out H d hin h)]

theorem batchAh_active_in (H : Header) :
    ∀ (ds : List device_info_t) (ah : audio_hal_t),
      (∀ d ∈ ds, __convert_device_string_to_enum H d.type d.direction ∉ inCatalogTypes) →
      (batchAh H ds ah).device.active_in = ah.device.active_in := by
  intro ds
  induction ds with
  | nil => intro ah _; rfl
  | cons d ds ih =>
    intro ah h
    simp only [batchAh, List.foldl_cons]
    have h1 := ih (requestAh H d ah) (fun x hx => h x (List.mem_cons_of_mem _ hx))
    simp only [batchAh] at h1
    rw [h1, requestAh_active_in H d ah (h d (List.mem_cons_self _ _))]

theorem batchAh_active_out (H : Header) :
    ∀ (ds : List device_info_t) (ah : audio_hal_t),
      (∀ d ∈ ds, __convert_device_string_to_enum H d.type d.direction ∉ outCatalogTypes) →
      (batchAh H ds ah).device.active_out = ah.device.active_out := by
  intro ds
  induction ds with
  | nil => intro ah _; rfl
  | cons d ds ih =>
    intro ah h
    simp only [batchAh, List.foldl_cons]
    have h1 := ih (requestAh H d ah) (fun x hx => h x (List.mem_cons_of_mem _ hx))
    simp only [batchAh] at h1
    rw [h1, requestAh_active_out H d ah (h d (List.mem_cons_self _ _))]

/-- The outcome of `__set_devices` when the assembled names fit the array. -/
theorem set_devices_of_fit (H : Header) (ucm : Ucm) (ah : audio_hal_t) (verb : String)
    (devices : List device_info_t) (hne : devices ≠ [])
    (hM : devices.length ≤ H.MAX_DEVICES)
    (hfit : (setDevicesNames H ah devices).length ≤ H.MAX_DEVICES) :
    ∃ o, __set_devices H ucm ah verb devices devices.length = some o ∧
      o.ah = setDevicesAh H ah devices := by
  rw [set_devices_eq H ucm ah verb devices hne hM, if_neg (by omega)]
  by_cases hnil : setDevicesNames H ah devices = []
  · rw [if_pos hnil]
    exact ⟨_, rfl, rfl⟩
  · rw [if_neg hnil]
    exact ⟨_, rfl, rfl⟩

/-- C3 (amended): for a batch of 1 to `MAX_DEVICES` entries whose assembled
names fit the array, `__set_devices` returns, and (a) if every entry has
direction Out and none resolves to a device of the input catalog, `active_in`
is left unchanged; (b) if every entry has direction In and none resolves to a
device of the output catalog, `active_out` is left unchanged. -/
theorem set_devices_direction_isolation (H : Header) (ucm : Ucm) (ah : audio_hal_t)
    (verb : String) (devices : List device_info_t)
    (hdir : H.AUDIO_DIRECTION_IN ≠ H.AUDIO_DIRECTION_OUT)
    (hne : devices ≠ []) (hM : devices.length ≤ H.MAX_DEVICES)
    (hfit : (setDevicesNames H ah devices).length ≤ H.MAX_DEVICES) :
    ∃ o, __set_devices H ucm ah verb devices devices.length = some o ∧
      ((∀ d ∈ devices, d.direction = H.AUDIO_DIRECTION_OUT ∧
          __convert_device_string_to_enum H d.type d.direction ∉ inCatalogTypes) →
        o.ah.device.active_in = ah.device.active_in) ∧
      ((∀ d ∈ devices, d.direction = H.AUDIO_DIRECTION_IN ∧
          __convert_device_string_to_enum H d.type d.direction ∉ outCatalogTypes) →
        o.ah.device.active_out = ah.device.active_out) := by
  obtain ⟨o, ho, hah⟩ := set_devices_of_fit H ucm ah verb devices hne hM hfit
  refine ⟨o, ho, ?_, ?_⟩
  · intro hall
    rw [hah]
    cases devices with
    | nil => exact absurd rfl hne
    | cons d0 rest =>
      have hd0 := (hall d0 (List.mem_cons_self _ _)).1
      simp only [setDevicesAh]
      rw [batchAh_active_in H (d0 :: rest) _ (fun d hd => (hall d hd).2)]
      simp [clearedAh, hd0, clearOut]
  · intro hall
    rw [hah]
    cases devices with
    | nil => exact absurd rfl hne
    | cons d0 rest =>
      have hd0 := (hall d0 (List.mem_cons_self _ _)).1
      simp only [setDevicesAh]
      rw [batchAh_active_out H (d0 :: rest) _ (fun d hd => (hall d hd).2)]
      simp [clearedAh, hd0, hdir, clearIn]

/-- A concrete instance for C3: the speaker requested for Out while the main
microphone is active leaves `active_in` as it was. -/
theorem set_devices_direction_isolation_witness :
    tizenHeader.AUDIO_DIRECTION_IN ≠ tizenHeader.AUDIO_DIRECTION_OUT ∧
      ∃ o, __set_devices tizenHeader ucmOk ⟨⟨AUDIO_DEVICE_IN_MAIN_MIC, 0x4, 0⟩⟩ "HiFi"
          [⟨"builtin-speaker", 1⟩] 1 = some o ∧
        o.ah.device.active_in = AUDIO_DEVICE_IN_MAIN_MIC :=
  ⟨by decide,
    (set_devices_direction_isolation tizenHeader ucmOk ⟨⟨AUDIO_DEVICE_IN_MAIN_MIC, 0x4, 0⟩⟩
      "HiFi" [⟨"builtin-speaker", 1⟩] (by decide) (by decide) (by decide) (by decide)).imp
      fun _ h => ⟨h.1, h.2.1 (by decide)⟩⟩

/-- C3 fails as stated: a batch whose only entry has direction Out and type
"builtin-mic" sets `active_in` from 0 to `AUDIO_DEVICE_IN_MAIN_MIC`, and a
batch whose only entry has direction In and type "builtin-speaker" sets
`active_out` from 0 to `AUDIO_DEVICE_OUT_SPEAKER`. -/
theorem set_devices_crosses_direction :
    __set_devices tizenHeader ucmOk ⟨⟨0, 0, 0⟩⟩ "HiFi"
        [⟨"builtin-mic", tizenHeader.AUDIO_DIRECTION_OUT⟩] 1
      = some ⟨0, ⟨⟨AUDIO_DEVICE_IN_MAIN_MIC, 0, 0⟩⟩,
          some ⟨"HiFi", [some "MainMic", none, none, none, none]⟩⟩ ∧
    __set_devices tizenHeader ucmOk ⟨⟨0, 0, 0⟩⟩ "HiFi"
        [⟨"builtin-speaker", tizenHeader.AUDIO_DIRECTION_IN⟩] 1
      = some ⟨0, ⟨⟨0, AUDIO_DEVICE_OUT_SPEAKER, 0⟩⟩,
          some ⟨"HiFi", [some "Speaker", none, none, none, none]⟩⟩ := by
  decide

/-! ## Batches that resolve to nothing -/

theorem convert_unrecognized (H : Header) (hlen : 16 < H.MAX_NAME_LEN) (s : String) (d : Nat)
    (hs : s ∉ recognizedTags) :
    __convert_device_string_to_enum H s d = AUDIO_DEVICE_NONE := by
  obtain ⟨h1, h2, h3, h4, h5, h6, h7⟩ := strncmp_tags H hlen s
  simp only [recognizedTags, List.mem_cons, List.mem_singleton, List.not_mem_nil, or_false,
    not_or] at hs
  obtain ⟨n1, n2, n3, n4, n5, n6, n7⟩ := hs
  unfold __convert_device_string_to_enum
  simp only [h1, h2, h3, h4, h5, h6, h7, n1, n2, n3, n4, n5, n6, n7, false_and, if_false]

theorem requestEntries_unrecognized (H : Header) (hlen : 16 < H.MAX_NAME_LEN)
    (d : device_info_t) (hs : d.type ∉ recognizedTags) :
    requestEntries H d = [] := by
  unfold requestEntries
  rw [convert_unrecognized H hlen d.type d.direction hs]
  rfl

theorem batchNames_unrecognized (H : Header) (hlen : 16 < H.MAX_NAME_LEN) :
    ∀ ds : List device_info_t, (∀ d ∈ ds, d.type ∉ recognizedTags) → batchNames H ds = [] := by
  intro ds
  induction ds with
  | nil => intro _; rfl
  | cons d ds ih =>
    intro h
    have h1 := ih (fun x hx => h x (List.mem_cons_of_mem _ hx))
    simp only [batchNames] at h1
    simp only [batchNames, List.flatMap_cons, h1, requestNames,
      requestEntries_unrecognized H hlen d (h d (List.mem_cons_self _ _)), List.map_nil,
      List.append_nil]

theorem batchAh_unrecognized (H : Header) (hlen : 16 < H.MAX_NAME_LEN) :
    ∀ (ds : List device_info_t) (ah : audio_hal_t),
      (∀ d ∈ ds, d.type ∉ recognizedTags) → batchAh H ds ah = ah := by
  intro ds
  induction ds with
  | nil => intro ah _; rfl
  | cons d ds ih =>
    intro ah h
    have h1 := ih ah (fun x hx => h x (List.mem_cons_of_mem _ hx))
    have h2 : requestAh H d ah = ah := by
      unfold requestAh
      rw [if_pos (requestEntries_unrecognized H hlen d (h d (List.mem_cons_self _ _)))]
    simp only [batchAh] at h1
    simp only [batchAh, List.foldl_cons, h2, h1]

/-- C4 (amended): with `MAX_NAME_LEN` above 16, for a batch of 1 to `MAX_DEVICES`
entries none of whose type strings is a recognized tag, in a state in which
the scan for the other direction finds no active device, `__set_devices`
returns `AUDIO_ERR_PARAMETER` without calling the backend; the handle is left
with the mask of the direction of the first entry cleared. -/
theorem set_devices_nothing_resolved (H : Header) (ucm : Ucm) (ah : audio_hal_t)
    (verb : String) (d0 : device_info_t) (rest : List device_info_t)
    (hlen : 16 < H.MAX_NAME_LEN) (hM : (d0 :: rest).length ≤ H.MAX_DEVICES)
    (hunknown : ∀ d ∈ d0 :: rest, d.type ∉ recognizedTags)
    (hscan : scanNames H d0.direction ah = []) :
    __set_devices H ucm ah verb (d0 :: rest) (d0 :: rest).length
      = some ⟨H.AUDIO_ERR_PARAMETER, clearedAh H d0.direction ah, none⟩ := by
  have hnames : setDevicesNames H ah (d0 :: rest) = [] := by
    simp only [setDevicesNames, hscan, batchNames_unrecognized H hlen (d0 :: rest) hunknown,
      List.append_nil]
  have hah : setDevicesAh H ah (d0 :: rest) = clearedAh H d0.direction ah := by
    simp only [setDevicesAh, batchAh_unrecognized H hlen (d0 :: rest) _ hunknown]
  rw [set_devices_eq H ucm ah verb (d0 :: rest) (by simp) hM, hnames, hah]
  simp

/-- A concrete instance for C4: two unknown tags for Out with no input device active. -/
theorem set_devices_nothing_resolved_witness :
    16 < tizenHeader.MAX_NAME_LEN ∧
      __set_devices tizenHeader ucmOk ⟨⟨0, 0x5, 0⟩⟩ "HiFi"
          [⟨"usb-audio", 1⟩, ⟨"Builtin-Speaker", 1⟩] 2
        = some ⟨tizenHeader.AUDIO_ERR_PARAMETER, ⟨⟨0, 0, 0⟩⟩, none⟩ :=
  ⟨by decide,
    (set_devices_nothing_resolved tizenHeader ucmOk ⟨⟨0, 0x5, 0⟩⟩ "HiFi" ⟨"usb-audio", 1⟩
      [⟨"Builtin-Speaker", 1⟩] (by decide) (by decide) (by decide) (by decide)).trans
      (by decide)⟩

/-- C4 fails as stated: with `active_in = AUDIO_DEVICE_IN_MAIN_MIC`, a batch
whose only entry has direction Out and an unrecognized type string makes
`__set_devices` call the backend with "MainMic" and return the backend's
status, 0 here, which is not `AUDIO_ERR_PARAMETER`. -/
theorem set_devices_unrecognized_calls_backend :
    "usb-audio" ∉ recognizedTags ∧
    __set_devices tizenHeader ucmOk ⟨⟨AUDIO_DEVICE_IN_MAIN_MIC, 0, 0⟩⟩ "HiFi"
        [⟨"usb-audio", tizenHeader.AUDIO_DIRECTION_OUT⟩] 1
      = some ⟨0, ⟨⟨AUDIO_DEVICE_IN_MAIN_MIC, 0, 0⟩⟩,
          some ⟨"HiFi", [some "MainMic", none, none, none, none]⟩⟩ ∧
    tizenHeader.AUDIO_ERR_PARAMETER ≠ 0 := by
  decide

/-! ## Running a batch twice -/

theorem requestAh_speaker (H : Header) (hlen : 16 < H.MAX_NAME_LEN) (d : Nat) (ah : audio_hal_t) :
    requestAh H ⟨"builtin-speaker", d⟩ ah = orOut AUDIO_DEVICE_OUT_SPEAKER ah := by
  have hne : requestEntries H ⟨"builtin-speaker", d⟩ ≠ [] := by
    intro h
    have h2 := requestNames_speaker H hlen d
    simp [requestNames, h] at h2
  unfold requestAh
  rw [if_neg hne]
  simp only [convert_speaker H hlen]
  rfl

theorem requestAh_aux (H : Header) (hlen : 16 < H.MAX_NAME_LEN) (d : Nat) (ah : audio_hal_t) :
    requestAh H ⟨"aux", d⟩ ah = orOut AUDIO_DEVICE_OUT_AUX ah := by
  have hne : requestEntries H ⟨"aux", d⟩ ≠ [] := by
    intro h
    have h2 := requestNames_aux H hlen d
    simp [requestNames, h] at h2
  unfold requestAh
  rw [if_neg hne]
  simp only [convert_aux H hlen]
  rfl

theorem batchAh_replicate_aux (H : Header) (hlen : 16 < H.MAX_NAME_LEN) (d : Nat) :
    ∀ (n : Nat) (ah : audio_hal_t),
      batchAh H (List.replicate (n + 1) ⟨"aux", d⟩) ah = orOut AUDIO_DEVICE_OUT_AUX ah := by
  intro n
  induction n with
  | zero =>
    intro ah
    simp [batchAh, requestAh_aux H hlen]
  | succ n ih =>
    intro ah
    have h1 := ih (orOut AUDIO_DEVICE_OUT_AUX ah)
    rw [orOut_orOut] at h1
    rw [← h1]
    simp only [batchAh, List.replicate_succ, List.foldl_cons, requestAh_aux H hlen]

/-- C6, where the code departs from it: with `MAX_DEVICES` at least 3, take the
batch of `MAX_DEVICES - 1` entries of direction In made of "builtin-speaker"
followed by "aux" entries, in a state with `active_out = 0`.  The first run
stores `MAX_DEVICES - 1` names, calls the backend and leaves
`active_out = 0x11`; the second run first stores "Speaker" and "Line" for the
output devices now active and then overruns `active_devices`, so that it has
no defined outcome and no masks to compare with those of the single run. -/
theorem set_devices_twice_overflow (H : Header) (ucm1 ucm2 : Ucm) (active_in mode : Nat)
    (verb : String) (hM : 3 ≤ H.MAX_DEVICES) (hlen : 16 < H.MAX_NAME_LEN)
    (hdir : H.AUDIO_DIRECTION_IN ≠ H.AUDIO_DIRECTION_OUT) :
    ∃ o, __set_devices H ucm1 ⟨⟨active_in, 0, mode⟩⟩ verb
          (⟨"builtin-speaker", H.AUDIO_DIRECTION_IN⟩ ::
            List.replicate (H.MAX_DEVICES - 2) ⟨"aux", H.AUDIO_DIRECTION_IN⟩)
          (H.MAX_DEVICES - 1) = some o ∧
      o.call ≠ none ∧ o.ah = ⟨⟨0, 0x11, mode⟩⟩ ∧
      __set_devices H ucm2 o.ah verb
          (⟨"builtin-speaker", H.AUDIO_DIRECTION_IN⟩ ::
            List.replicate (H.MAX_DEVICES - 2) ⟨"aux", H.AUDIO_DIRECTION_IN⟩)
          (H.MAX_DEVICES - 1) = none := by
  obtain ⟨k, hk⟩ : ∃ k, H.MAX_DEVICES - 2 = k + 1 := ⟨H.MAX_DEVICES - 3, by omega⟩
  have hcount : H.MAX_DEVICES - 1 = (⟨"builtin-speaker", H.AUDIO_DIRECTION_IN⟩ ::
      List.replicate (H.MAX_DEVICES - 2) (⟨"aux", H.AUDIO_DIRECTION_IN⟩ : device_info_t)).length := by
    simp only [List.length_cons, List.length_replicate]; omega
  rw [hcount]
  generalize hb : (⟨"builtin-speaker", H.AUDIO_DIRECTION_IN⟩ ::
      List.replicate (H.MAX_DEVICES - 2) (⟨"aux", H.AUDIO_DIRECTION_IN⟩ : device_info_t)) = batch
  have hlenb : batch.length ≤ H.MAX_DEVICES := by
    rw [← hb]; simp only [List.length_cons, List.length_replicate]; omega
  have hneb : batch ≠ [] := by rw [← hb]; simp
  have hbn : batchNames H batch
      = some "Speaker" :: List.replicate (H.MAX_DEVICES - 2) (some "Line") := by
    rw [← hb]
    have h1 := batchNames_replicate_of_single H ⟨"aux", H.AUDIO_DIRECTION_IN⟩ (some "Line")
      (requestNames_aux H hlen _) (H.MAX_DEVICES - 2)
    simp only [batchNames] at h1
    simp only [batchNames, List.flatMap_cons, h1, requestNames_speaker H hlen,
      List.singleton_append]
  have hnames : ∀ ah : audio_hal_t, setDevicesNames H ah batch
      = outScanNames ah ++ (some "Speaker" :: List.replicate (H.MAX_DEVICES - 2) (some "Line")) := by
    intro ah
    rw [← hbn, ← hb]
    simp only [setDevicesNames, scanNames, if_neg hdir, if_true]
  have hah : ∀ ah : audio_hal_t, setDevicesAh H ah batch
      = orOut AUDIO_DEVICE_OUT_AUX (orOut AUDIO_DEVICE_OUT_SPEAKER (clearIn ah)) := by
    intro ah
    rw [← hb, hk]
    have h1 := batchAh_replicate_aux H hlen H.AUDIO_DIRECTION_IN k
      (orOut AUDIO_DEVICE_OUT_SPEAKER (clearIn ah))
    simp only [batchAh] at h1
    simp only [setDevicesAh, batchAh, List.foldl_cons, requestAh_speaker H hlen, clearedAh,
      if_neg hdir, if_true, h1]
  have hrun1 := set_devices_eq H ucm1 ⟨⟨active_in, 0, mode⟩⟩ verb batch hneb hlenb
  have hscan1 : outScanNames ⟨⟨active_in, 0, mode⟩⟩ = [] := outScanNames_of_zero _ rfl
  rw [hnames, hscan1, hah] at hrun1
  have hfit1 : ¬ H.MAX_DEVICES
      < ([] ++ (some "Speaker" :: List.replicate (H.MAX_DEVICES - 2) (some "Line"))).length := by
    simp only [List.nil_append, List.length_cons, List.length_replicate]; omega
  rw [if_neg hfit1, if_neg (by simp)] at hrun1
  have hstate : orOut AUDIO_DEVICE_OUT_AUX (orOut AUDIO_DEVICE_OUT_SPEAKER
      (clearIn ⟨⟨active_in, 0, mode⟩⟩)) = ⟨⟨0, 0x11, mode⟩⟩ := by
    simp [orOut, clearIn, AUDIO_DEVICE_OUT_AUX, AUDIO_DEVICE_OUT_SPEAKER]
  refine ⟨_, hrun1, by simp, hstate, ?_⟩
  show __set_devices H ucm2 (orOut AUDIO_DEVICE_OUT_AUX (orOut AUDIO_DEVICE_OUT_SPEAKER
      (clearIn ⟨⟨active_in, 0, mode⟩⟩))) verb batch batch.length = none
  rw [hstate, set_devices_eq H ucm2 ⟨⟨0, 0x11, mode⟩⟩ verb batch hneb hlenb, hnames]
  have hscan2 : outScanNames ⟨⟨0, 0x11, mode⟩⟩ = [some "Speaker", some "Line"] :=
    (outScanNames_congr _ 0x11 rfl).trans (by decide)
  rw [hscan2, if_pos]
  simp only [List.cons_append, List.nil_append, List.length_cons, List.length_replicate]
  omega

/-- A concrete instance for C6's failure under the Tizen header: the batch
"builtin-speaker", "aux", "aux", "aux" of direction In, run twice from the
initial masks. -/
theorem set_devices_twice_overflow_witness :
    3 ≤ tizenHeader.MAX_DEVICES ∧ 16 < tizenHeader.MAX_NAME_LEN ∧
      tizenHeader.AUDIO_DIRECTION_IN ≠ tizenHeader.AUDIO_DIRECTION_OUT ∧
      ∃ o, __set_devices tizenHeader ucmOk ⟨⟨0, 0, 0⟩⟩ "HiFi"
            [⟨"builtin-speaker", 0⟩, ⟨"aux", 0⟩, ⟨"aux", 0⟩, ⟨"aux", 0⟩] 4 = some o ∧
        o.call ≠ none ∧ o.ah = ⟨⟨0, 0x11, 0⟩⟩ ∧
        __set_devices tizenHeader ucmOk o.ah "HiFi"
            [⟨"builtin-speaker", 0⟩, ⟨"aux", 0⟩, ⟨"aux", 0⟩, ⟨"aux", 0⟩] 4 = none :=
  ⟨by decide, by decide, by decide,
    set_devices_twice_overflow tizenHeader ucmOk ucmOk 0 0 "HiFi" (by decide) (by decide)
      (by decide)⟩

/-! ## The masks a batch leaves -/

theorem inCatalogTypes_flag : ∀ t ∈ inCatalogTypes, t &&& AUDIO_DEVICE_IN ≠ 0 := by decide

theorem outCatalogTypes_flag : ∀ t ∈ outCatalogTypes, t &&& AUDIO_DEVICE_IN = 0 := by decide

theorem filter_type_eq_nil_iff (v : Nat) (cat : List device_type_t) :
    cat.filter (fun e => decide (v = e.type)) = [] ↔ v ∉ cat.map (·.type) := by
  rw [List.filter_eq_nil_iff]
  constructor
  · intro h hv
    obtain ⟨e, he, hev⟩ := List.mem_map.mp hv
    exact h e he (by simp [hev])
  · intro h e he hv
    apply h
    have hv2 : v = e.type := by simpa using hv
    rw [hv2]
    exact List.mem_map_of_mem _ he

theorem requestAh_eq_masks (H : Header) (d : device_info_t) (ah : audio_hal_t) :
    requestAh H d ah =
      ⟨⟨ah.device.active_in ||| requestInMask H d, ah.device.active_out ||| requestOutMask H d,
        ah.device.mode⟩⟩ := by
  unfold requestAh requestEntries requestInMask requestOutMask
  by_cases hin : __convert_device_string_to_enum H d.type d.direction &&& AUDIO_DEVICE_IN ≠ 0
  · have hnout : __convert_device_string_to_enum H d.type d.direction ∉ outCatalogTypes :=
      fun h => hin (outCatalogTypes_flag _ h)
    rw [if_pos hin, if_neg hnout]
    by_cases hmem : __convert_device_string_to_enum H d.type d.direction ∈ inCatalogTypes
    · have hne : ¬ inCatalog.filter
          (fun e => decide (__convert_device_string_to_enum H d.type d.direction = e.type)) = [] := by
        rw [filter_type_eq_nil_iff]
        exact fun h => h hmem
      rw [if_neg hne, if_pos hin, if_pos hmem]
      simp [orIn]
    · have hnil : inCatalog.filter
          (fun e => decide (__convert_device_string_to_enum H d.type d.direction = e.type)) = [] := by
        rw [filter_type_eq_nil_iff]
        exact hmem
      rw [if_pos hnil, if_neg hmem]
      simp
  · have hnin : __convert_device_string_to_enum H d.type d.direction ∉ inCatalogTypes :=
      fun h => hin (inCatalogTypes_flag _ h)
    rw [if_neg hin, if_neg hnin]
    by_cases hmem : __convert_device_string_to_enum H d.type d.direction ∈ outCatalogTypes
    · have hne : ¬ outCatalog.filter
          (fun e => decide (__convert_device_string_to_enum H d.type d.direction = e.type)) = [] := by
        rw [filter_type_eq_nil_iff]
        exact fun h => h hmem
      rw [if_neg hne, if_neg hin, if_pos hmem]
      simp [orOut]
    · have hnil : outCatalog.filter
          (fun e => decide (__convert_device_string_to_enum H d.type d.direction = e.type)) = [] := by
        rw [filter_type_eq_nil_iff]
        exact hmem
      rw [if_pos hnil, if_neg hmem]
      simp

theorem batchAh_eq_masks (H : Header) :
    ∀ (ds : List device_info_t) (ah : audio_hal_t),
      batchAh H ds ah =
        ⟨⟨ah.device.active_in ||| orAll (ds.map (requestInMask H)),
          ah.device.active_out ||| orAll (ds.map (requestOutMask H)), ah.device.mode⟩⟩ := by
  intro ds
  induction ds with
  | nil => intro ah; simp [batchAh, orAll]
  | cons d ds ih =>
    intro ah
    have h1 := ih (requestAh H d ah)
    rw [requestAh_eq_masks H d ah] at h1
    simp only [batchAh] at h1
    simp only [batchAh, List.foldl_cons, requestAh_eq_masks H d ah, h1, List.map_cons, orAll,
      List.foldr_cons, Nat.or_assoc]

theorem orAll_map_ite (p : Nat → Prop) [DecidablePred p] (vs : List Nat) :
    orAll (vs.map fun v => if p v then v else 0) = orAll (vs.filter fun v => decide (p v)) := by
  induction vs with
  | nil => rfl
  | cons v vs ih =>
    simp only [orAll] at ih
    by_cases hv : p v
    · simp [orAll, hv, ih]
    · simp [orAll, hv, ih]

/-- The masks `__set_devices` leaves for a batch, in terms of the resolved values. -/
theorem setDevicesAh_eq_masks (H : Header) (ah : audio_hal_t) (d0 : device_info_t)
    (rest : List device_info_t) :
    setDevicesAh H ah (d0 :: rest) =
      ⟨⟨(clearedAh H d0.direction ah).device.active_in |||
          orAll ((resolvedValues H (d0 :: rest)).filter fun v => decide (v ∈ inCatalogTypes)),
        (clearedAh H d0.direction ah).device.active_out |||
          orAll ((resolvedValues H (d0 :: rest)).filter fun v => decide (v ∈ outCatalogTypes)),
        ah.device.mode⟩⟩ := by
  have hmode : (clearedAh H d0.direction ah).device.mode = ah.device.mode := by
    unfold clearedAh
    split
    · rfl
    · split <;> rfl
  have hin : (d0 :: rest).map (requestInMask H)
      = (resolvedValues H (d0 :: rest)).map fun v => if v ∈ inCatalogTypes then v else 0 := by
    simp only [resolvedValues, List.map_map]
    rfl
  have hout : (d0 :: rest).map (requestOutMask H)
      = (resolvedValues H (d0 :: rest)).map fun v => if v ∈ outCatalogTypes then v else 0 := by
    simp only [resolvedValues, List.map_map]
    rfl
  simp only [setDevicesAh]
  rw [batchAh_eq_masks, hin, hout, orAll_map_ite, orAll_map_ite, hmode]

/-- The masks after a batch whose first entry has direction In or Out, when
the assembled names fit the array: the mask of that direction is exactly the
OR of the resolved values that are devices of its catalog, whatever it was
before. -/
theorem set_devices_replaces_mask (H : Header) (ucm : Ucm) (ah : audio_hal_t) (verb : String)
    (d0 : device_info_t) (rest : List device_info_t)
    (hdir : H.AUDIO_DIRECTION_IN ≠ H.AUDIO_DIRECTION_OUT)
    (hM : (d0 :: rest).length ≤ H.MAX_DEVICES)
    (hfit : (setDevicesNames H ah (d0 :: rest)).length ≤ H.MAX_DEVICES) :
    ∃ o, __set_devices H ucm ah verb (d0 :: rest) (d0 :: rest).length = some o ∧
      (d0.direction = H.AUDIO_DIRECTION_IN →
        o.ah.device.active_in
          = orAll ((resolvedValues H (d0 :: rest)).filter fun v => decide (v ∈ inCatalogTypes))) ∧
      (d0.direction = H.AUDIO_DIRECTION_OUT →
        o.ah.device.active_out
          = orAll ((resolvedValues H (d0 :: rest)).filter fun v => decide (v ∈ outCatalogTypes))) := by
  obtain ⟨o, ho, hah⟩ := set_devices_of_fit H ucm ah verb (d0 :: rest) (by simp) hM hfit
  refine ⟨o, ho, ?_, ?_⟩
  · intro hd
    rw [hah, setDevicesAh_eq_masks]
    simp [clearedAh, hd, hdir, clearIn]
  · intro hd
    rw [hah, setDevicesAh_eq_masks]
    simp [clearedAh, hd, clearOut]

/-- Every role that does not select the reset strategy is served by
`__set_devices` with the verb "HiFi", followed by the assignment of the mode
on success. -/
theorem audio_update_route_of_not_reset (H : Header) (ucm : Ucm) (ah : audio_hal_t)
    (info : audio_route_info_t)
    (hrole : strncmp "voip" info.role H.MAX_NAME_LEN = 0 ∨
      strncmp "reset" info.role H.MAX_NAME_LEN ≠ 0) :
    audio_update_route H ucm ah info =
      (__set_devices H ucm ah AUDIO_USE_CASE_VERB_HIFI info.device_infos
        info.num_of_devices).map setModeOnSuccess := by
  unfold audio_update_route
  by_cases hvoip : strncmp "voip" info.role H.MAX_NAME_LEN = 0
  · rw [if_pos hvoip]
    rfl
  · rcases hrole with h | h
    · exact absurd h hvoip
    · rw [if_neg hvoip, if_neg h]
      rfl

theorem setModeOnSuccess_masks (o : Outcome) :
    (setModeOnSuccess o).ah.device.active_in = o.ah.device.active_in ∧
      (setModeOnSuccess o).ah.device.active_out = o.ah.device.active_out ∧
      (setModeOnSuccess o).ret = o.ret ∧ (setModeOnSuccess o).call = o.call := by
  unfold setModeOnSuccess
  split <;> exact ⟨rfl, rfl, rfl, rfl⟩

/-- What C2 describes, in every case in which the call is defined: for a role
other than "reset" and a batch whose assembled names fit the array, the mask
of the direction of the first entry is replaced by the OR of the resolved
values that are devices of that direction's catalog. -/
theorem audio_update_route_replaces_mask (H : Header) (ucm : Ucm) (ah : audio_hal_t)
    (role : String) (d0 : device_info_t) (rest : List device_info_t)
    (hrole : strncmp "voip" role H.MAX_NAME_LEN = 0 ∨ strncmp "reset" role H.MAX_NAME_LEN ≠ 0)
    (hdir : H.AUDIO_DIRECTION_IN ≠ H.AUDIO_DIRECTION_OUT)
    (hM : (d0 :: rest).length ≤ H.MAX_DEVICES)
    (hfit : (setDevicesNames H ah (d0 :: rest)).length ≤ H.MAX_DEVICES) :
    ∃ o, audio_update_route H ucm ah ⟨role, d0 :: rest, (d0 :: rest).length⟩ = some o ∧
      (d0.direction = H.AUDIO_DIRECTION_IN →
        o.ah.device.active_in
          = orAll ((resolvedValues H (d0 :: rest)).filter fun v => decide (v ∈ inCatalogTypes))) ∧
      (d0.direction = H.AUDIO_DIRECTION_OUT →
        o.ah.device.active_out
          = orAll ((resolvedValues H (d0 :: rest)).filter fun v => decide (v ∈ outCatalogTypes))) := by
  obtain ⟨o, ho, hin, hout⟩ :=
    set_devices_replaces_mask H ucm ah AUDIO_USE_CASE_VERB_HIFI d0 rest hdir hM hfit
  refine ⟨setModeOnSuccess o, ?_, ?_, ?_⟩
  · rw [audio_update_route_of_not_reset H ucm ah _ hrole]
    show (__set_devices H ucm ah AUDIO_USE_CASE_VERB_HIFI (d0 :: rest) (d0 :: rest).length).map
      setModeOnSuccess = _
    rw [ho]
    rfl
  · intro hd
    rw [(setModeOnSuccess_masks o).1]
    exact hin hd
  · intro hd
    rw [(setModeOnSuccess_masks o).2.1]
    exact hout hd

/-- What C6 describes, in every case in which both runs are defined: a second
run of `__set_devices` with the same batch leaves the masks of the first. -/
theorem set_devices_twice_masks (H : Header) (ucm1 ucm2 : Ucm) (ah : audio_hal_t)
    (verb : String) (devices : List device_info_t) (o1 o2 : Outcome)
    (h1 : __set_devices H ucm1 ah verb devices devices.length = some o1)
    (h2 : __set_devices H ucm2 o1.ah verb devices devices.length = some o2) :
    o2.ah.device.active_in = o1.ah.device.active_in ∧
      o2.ah.device.active_out = o1.ah.device.active_out := by
  cases devices with
  | nil =>
    simp [__set_devices] at h1 h2
    rw [← h2, ← h1]
    exact ⟨rfl, rfl⟩
  | cons d0 rest =>
    by_cases hM : (d0 :: rest).length ≤ H.MAX_DEVICES
    · have key : ∀ (ucm : Ucm) (a : audio_hal_t) (o : Outcome),
          __set_devices H ucm a verb (d0 :: rest) (d0 :: rest).length = some o →
          o.ah = setDevicesAh H a (d0 :: rest) := by
        intro ucm a o h
        rw [set_devices_eq H ucm a verb (d0 :: rest) (by simp) hM] at h
        split at h
        · exact absurd h (by simp)
        · split at h
          · rw [← Option.some.inj h]
          · rw [← Option.some.inj h]
      have e1 := key ucm1 ah o1 h1
      have e2 := key ucm2 o1.ah o2 h2
      rw [e2, e1, setDevicesAh_eq_masks, setDevicesAh_eq_masks]
      unfold clearedAh
      by_cases hout : d0.direction = H.AUDIO_DIRECTION_OUT
      · simp [hout, clearOut, Nat.or_assoc]
      · by_cases hin : d0.direction = H.AUDIO_DIRECTION_IN
        · have hne : ¬ H.AUDIO_DIRECTION_IN = H.AUDIO_DIRECTION_OUT := fun h => hout (hin.trans h)
          simp [hin, hne, clearIn, Nat.or_assoc]
        · simp [hout, hin, Nat.or_assoc]
    · have hbig : H.MAX_DEVICES < (d0 :: rest).length := by omega
      have hn0 : (d0 :: rest).length ≠ 0 := by simp
      unfold __set_devices at h1 h2
      rw [if_neg hn0, if_pos hbig] at h1 h2
      rw [← Option.some.inj h2, ← Option.some.inj h1]
      exact ⟨rfl, rfl⟩

/-! ## The assembled names in explicit form -/

theorem land_not_flag (a t : Nat) :
    (a &&& not32 AUDIO_DEVICE_IN) &&& t = a &&& (not32 AUDIO_DEVICE_IN &&& t) :=
  Nat.and_assoc a _ t

theorem map_filter_cons_eq {α β : Type} (p : α → Bool) (f : α → β) (e : α) (l : List α) :
    ((e :: l).filter p).map f = (if p e = true then [f e] else []) ++ (l.filter p).map f := by
  by_cases h : p e = true
  · rw [List.filter_cons_of_pos h, if_pos h]
    rfl
  · rw [List.filter_cons_of_neg h, if_neg h]
    rfl

/-- The scan of the input catalog yields, in catalog order, the name of every
entry whose bit (0x1, 0x4, 0x8) is present in `active_in`. -/
theorem inScanNames_explicit (ah : audio_hal_t) :
    inScanNames ah =
      (if ah.device.active_in &&& 0x1 ≠ 0 then [some "MainMic"] else []) ++
      ((if ah.device.active_in &&& 0x4 ≠ 0 then [some "HeadsetMic"] else []) ++
      (if ah.device.active_in &&& 0x8 ≠ 0 then [some "BT Mic"] else [])) := by
  have h1 : not32 AUDIO_DEVICE_IN &&& AUDIO_DEVICE_IN_MAIN_MIC = 0x1 := by decide
  have h2 : not32 AUDIO_DEVICE_IN &&& AUDIO_DEVICE_IN_JACK = 0x4 := by decide
  have h3 : not32 AUDIO_DEVICE_IN &&& AUDIO_DEVICE_IN_BT_SCO = 0x8 := by decide
  have hcat : inCatalog = [⟨AUDIO_DEVICE_IN_MAIN_MIC, some "MainMic"⟩,
      ⟨AUDIO_DEVICE_IN_JACK, some "HeadsetMic"⟩, ⟨AUDIO_DEVICE_IN_BT_SCO, some "BT Mic"⟩] := rfl
  simp only [inScanNames, hcat, map_filter_cons_eq, List.filter_nil, List.map_nil,
    List.append_nil, inActive, decide_eq_true_eq, land_not_flag, h1, h2, h3]

/-- The scan of the output catalog yields, in catalog order, the name of every
entry whose bit is present in `active_out`. -/
theorem outScanNames_explicit (ah : audio_hal_t) :
    outScanNames ah =
      (if ah.device.active_out &&& 0x1 ≠ 0 then [some "Speaker"] else []) ++
      ((if ah.device.active_out &&& 0x4 ≠ 0 then [some "Headphones"] else []) ++
      ((if ah.device.active_out &&& 0x8 ≠ 0 then [some "Bluetooth"] else []) ++
      ((if ah.device.active_out &&& 0x10 ≠ 0 then [some "Line"] else []) ++
      (if ah.device.active_out &&& 0x20 ≠ 0 then [some "HDMI"] else [])))) := by
  have hcat : outCatalog = [⟨0x1, some "Speaker"⟩, ⟨0x4, some "Headphones"⟩,
      ⟨0x8, some "Bluetooth"⟩, ⟨0x10, some "Line"⟩, ⟨0x20, some "HDMI"⟩] := rfl
  simp only [outScanNames, hcat, map_filter_cons_eq, List.filter_nil, List.map_nil,
    List.append_nil, outActive, decide_eq_true_eq]

/-- The entries a request matches are the entries of either catalog whose
device value is the resolved value of the request. -/
theorem requestEntries_eq_filter (H : Header) (d : device_info_t) :
    requestEntries H d = (inCatalog ++ outCatalog).filter
      fun e => decide (__convert_device_string_to_enum H d.type d.direction = e.type) := by
  unfold requestEntries
  rw [List.filter_append]
  by_cases hin : __convert_device_string_to_enum H d.type d.direction &&& AUDIO_DEVICE_IN ≠ 0
  · have hnout : __convert_device_string_to_enum H d.type d.direction ∉ outCatalog.map (·.type) :=
      fun h => hin (outCatalogTypes_flag _ h)
    rw [if_pos hin, (filter_type_eq_nil_iff _ outCatalog).mpr hnout, List.append_nil]
  · have hnin : __convert_device_string_to_enum H d.type d.direction ∉ inCatalog.map (·.type) :=
      fun h => hin (inCatalogTypes_flag _ h)
    rw [if_neg hin, (filter_type_eq_nil_iff _ inCatalog).mpr hnin, List.nil_append]

/-! ## The scenarios of the specification -/

/-- The scenario of C1: with `active_in = AUDIO_DEVICE_IN_MAIN_MIC`, the batch
of the single entry "builtin-speaker" of direction Out hands "MainMic",
"Speaker" to the backend with the verb passed in, sets `active_out` to
`AUDIO_DEVICE_OUT_SPEAKER` and leaves `active_in` as it was. -/
theorem set_devices_speaker_scenario (H : Header) (ucm : Ucm) (active_out mode : Nat)
    (verb : String) (hM : 2 ≤ H.MAX_DEVICES) (hlen : 16 < H.MAX_NAME_LEN) :
    __set_devices H ucm ⟨⟨AUDIO_DEVICE_IN_MAIN_MIC, active_out, mode⟩⟩ verb
        [⟨"builtin-speaker", H.AUDIO_DIRECTION_OUT⟩] 1
      = some ⟨ucm ⟨⟨AUDIO_DEVICE_IN_MAIN_MIC, AUDIO_DEVICE_OUT_SPEAKER, mode⟩⟩ verb
            (padded H [some "MainMic", some "Speaker"]),
          ⟨⟨AUDIO_DEVICE_IN_MAIN_MIC, AUDIO_DEVICE_OUT_SPEAKER, mode⟩⟩,
          some ⟨verb, padded H [some "MainMic", some "Speaker"]⟩⟩ := by
  have hscan : inScanNames ⟨⟨AUDIO_DEVICE_IN_MAIN_MIC, active_out, mode⟩⟩ = [some "MainMic"] :=
    (inScanNames_congr _ AUDIO_DEVICE_IN_MAIN_MIC rfl).trans (by decide)
  have hnames : setDevicesNames H ⟨⟨AUDIO_DEVICE_IN_MAIN_MIC, active_out, mode⟩⟩
      [⟨"builtin-speaker", H.AUDIO_DIRECTION_OUT⟩] = [some "MainMic", some "Speaker"] := by
    simp [setDevicesNames, scanNames, hscan, batchNames, requestNames_speaker H hlen]
  have hah : setDevicesAh H ⟨⟨AUDIO_DEVICE_IN_MAIN_MIC, active_out, mode⟩⟩
      [⟨"builtin-speaker", H.AUDIO_DIRECTION_OUT⟩]
      = ⟨⟨AUDIO_DEVICE_IN_MAIN_MIC, AUDIO_DEVICE_OUT_SPEAKER, mode⟩⟩ := by
    simp [setDevicesAh, batchAh, requestAh_speaker H hlen, clearedAh, clearOut, orOut]
  have hrun := set_devices_eq H ucm ⟨⟨AUDIO_DEVICE_IN_MAIN_MIC, active_out, mode⟩⟩ verb
    [⟨"builtin-speaker", H.AUDIO_DIRECTION_OUT⟩] (by simp)
    (by simp only [List.length_singleton]; omega)
  rw [hnames, hah] at hrun
  simp only [List.length_singleton] at hrun
  rw [hrun, if_neg (by simp only [List.length_cons, List.length_nil]; omega), if_neg (by simp)]

/-- The scenario of C2: `audio_update_route` with role "voip" and the single
entry "bt" of direction In, no output device being active, sets `active_in`
to `AUDIO_DEVICE_IN_BT_SCO` whatever it was and calls the backend with the
verb "HiFi" and the name "BT Mic". -/
theorem audio_update_route_voip_scenario (H : Header) (ucm : Ucm) (active_in mode : Nat)
    (hM : 0 < H.MAX_DEVICES) (hlen : 16 < H.MAX_NAME_LEN)
    (hdir : H.AUDIO_DIRECTION_IN ≠ H.AUDIO_DIRECTION_OUT) :
    ∃ o, audio_update_route H ucm ⟨⟨active_in, 0, mode⟩⟩
          ⟨"voip", [⟨"bt", H.AUDIO_DIRECTION_IN⟩], 1⟩ = some o ∧
      o.ah.device.active_in = AUDIO_DEVICE_IN_BT_SCO ∧ o.ah.device.active_out = 0 ∧
      o.call = some ⟨AUDIO_USE_CASE_VERB_HIFI, padded H [some "BT Mic"]⟩ := by
  have hnames : setDevicesNames H ⟨⟨active_in, 0, mode⟩⟩ [⟨"bt", H.AUDIO_DIRECTION_IN⟩]
      = [some "BT Mic"] := by
    have hscan : outScanNames ⟨⟨active_in, 0, mode⟩⟩ = [] := outScanNames_of_zero _ rfl
    simp [setDevicesNames, scanNames, hdir, hscan, batchNames, requestNames_bt_in H hlen hdir]
  have hah : setDevicesAh H ⟨⟨active_in, 0, mode⟩⟩ [⟨"bt", H.AUDIO_DIRECTION_IN⟩]
      = ⟨⟨AUDIO_DEVICE_IN_BT_SCO, 0, mode⟩⟩ := by
    rw [setDevicesAh_eq_masks]
    simp [resolvedValues, convert_bt_in H hlen hdir, clearedAh, hdir, clearIn, orAll,
      inCatalogTypes, outCatalogTypes, inCatalog, outCatalog, inDeviceTypes, outDeviceTypes,
      AUDIO_DEVICE_IN_BT_SCO, AUDIO_DEVICE_IN_MAIN_MIC, AUDIO_DEVICE_IN_JACK, AUDIO_DEVICE_IN,
      AUDIO_DEVICE_OUT_SPEAKER, AUDIO_DEVICE_OUT_JACK, AUDIO_DEVICE_OUT_BT_SCO,
      AUDIO_DEVICE_OUT_AUX, AUDIO_DEVICE_OUT_HDMI]
  have hrun := set_devices_eq H ucm ⟨⟨active_in, 0, mode⟩⟩ AUDIO_USE_CASE_VERB_HIFI
    [⟨"bt", H.AUDIO_DIRECTION_IN⟩] (by simp)
    (by simp only [List.length_singleton]; omega)
  rw [hnames, hah] at hrun
  simp only [List.length_singleton] at hrun
  rw [if_neg (by omega), if_neg (by simp)] at hrun
  rw [audio_update_route_of_not_reset H ucm _ _ (Or.inl (strncmp_voip_voip H hlen))]
  show ∃ o, (__set_devices H ucm ⟨⟨active_in, 0, mode⟩⟩ AUDIO_USE_CASE_VERB_HIFI
      [⟨"bt", H.AUDIO_DIRECTION_IN⟩] 1).map setModeOnSuccess = some o ∧ _
  rw [hrun]
  refine ⟨_, rfl, ?_, ?_, ?_⟩
  · rw [(setModeOnSuccess_masks _).1]
  · rw [(setModeOnSuccess_masks _).2.1]
  · rw [(setModeOnSuccess_masks _).2.2.2]

/-! ## Which tags cross to the other direction -/

theorem convert_receiver (H : Header) (hlen : 16 < H.MAX_NAME_LEN) (d : Nat) :
    __convert_device_string_to_enum H "builtin-receiver" d = H.AUDIO_DEVICE_OUT_RECEIVER := by
  obtain ⟨h1, h2, -⟩ := strncmp_tags H hlen "builtin-receiver"
  unfold __convert_device_string_to_enum
  simp only [h1, h2]
  simp

theorem convert_hdmi (H : Header) (hlen : 16 < H.MAX_NAME_LEN) (d : Nat) :
    __convert_device_string_to_enum H "hdmi" d = AUDIO_DEVICE_OUT_HDMI := by
  obtain ⟨h1, h2, h3, h4, h5, h6, -⟩ := strncmp_tags H hlen "hdmi"
  unfold __convert_device_string_to_enum
  simp only [h1, h2, h3, h4, h5, h6]
  simp

theorem convert_jack_out (H : Header) (hlen : 16 < H.MAX_NAME_LEN) :
    __convert_device_string_to_enum H "audio-jack" H.AUDIO_DIRECTION_OUT
      = AUDIO_DEVICE_OUT_JACK := by
  obtain ⟨h1, h2, h3, -⟩ := strncmp_tags H hlen "audio-jack"
  unfold __convert_device_string_to_enum
  simp only [h1, h2, h3]
  simp

theorem convert_bt_out (H : Header) (hlen : 16 < H.MAX_NAME_LEN) :
    __convert_device_string_to_enum H "bt" H.AUDIO_DIRECTION_OUT = AUDIO_DEVICE_OUT_BT_SCO := by
  obtain ⟨h1, h2, h3, h4, -⟩ := strncmp_tags H hlen "bt"
  unfold __convert_device_string_to_enum
  simp only [h1, h2, h3, h4]
  simp

theorem convert_jack_in (H : Header) (hlen : 16 < H.MAX_NAME_LEN)
    (hdir : H.AUDIO_DIRECTION_IN ≠ H.AUDIO_DIRECTION_OUT) :
    __convert_device_string_to_enum H "audio-jack" H.AUDIO_DIRECTION_IN
      = AUDIO_DEVICE_IN_JACK := by
  obtain ⟨h1, h2, h3, h4, h5, h6, h7⟩ := strncmp_tags H hlen "audio-jack"
  unfold __convert_device_string_to_enum
  simp only [h1, h2, h3, h4, h5, h6, h7]
  simp [hdir]

theorem mem_recognizedTags (s : String) :
    s ∈ recognizedTags ↔ s = "builtin-speaker" ∨ s = "builtin-receiver" ∨ s = "audio-jack" ∨
      s = "bt" ∨ s = "aux" ∨ s = "hdmi" ∨ s = "builtin-mic" := by
  simp [recognizedTags]

/-- Under direction Out the only tag that resolves to a device of the input
catalog is "builtin-mic" (the receiver value not being one of that catalog). -/
theorem resolves_to_input_under_out (H : Header) (hlen : 16 < H.MAX_NAME_LEN)
    (hrecv : H.AUDIO_DEVICE_OUT_RECEIVER ∉ inCatalogTypes) (s : String) :
    __convert_device_string_to_enum H s H.AUDIO_DIRECTION_OUT ∈ inCatalogTypes
      ↔ s = "builtin-mic" := by
  by_cases hs : s ∈ recognizedTags
  · rcases (mem_recognizedTags s).mp hs with h | h | h | h | h | h | h <;> subst h
    · rw [convert_speaker H hlen]; decide
    · rw [convert_receiver H hlen]
      exact ⟨fun h => absurd h hrecv, fun h => absurd h (by decide)⟩
    · rw [convert_jack_out H hlen]; decide
    · rw [convert_bt_out H hlen]; decide
    · rw [convert_aux H hlen]; decide
    · rw [convert_hdmi H hlen]; decide
    · rw [convert_mic H hlen]; decide
  · rw [convert_unrecognized H hlen s _ hs]
    constructor
    · intro h
      exact absurd h (by decide)
    · intro h
      exact absurd ((mem_recognizedTags s).mpr (by simp [h])) hs

/-- Under direction In the tags that resolve to a device of the output catalog
are "builtin-speaker", "aux" and "hdmi" (the receiver value not being one of
that catalog). -/
theorem resolves_to_output_under_in (H : Header) (hlen : 16 < H.MAX_NAME_LEN)
    (hdir : H.AUDIO_DIRECTION_IN ≠ H.AUDIO_DIRECTION_OUT)
    (hrecv : H.AUDIO_DEVICE_OUT_RECEIVER ∉ outCatalogTypes) (s : String) :
    __convert_device_string_to_enum H s H.AUDIO_DIRECTION_IN ∈ outCatalogTypes
      ↔ s = "builtin-speaker" ∨ s = "aux" ∨ s = "hdmi" := by
  by_cases hs : s ∈ recognizedTags
  · rcases (mem_recognizedTags s).mp hs with h | h | h | h | h | h | h <;> subst h
    · rw [convert_speaker H hlen]; decide
    · rw [convert_receiver H hlen]
      exact ⟨fun h => absurd h hrecv, fun h => absurd h (by decide)⟩
    · rw [convert_jack_in H hlen hdir]; decide
    · rw [convert_bt_in H hlen hdir]; decide
    · rw [convert_aux H hlen]; decide
    · rw [convert_hdmi H hlen]; decide
    · rw [convert_mic H hlen]; decide
  · rw [convert_unrecognized H hlen s _ hs]
    constructor
    · intro h
      exact absurd h (by decide)
    · intro h
      exact absurd ((mem_recognizedTags s).mpr (by rcases h with h | h | h <;> simp [h])) hs

/-! ## A count that differs from the length of the caller's array -/

theorem requestLoop_take (H : Header) :
    ∀ (n : Nat) (ds : List device_info_t) (fr : Frame), n ≤ ds.length →
      requestLoop H ds n fr = requestLoop H (ds.take n) (ds.take n).length fr := by
  intro n
  induction n with
  | zero =>
    intro ds fr _
    cases ds <;> simp [requestLoop]
  | succ n ih =>
    intro ds fr hn
    cases ds with
    | nil => simp at hn
    | cons d rest =>
      have hn2 : n ≤ rest.length := by simpa using hn
      have hfun : requestLoop H rest n
          = requestLoop H (rest.take n) (rest.take n).length := funext fun f => ih rest f hn2
      simp only [List.take_succ_cons, List.length_cons, requestLoop, hfun]

theorem requestLoop_short (H : Header) :
    ∀ (ds : List device_info_t) (n : Nat) (fr : Frame), ds.length < n →
      requestLoop H ds n fr = none := by
  intro ds
  induction ds with
  | nil =>
    intro n fr hn
    cases n with
    | zero => simp at hn
    | succ n => simp [requestLoop]
  | cons d rest ih =>
    intro n fr hn
    cases n with
    | zero => simp at hn
    | succ n =>
      have hn2 : rest.length < n := by simpa using hn
      simp only [requestLoop]
      cases requestStep H d fr with
      | none => rfl
      | some f => exact ih n f hn2

/-- Only the first `num_of_devices` entries of the caller's array are read. -/
theorem set_devices_take (H : Header) (ucm : Ucm) (ah : audio_hal_t) (verb : String)
    (ds : List device_info_t) (n : Nat) (h1 : 0 < n) (hn : n ≤ ds.length) :
    __set_devices H ucm ah verb ds n
      = __set_devices H ucm ah verb (ds.take n) (ds.take n).length := by
  have hlen : (ds.take n).length = n := by simp [List.length_take, hn]
  obtain ⟨m, rfl⟩ : ∃ m, n = m + 1 := ⟨n - 1, by omega⟩
  cases ds with
  | nil => simp at hn
  | cons d0 rest =>
    have hloop := requestLoop_take H (m + 1) (d0 :: rest)
    unfold __set_devices
    rw [hlen]
    simp only [List.take_succ_cons]
    have hfun : requestLoop H (d0 :: rest) (m + 1)
        = requestLoop H (d0 :: rest.take m) (m + 1) := by
      funext f
      have := hloop f hn
      rw [hlen] at this
      simpa [List.take_succ_cons] using this
    rw [hfun]

/-- A count beyond the caller's array makes `__set_devices` read outside it. -/
theorem set_devices_short (H : Header) (ucm : Ucm) (ah : audio_hal_t) (verb : String)
    (ds : List device_info_t) (n : Nat) (hn : ds.length < n) (hM : n ≤ H.MAX_DEVICES) :
    __set_devices H ucm ah verb ds n = none := by
  have h0 : n ≠ 0 := by omega
  have hbig : ¬ n > H.MAX_DEVICES := by omega
  unfold __set_devices
  rw [if_neg h0, if_neg hbig]
  cases ds with
  | nil => rfl
  | cons d0 rest =>
    simp only []
    cases setDevicesScan H d0.direction (Frame.enter H ah) with
    | none => rfl
    | some fr1 =>
      rw [Option.some_bind, requestLoop_short H (d0 :: rest) n fr1 hn]
      rfl

/-- Every defined outcome of `__set_devices`: the rejection of the count with
the handle untouched, or, for a count from 1 to `MAX_DEVICES` within the
caller's array and names that fit, the outcome of the closed form on the
entries read. -/
theorem set_devices_some (H : Header) (ucm : Ucm) (ah : audio_hal_t) (verb : String)
    (ds : List device_info_t) (n : Nat) (o : Outcome)
    (h : __set_devices H ucm ah verb ds n = some o) :
    ((n = 0 ∨ H.MAX_DEVICES < n) ∧ o = ⟨H.AUDIO_ERR_PARAMETER, ah, none⟩) ∨
    (0 < n ∧ n ≤ H.MAX_DEVICES ∧ n ≤ ds.length ∧ ds.take n ≠ [] ∧
      (setDevicesNames H ah (ds.take n)).length ≤ H.MAX_DEVICES ∧
      o = (if setDevicesNames H ah (ds.take n) = [] then
            ⟨H.AUDIO_ERR_PARAMETER, setDevicesAh H ah (ds.take n), none⟩
          else
            ⟨ucm (setDevicesAh H ah (ds.take n)) verb (padded H (setDevicesNames H ah (ds.take n))),
              setDevicesAh H ah (ds.take n),
              some ⟨verb, padded H (setDevicesNames H ah (ds.take n))⟩⟩)) := by
  by_cases hbad : n = 0 ∨ H.MAX_DEVICES < n
  · left
    refine ⟨hbad, ?_⟩
    have : __set_devices H ucm ah verb ds n = some ⟨H.AUDIO_ERR_PARAMETER, ah, none⟩ := by
      unfold __set_devices
      rcases hbad with h0 | hbig
      · simp [h0]
      · by_cases h0 : n = 0
        · simp [h0]
        · simp [h0, hbig]
    rw [this] at h
    exact (Option.some.inj h).symm
  · right
    have h0 : 0 < n := by omega
    have hM : n ≤ H.MAX_DEVICES := by omega
    by_cases hshort : ds.length < n
    · rw [set_devices_short H ucm ah verb ds n hshort hM] at h
      exact absurd h (by simp)
    · have hn : n ≤ ds.length := by omega
      have hlen : (ds.take n).length = n := by simp [List.length_take, hn]
      have hne : ds.take n ≠ [] := by
        intro hnil
        rw [hnil] at hlen
        simp at hlen
        omega
      rw [set_devices_take H ucm ah verb ds n h0 hn,
        set_devices_eq H ucm ah verb (ds.take n) hne (by omega)] at h
      by_cases hfit : H.MAX_DEVICES < (setDevicesNames H ah (ds.take n)).length
      · rw [if_pos hfit] at h
        exact absurd h (by simp)
      · rw [if_neg hfit] at h
        refine ⟨h0, hM, hn, hne, by omega, ?_⟩
        by_cases hnil : setDevicesNames H ah (ds.take n) = []
        · rw [if_pos hnil] at h
          rw [if_pos hnil]
          exact (Option.some.inj h).symm
        · rw [if_neg hnil] at h
          rw [if_neg hnil]
          exact (Option.some.inj h).symm

/-! ## Initialisation -/

/-- C13: for every non-null handle, in whatever state, `_audio_routing_init`
leaves `active_in = 0`, `active_out = 0` and `mode = VERB_NORMAL`, and returns
what `_ucm_init` returns (called on the handle so reset), whatever that is. -/
theorem audio_routing_init_resets (H : Header) (ucm_init : UcmInit) (a : audio_hal_t) :
    ∃ s, (_audio_routing_init H ucm_init (some a)).2 = some s ∧
      s.device.active_in = 0 ∧ s.device.active_out = 0 ∧ s.device.mode = VERB_NORMAL ∧
      (_audio_routing_init H ucm_init (some a)).1 = ucm_init s := by
  refine ⟨⟨⟨0, 0, VERB_NORMAL⟩⟩, ?_, rfl, rfl, rfl, ?_⟩
  · simp [_audio_routing_init]
  · simp [_audio_routing_init]

theorem audio_routing_init_state (H : Header) (ucm_init : UcmInit) (a : audio_hal_t) :
    (_audio_routing_init H ucm_init (some a)).2 = some ⟨⟨0, 0, VERB_NORMAL⟩⟩ := by
  simp [_audio_routing_init]

theorem reachable_init (H : Header) : Reachable H ⟨⟨0, 0, VERB_NORMAL⟩⟩ :=
  Reachable.init (fun _ => 0) ⟨⟨0, 0, 0⟩⟩ _ (audio_routing_init_state H _ _)

/-! ## The sentinel -/

theorem mem_inScanNames (ah : audio_hal_t) (x : Option String) :
    x ∈ inScanNames ah ↔ ∃ e ∈ inCatalog, e.name = x ∧
      ah.device.active_in &&& (not32 AUDIO_DEVICE_IN &&& e.type) ≠ 0 := by
  simp only [inScanNames, List.mem_map, List.mem_filter, inActive, decide_eq_true_eq,
    land_not_flag]
  constructor
  · rintro ⟨e, ⟨he, hbit⟩, hx⟩
    exact ⟨e, he, hx, hbit⟩
  · rintro ⟨e, he, hx, hbit⟩
    exact ⟨e, ⟨he, hbit⟩, hx⟩

theorem mem_outScanNames (ah : audio_hal_t) (x : Option String) :
    x ∈ outScanNames ah ↔ ∃ e ∈ outCatalog, e.name = x ∧
      ah.device.active_out &&& e.type ≠ 0 := by
  simp only [outScanNames, List.mem_map, List.mem_filter, outActive, decide_eq_true_eq]
  constructor
  · rintro ⟨e, ⟨he, hbit⟩, hx⟩
    exact ⟨e, he, hx, hbit⟩
  · rintro ⟨e, he, hx, hbit⟩
    exact ⟨e, ⟨he, hbit⟩, hx⟩

/-- C16: with the device values of the header, each catalog loop, run from
`j = 0` under the guard `j < table[j].type`, executes its body on exactly the
entries before the zero sentinel, in order (five for `outDeviceTypes`, three
for `inDeviceTypes`), and then stops at the sentinel without reading further;
with an array of at least five slots the scans are therefore defined for
every mask, and the list they build holds the name of a catalog entry exactly
when the bit of that entry is set in the mask. -/
theorem catalog_loops_stop_at_sentinel (H : Header) (hM : 5 ≤ H.MAX_DEVICES) :
    (∀ (body : device_type_t → Frame → Option Frame) (fr : Frame),
      catalogLoop body outDeviceTypes 0 fr = List.foldlM (fun f e => body e f) fr outCatalog) ∧
    (∀ (body : device_type_t → Frame → Option Frame) (fr : Frame),
      catalogLoop body inDeviceTypes 0 fr = List.foldlM (fun f e => body e f) fr inCatalog) ∧
    outCatalog = [⟨0x1, some "Speaker"⟩, ⟨0x4, some "Headphones"⟩, ⟨0x8, some "Bluetooth"⟩,
      ⟨0x10, some "Line"⟩, ⟨0x20, some "HDMI"⟩] ∧
    inCatalog = [⟨0x80000001, some "MainMic"⟩, ⟨0x80000004, some "HeadsetMic"⟩,
      ⟨0x80000008, some "BT Mic"⟩] ∧
    (∀ ah : audio_hal_t, catalogLoop scanOutBody outDeviceTypes 0 (Frame.enter H ah)
      = some (Frame.ofNames H ah (outScanNames ah))) ∧
    (∀ ah : audio_hal_t, catalogLoop scanInBody inDeviceTypes 0 (Frame.enter H ah)
      = some (Frame.ofNames H ah (inScanNames ah))) ∧
    (∀ (ah : audio_hal_t) (x : Option String), x ∈ outScanNames ah ↔
      ∃ e ∈ outCatalog, e.name = x ∧ ah.device.active_out &&& e.type ≠ 0) ∧
    (∀ (ah : audio_hal_t) (x : Option String), x ∈ inScanNames ah ↔
      ∃ e ∈ inCatalog, e.name = x ∧
        ah.device.active_in &&& (not32 AUDIO_DEVICE_IN &&& e.type) ≠ 0) := by
  refine ⟨fun _ _ => rfl, fun _ _ => rfl, rfl, rfl, ?_, ?_, mem_outScanNames, mem_inScanNames⟩
  · intro ah
    have hlen := outScanNames_length_le ah
    rw [enter_eq_ofNames, scanOut_ofNames H ah [] (Nat.zero_le _), if_pos]
    · rfl
    · simp only [List.length_nil, Nat.zero_add]
      omega
  · intro ah
    have hlen := inScanNames_length_le ah
    rw [enter_eq_ofNames, scanIn_ofNames H ah [] (Nat.zero_le _), if_pos]
    · rfl
    · simp only [List.length_nil, Nat.zero_add]
      omega

/-- A concrete instance for C16: the scan of the output catalog for the mask
0x11 under the sample header. -/
theorem catalog_loops_stop_at_sentinel_witness :
    5 ≤ tizenHeader.MAX_DEVICES ∧
      catalogLoop scanOutBody outDeviceTypes 0 (Frame.enter tizenHeader ⟨⟨0, 0x11, 0⟩⟩)
        = some ⟨⟨⟨0, 0x11, 0⟩⟩, [some "Speaker", some "Line", none, none, none], 2⟩ :=
  ⟨by decide,
    ((catalog_loops_stop_at_sentinel tizenHeader (by decide)).2.2.2.2.1 ⟨⟨0, 0x11, 0⟩⟩).trans
      (by decide)⟩

/-! ## The capacity of `active_devices` -/

theorem batchAh_replicate_speaker (H : Header) (hlen : 16 < H.MAX_NAME_LEN) (d : Nat) :
    ∀ (n : Nat) (ah : audio_hal_t),
      batchAh H (List.replicate (n + 1) ⟨"builtin-speaker", d⟩) ah
        = orOut AUDIO_DEVICE_OUT_SPEAKER ah := by
  intro n
  induction n with
  | zero =>
    intro ah
    simp [batchAh, requestAh_speaker H hlen]
  | succ n ih =>
    intro ah
    have h1 := ih (orOut AUDIO_DEVICE_OUT_SPEAKER ah)
    rw [orOut_orOut] at h1
    rw [← h1]
    simp only [batchAh, List.replicate_succ, List.foldl_cons, requestAh_speaker H hlen]

/-- A batch of `MAX_DEVICES` entries "builtin-speaker" of direction Out: when no
input device is active the array is filled to its last slot; otherwise the
stores run past it. -/
theorem set_devices_speakers (H : Header) (ucm : Ucm) (ah : audio_hal_t) (verb : String)
    (hM : 0 < H.MAX_DEVICES) (hlen : 16 < H.MAX_NAME_LEN) :
    __set_devices H ucm ah verb
        (List.replicate H.MAX_DEVICES ⟨"builtin-speaker", H.AUDIO_DIRECTION_OUT⟩) H.MAX_DEVICES
      = if inScanNames ah = [] then
          some ⟨ucm (orOut AUDIO_DEVICE_OUT_SPEAKER (clearOut ah)) verb
              (List.replicate H.MAX_DEVICES (some "Speaker")),
            orOut AUDIO_DEVICE_OUT_SPEAKER (clearOut ah),
            some ⟨verb, List.replicate H.MAX_DEVICES (some "Speaker")⟩⟩
        else none := by
  have hnames : setDevicesNames H ah
        (List.replicate H.MAX_DEVICES ⟨"builtin-speaker", H.AUDIO_DIRECTION_OUT⟩)
      = inScanNames ah ++ List.replicate H.MAX_DEVICES (some "Speaker") := by
    rw [setDevicesNames_replicate H _ _ _ (requestNames_speaker H hlen _) _ hM]
    simp only [scanNames, if_true]
  have hah : setDevicesAh H ah
        (List.replicate H.MAX_DEVICES ⟨"builtin-speaker", H.AUDIO_DIRECTION_OUT⟩)
      = orOut AUDIO_DEVICE_OUT_SPEAKER (clearOut ah) := by
    obtain ⟨k, hk⟩ : ∃ k, H.MAX_DEVICES = k + 1 := ⟨H.MAX_DEVICES - 1, by omega⟩
    rw [hk]
    have h1 := batchAh_replicate_speaker H hlen H.AUDIO_DIRECTION_OUT k (clearOut ah)
    simp only [List.replicate_succ] at h1
    simp only [List.replicate_succ, setDevicesAh, clearedAh, if_true, h1]
  have hrun := set_devices_eq H ucm ah verb
    (List.replicate H.MAX_DEVICES ⟨"builtin-speaker", H.AUDIO_DIRECTION_OUT⟩)
    (by intro h
        have hl := congrArg List.length h
        simp only [List.length_replicate, List.length_nil] at hl
        omega)
    (by simp)
  rw [List.length_replicate, hnames, hah] at hrun
  rw [hrun]
  by_cases hscan : inScanNames ah = []
  · have hne : ¬ List.replicate H.MAX_DEVICES (some "Speaker") = [] := by
      intro h
      have hl := congrArg List.length h
      simp only [List.length_replicate, List.length_nil] at hl
      omega
    simp [hscan, padded, hne]
  · have hpos : 0 < (inScanNames ah).length := List.length_pos.mpr hscan
    rw [if_neg hscan, if_pos]
    simp only [List.length_append, List.length_replicate]
    omega

/-- C11, where the code departs from it.  Right after `_audio_routing_init`, a
batch of `MAX_DEVICES` entries "builtin-speaker" of direction Out assembles
`MAX_DEVICES` names, not fewer: the array handed to the backend holds a name
in every slot and no `NULL`.  And in the state reached from there by a route
update for "bt" of direction In, the same batch stores one name more, at the
index `MAX_DEVICES`, outside the array. -/
theorem set_devices_no_sentinel (H : Header) (ucm : Ucm) (ucm_init : UcmInit)
    (a : audio_hal_t) (verb : String) (hM : 0 < H.MAX_DEVICES) (hlen : 16 < H.MAX_NAME_LEN)
    (hdir : H.AUDIO_DIRECTION_IN ≠ H.AUDIO_DIRECTION_OUT) :
    (_audio_routing_init H ucm_init (some a)).2 = some ⟨⟨0, 0, VERB_NORMAL⟩⟩ ∧
    Reachable H ⟨⟨0, 0, VERB_NORMAL⟩⟩ ∧
    (∃ o c, __set_devices H ucm ⟨⟨0, 0, VERB_NORMAL⟩⟩ verb
          (List.replicate H.MAX_DEVICES ⟨"builtin-speaker", H.AUDIO_DIRECTION_OUT⟩)
          H.MAX_DEVICES = some o ∧
        o.call = some c ∧ c.devices = List.replicate H.MAX_DEVICES (some "Speaker") ∧
        c.devices.length = H.MAX_DEVICES ∧ none ∉ c.devices) ∧
    (∃ o1, audio_update_route H ucm ⟨⟨0, 0, VERB_NORMAL⟩⟩
          ⟨"voip", [⟨"bt", H.AUDIO_DIRECTION_IN⟩], 1⟩ = some o1 ∧
        Reachable H o1.ah ∧
        __set_devices H ucm o1.ah verb
          (List.replicate H.MAX_DEVICES ⟨"builtin-speaker", H.AUDIO_DIRECTION_OUT⟩)
          H.MAX_DEVICES = none) := by
  refine ⟨audio_routing_init_state H ucm_init a, reachable_init H, ?_, ?_⟩
  · have hscan : inScanNames ⟨⟨0, 0, VERB_NORMAL⟩⟩ = [] := inScanNames_of_zero _ rfl
    refine ⟨⟨ucm (orOut AUDIO_DEVICE_OUT_SPEAKER (clearOut ⟨⟨0, 0, VERB_NORMAL⟩⟩)) verb
          (List.replicate H.MAX_DEVICES (some "Speaker")),
        orOut AUDIO_DEVICE_OUT_SPEAKER (clearOut ⟨⟨0, 0, VERB_NORMAL⟩⟩),
        some ⟨verb, List.replicate H.MAX_DEVICES (some "Speaker")⟩⟩,
      ⟨verb, List.replicate H.MAX_DEVICES (some "Speaker")⟩, ?_, rfl, rfl, ?_, ?_⟩
    · rw [set_devices_speakers H ucm _ verb hM hlen, if_pos hscan]
    · simp
    · simp
  · obtain ⟨o1, hrun, hin, -, -⟩ :=
      audio_update_route_voip_scenario H ucm 0 VERB_NORMAL hM hlen hdir
    refine ⟨o1, hrun, Reachable.route ucm _ _ o1 (reachable_init H) hrun, ?_⟩
    have hscan : inScanNames o1.ah ≠ [] := by
      rw [inScanNames_congr o1.ah AUDIO_DEVICE_IN_BT_SCO hin]
      decide
    rw [set_devices_speakers H ucm o1.ah verb hM hlen, if_neg hscan]

/-- A concrete instance for C11's failure under the sample header: five
"builtin-speaker" entries right after initialisation. -/
theorem set_devices_no_sentinel_witness :
    0 < tizenHeader.MAX_DEVICES ∧ 16 < tizenHeader.MAX_NAME_LEN ∧
      tizenHeader.AUDIO_DIRECTION_IN ≠ tizenHeader.AUDIO_DIRECTION_OUT ∧
      ∃ o c, __set_devices tizenHeader ucmOk ⟨⟨0, 0, VERB_NORMAL⟩⟩ "HiFi"
            (List.replicate 5 ⟨"builtin-speaker", 1⟩) 5 = some o ∧
          o.call = some c ∧ c.devices = List.replicate 5 (some "Speaker") ∧
          c.devices.length = 5 ∧ none ∉ c.devices :=
  ⟨by decide, by decide, by decide,
    (set_devices_no_sentinel tizenHeader ucmOk (fun _ => 0) ⟨⟨7, 7, 7⟩⟩ "HiFi" (by decide)
      (by decide) (by decide)).2.2.1⟩

/-! ## The status code -/

theorem clearedAh_mode (H : Header) (direction : Nat) (ah : audio_hal_t) :
    (clearedAh H direction ah).device.mode = ah.device.mode := by
  unfold clearedAh
  split
  · rfl
  · split <;> rfl

theorem setDevicesAh_mode (H : Header) (ah : audio_hal_t) (ds : List device_info_t) :
    (setDevicesAh H ah ds).device.mode = ah.device.mode := by
  cases ds with
  | nil => rfl
  | cons d0 rest =>
    simp only [setDevicesAh]
    rw [batchAh_eq_masks]
    exact clearedAh_mode H d0.direction ah

theorem update_route_reset_of_no_slot (H : Header) (ucm : Ucm) (ah : audio_hal_t)
    (direction : Nat) (hM : H.MAX_DEVICES = 0) :
    __update_route_reset H ucm ah direction = none := by
  unfold __update_route_reset
  rw [resetScan_enter]
  by_cases hfit : (resetNames H direction ah).length ≤ H.MAX_DEVICES
  · have hnil : resetNames H direction ah = [] := by
      apply List.eq_nil_of_length_eq_zero
      omega
    rw [if_pos hfit, Option.some_bind, ofNames_active_devices, hnil]
    simp [padded, hM]
  · rw [if_neg hfit]
    rfl

theorem batchAh_of_no_names (H : Header) :
    ∀ (ds : List device_info_t) (ah : audio_hal_t), batchNames H ds = [] → batchAh H ds ah = ah := by
  intro ds
  induction ds with
  | nil => intro ah _; rfl
  | cons d ds ih =>
    intro ah h
    simp only [batchNames, List.flatMap_cons, List.append_eq_nil] at h
    have hd : requestEntries H d = [] := by
      have h1 := h.1
      simpa [requestNames] using h1
    have h2 : requestAh H d ah = ah := by
      unfold requestAh
      rw [if_pos hd]
    have h3 := ih ah h.2
    simp only [batchAh] at h3
    simp only [batchAh, List.foldl_cons, h2, h3]

/-- C14: when `__set_devices`, given a count from 1 to `MAX_DEVICES`, returns
without having called the backend (the assembled list being empty), it
returns `AUDIO_ERR_PARAMETER` and the handle is the initial one with the mask
of the direction of the first entry cleared: that mask is 0 whatever it was
before, and the request loop has set no bit in either mask. -/
theorem set_devices_failure_clears_mask (H : Header) (ucm : Ucm) (ah : audio_hal_t)
    (verb : String) (d0 : device_info_t) (rest : List device_info_t) (n : Nat) (o : Outcome)
    (h1 : 0 < n) (hM : n ≤ H.MAX_DEVICES)
    (h : __set_devices H ucm ah verb (d0 :: rest) n = some o) (hc : o.call = none) :
    o.ret = H.AUDIO_ERR_PARAMETER ∧
    setDevicesNames H ah ((d0 :: rest).take n) = [] ∧
    (d0.direction = H.AUDIO_DIRECTION_OUT →
      o.ah.device.active_out = 0 ∧ o.ah.device.active_in = ah.device.active_in) ∧
    (d0.direction ≠ H.AUDIO_DIRECTION_OUT → d0.direction = H.AUDIO_DIRECTION_IN →
      o.ah.device.active_in = 0 ∧ o.ah.device.active_out = ah.device.active_out) := by
  obtain ⟨m, rfl⟩ : ∃ m, n = m + 1 := ⟨n - 1, by omega⟩
  rcases set_devices_some H ucm ah verb (d0 :: rest) (m + 1) o h with
    ⟨hbad, -⟩ | ⟨-, -, -, -, -, ho⟩
  · omega
  · by_cases hnil : setDevicesNames H ah ((d0 :: rest).take (m + 1)) = []
    · rw [if_pos hnil] at ho
      have hbatch : batchNames H (d0 :: rest.take m) = [] := by
        have h2 := hnil
        simp only [List.take_succ_cons, setDevicesNames, List.append_eq_nil] at h2
        exact h2.2
      have hah : o.ah = clearedAh H d0.direction ah := by
        rw [ho]
        simp only [List.take_succ_cons, setDevicesAh]
        exact batchAh_of_no_names H _ _ hbatch
      refine ⟨by rw [ho], hnil, ?_, ?_⟩
      · intro hd
        rw [hah]
        simp [clearedAh, hd, clearOut]
      · intro hd hin
        have hne : ¬ H.AUDIO_DIRECTION_IN = H.AUDIO_DIRECTION_OUT := fun e => hd (hin.trans e)
        rw [hah]
        simp [clearedAh, hin, hne, clearIn]
    · rw [if_neg hnil] at ho
      rw [ho] at hc
      exact absurd hc (by simp)

/-- A concrete instance for C14: an unknown tag requested for Out while two
output devices are active and no input device is. -/
theorem set_devices_failure_clears_mask_witness :
    (0 < 1 ∧ 1 ≤ tizenHeader.MAX_DEVICES) ∧
      __set_devices tizenHeader ucmOk ⟨⟨0, 0x5, 0⟩⟩ "HiFi" [⟨"usb-audio", 1⟩] 1
        = some ⟨tizenHeader.AUDIO_ERR_PARAMETER, ⟨⟨0, 0, 0⟩⟩, none⟩ ∧
      (⟨⟨0, 0, 0⟩⟩ : audio_hal_t).device.active_out = 0 :=
  ⟨⟨by decide, by decide⟩, by decide,
    ((set_devices_failure_clears_mask tizenHeader ucmOk ⟨⟨0, 0x5, 0⟩⟩ "HiFi" ⟨"usb-audio", 1⟩ []
      1 ⟨tizenHeader.AUDIO_ERR_PARAMETER, ⟨⟨0, 0, 0⟩⟩, none⟩ (by decide) (by decide) (by decide)
      rfl).2.2.1 rfl).1⟩

/-! ## The role -/

theorem strncmpAux_self (n : Nat) : ∀ s : List Char, strncmpAux s s n = 0 := by
  intro s
  rw [strncmpAux_eq_zero_iff]

theorem strncmp_self (s : String) (n : Nat) : strncmp s s n = 0 :=
  strncmpAux_self n s.data

theorem strncmp_eq_zero_iff_left (s t : String) (n : Nat) (h : s.length < n) :
    strncmp s t n = 0 ↔ s = t := by
  unfold strncmp
  rw [strncmpAux_eq_zero_iff, eq_comm, take_eq_of_short _ _ _ h]
  constructor
  · intro hd
    exact String.ext hd.symm
  · intro hd
    rw [hd]

/-- C18: with `MAX_NAME_LEN` above 5, for every state, payload, count and
backend, `audio_update_route` under a role other than "reset" (so under any
role other than "voip" and "reset") does exactly what it does under the role
"voip": the same return value, the same backend call and the same handle, or
for both no defined outcome.  Hence the result is the same for any two role
strings other than "reset". -/
theorem audio_update_route_voip_eq_generic (H : Header) (ucm : Ucm) (ah : audio_hal_t)
    (role : String) (ds : List device_info_t) (n : Nat) (hlen : 5 < H.MAX_NAME_LEN)
    (hr : role ≠ "reset") :
    audio_update_route H ucm ah ⟨role, ds, n⟩ = audio_update_route H ucm ah ⟨"voip", ds, n⟩ := by
  have hreset : strncmp "reset" role H.MAX_NAME_LEN ≠ 0 := by
    rw [Ne, strncmp_eq_zero_iff_left "reset" role H.MAX_NAME_LEN
      (by have : "reset".length = 5 := by decide
          omega)]
    exact fun e => hr e.symm
  rw [audio_update_route_of_not_reset H ucm ah ⟨role, ds, n⟩ (Or.inr hreset),
    audio_update_route_of_not_reset H ucm ah ⟨"voip", ds, n⟩
      (Or.inl (strncmp_self "voip" H.MAX_NAME_LEN))]

/-- A concrete instance for C18: the roles "alarm" and "voip" on a request for
the headphones. -/
theorem audio_update_route_voip_eq_generic_witness :
    5 < tizenHeader.MAX_NAME_LEN ∧ "alarm" ≠ "reset" ∧
      audio_update_route tizenHeader ucmOk ⟨⟨AUDIO_DEVICE_IN_MAIN_MIC, 0, 0⟩⟩
          ⟨"alarm", [⟨"audio-jack", 1⟩], 1⟩
        = audio_update_route tizenHeader ucmOk ⟨⟨AUDIO_DEVICE_IN_MAIN_MIC, 0, 0⟩⟩
          ⟨"voip", [⟨"audio-jack", 1⟩], 1⟩ :=
  ⟨by decide, by decide,
    audio_update_route_voip_eq_generic tizenHeader ucmOk ⟨⟨AUDIO_DEVICE_IN_MAIN_MIC, 0, 0⟩⟩
      "alarm" [⟨"audio-jack", 1⟩] 1 (by decide) (by decide)⟩

/-! ## The receiver -/

theorem foldlM_requestInBody_of_no_match (v : Nat) :
    ∀ (es : List device_type_t) (fr : Frame), (∀ e ∈ es, v ≠ e.type) →
      List.foldlM (fun f e => requestInBody v e f) fr es = some fr := by
  intro es
  induction es with
  | nil => intro fr _; rfl
  | cons e es ih =>
    intro fr h
    rw [List.foldlM_cons]
    have he : requestInBody v e fr = some fr := by
      unfold requestInBody
      rw [if_neg (h e (List.mem_cons_self _ _))]
    rw [he]
    exact ih fr (fun x hx => h x (List.mem_cons_of_mem _ hx))

theorem foldlM_requestOutBody_of_no_match (v : Nat) :
    ∀ (es : List device_type_t) (fr : Frame), (∀ e ∈ es, v ≠ e.type) →
      List.foldlM (fun f e => requestOutBody v e f) fr es = some fr := by
  intro es
  induction es with
  | nil => intro fr _; rfl
  | cons e es ih =>
    intro fr h
    rw [List.foldlM_cons]
    have he : requestOutBody v e fr = some fr := by
      unfold requestOutBody
      rw [if_neg (h e (List.mem_cons_self _ _))]
    rw [he]
    exact ih fr (fun x hx => h x (List.mem_cons_of_mem _ hx))

/-- A request whose resolved value is in neither catalog leaves the frame as it is. -/
theorem requestStep_of_no_match (H : Header) (d : device_info_t) (fr : Frame)
    (hin : __convert_device_string_to_enum H d.type d.direction ∉ inCatalogTypes)
    (hout : __convert_device_string_to_enum H d.type d.direction ∉ outCatalogTypes) :
    requestStep H d fr = some fr := by
  unfold requestStep
  simp only []
  split
  · rw [catalogLoop_inDeviceTypes]
    exact foldlM_requestInBody_of_no_match _ inCatalog fr
      (fun e he hv => hin (hv ▸ List.mem_map_of_mem _ he))
  · rw [catalogLoop_outDeviceTypes]
    exact foldlM_requestOutBody_of_no_match _ outCatalog fr
      (fun e he hv => hout (hv ▸ List.mem_map_of_mem _ he))

theorem requestStep_replaceReceiver (H : Header) (hlen : 16 < H.MAX_NAME_LEN)
    (hin : H.AUDIO_DEVICE_OUT_RECEIVER ∉ inCatalogTypes)
    (hout : H.AUDIO_DEVICE_OUT_RECEIVER ∉ outCatalogTypes)
    (u : String) (hu : u ∉ recognizedTags) (d : device_info_t) (fr : Frame) :
    requestStep H (if d.type = "builtin-receiver" then ⟨u, d.direction⟩ else d) fr
      = requestStep H d fr := by
  by_cases hd : d.type = "builtin-receiver"
  · rw [if_pos hd]
    have h1 : requestStep H ⟨u, d.direction⟩ fr = some fr := by
      apply requestStep_of_no_match
      · rw [convert_unrecognized H hlen u _ hu]; decide
      · rw [convert_unrecognized H hlen u _ hu]; decide
    have h2 : requestStep H d fr = some fr := by
      apply requestStep_of_no_match
      · rw [hd, convert_receiver H hlen]; exact hin
      · rw [hd, convert_receiver H hlen]; exact hout
    rw [h1, h2]
  · rw [if_neg hd]

theorem requestLoop_replaceReceiver (H : Header) (hlen : 16 < H.MAX_NAME_LEN)
    (hin : H.AUDIO_DEVICE_OUT_RECEIVER ∉ inCatalogTypes)
    (hout : H.AUDIO_DEVICE_OUT_RECEIVER ∉ outCatalogTypes)
    (u : String) (hu : u ∉ recognizedTags) :
    ∀ (ds : List device_info_t) (n : Nat) (fr : Frame),
      requestLoop H (replaceReceiver u ds) n fr = requestLoop H ds n fr := by
  intro ds
  induction ds with
  | nil => intro n fr; rfl
  | cons d rest ih =>
    intro n fr
    cases n with
    | zero => rfl
    | succ n =>
      have hfun : requestLoop H (replaceReceiver u rest) n = requestLoop H rest n :=
        funext fun f => ih n f
      simp only [replaceReceiver] at hfun
      simp only [replaceReceiver, List.map_cons, requestLoop,
        requestStep_replaceReceiver H hlen hin hout u hu d fr, hfun]

theorem requestEntries_receiver (H : Header) (hlen : 16 < H.MAX_NAME_LEN)
    (hin : H.AUDIO_DEVICE_OUT_RECEIVER ∉ inCatalogTypes)
    (hout : H.AUDIO_DEVICE_OUT_RECEIVER ∉ outCatalogTypes)
    (d : device_info_t) (hd : d.type = "builtin-receiver") :
    requestEntries H d = [] := by
  have hv : __convert_device_string_to_enum H d.type d.direction
      = H.AUDIO_DEVICE_OUT_RECEIVER := by rw [hd, convert_receiver H hlen]
  by_cases hflag : __convert_device_string_to_enum H d.type d.direction &&& AUDIO_DEVICE_IN ≠ 0
  · exact requestEntries_eq_nil_of_not_in H d hflag (by rw [hv]; exact hin)
  · exact requestEntries_eq_nil_of_not_out H d hflag (by rw [hv]; exact hout)

theorem batchNames_receiver (H : Header) (hlen : 16 < H.MAX_NAME_LEN)
    (hin : H.AUDIO_DEVICE_OUT_RECEIVER ∉ inCatalogTypes)
    (hout : H.AUDIO_DEVICE_OUT_RECEIVER ∉ outCatalogTypes) :
    ∀ ds : List device_info_t, (∀ d ∈ ds, d.type = "builtin-receiver") → batchNames H ds = [] := by
  intro ds
  induction ds with
  | nil => intro _; rfl
  | cons d ds ih =>
    intro h
    have h1 := ih (fun x hx => h x (List.mem_cons_of_mem _ hx))
    simp only [batchNames] at h1
    simp only [batchNames, List.flatMap_cons, h1, requestNames,
      requestEntries_receiver H hlen hin hout d (h d (List.mem_cons_self _ _)), List.map_nil,
      List.append_nil]

theorem scanNames_of_opposite_zero (H : Header) (direction : Nat) (ah : audio_hal_t)
    (hzero : oppositeMask H direction ah = 0) : scanNames H direction ah = [] := by
  unfold scanNames
  unfold oppositeMask at hzero
  by_cases hd : direction = H.AUDIO_DIRECTION_OUT
  · rw [if_pos hd] at hzero
    rw [if_pos hd]
    exact inScanNames_of_zero ah hzero
  · rw [if_neg hd] at hzero
    rw [if_neg hd]
    split
    · exact outScanNames_of_zero ah hzero
    · rfl

/-- C19: with `MAX_NAME_LEN` above 16 and the value `AUDIO_DEVICE_OUT_RECEIVER`
in neither catalog, replacing in any batch every type string
"builtin-receiver" by an unrecognized string leaves the outcome of
`__set_devices` as it is, in every state and for every count: the same return
value, the same array handed to the backend and the same handle (or no
defined outcome for both).  In particular a batch of 1 to `MAX_DEVICES`
entries, all "builtin-receiver", with the mask of the other direction zero,
returns `AUDIO_ERR_PARAMETER` without a backend call. -/
theorem set_devices_receiver_inert (H : Header) (ucm : Ucm) (ah : audio_hal_t) (verb : String)
    (hlen : 16 < H.MAX_NAME_LEN)
    (hin : H.AUDIO_DEVICE_OUT_RECEIVER ∉ inCatalogTypes)
    (hout : H.AUDIO_DEVICE_OUT_RECEIVER ∉ outCatalogTypes) :
    (∀ (u : String) (ds : List device_info_t) (n : Nat), u ∉ recognizedTags →
      __set_devices H ucm ah verb (replaceReceiver u ds) n = __set_devices H ucm ah verb ds n) ∧
    (∀ (d0 : device_info_t) (rest : List device_info_t),
      (∀ d ∈ d0 :: rest, d.type = "builtin-receiver") →
      (d0 :: rest).length ≤ H.MAX_DEVICES →
      oppositeMask H d0.direction ah = 0 →
      ∃ o, __set_devices H ucm ah verb (d0 :: rest) (d0 :: rest).length = some o ∧
        o.ret = H.AUDIO_ERR_PARAMETER ∧ o.call = none) := by
  constructor
  · intro u ds n hu
    cases ds with
    | nil => rfl
    | cons d0 rest =>
      have hloop : requestLoop H (replaceReceiver u (d0 :: rest)) n
          = requestLoop H (d0 :: rest) n :=
        funext fun f => requestLoop_replaceReceiver H hlen hin hout u hu (d0 :: rest) n f
      have hdir : (if d0.type = "builtin-receiver" then (⟨u, d0.direction⟩ : device_info_t)
          else d0).direction = d0.direction := by
        split <;> rfl
      simp only [replaceReceiver, List.map_cons] at hloop
      unfold __set_devices
      simp only [replaceReceiver, List.map_cons, hdir, hloop]
  · intro d0 rest hall hM hzero
    have hnames : setDevicesNames H ah (d0 :: rest) = [] := by
      simp only [setDevicesNames, scanNames_of_opposite_zero H _ ah hzero,
        batchNames_receiver H hlen hin hout (d0 :: rest) hall, List.append_nil]
    rw [set_devices_eq H ucm ah verb (d0 :: rest) (by simp) hM, hnames]
    exact ⟨⟨H.AUDIO_ERR_PARAMETER, setDevicesAh H ah (d0 :: rest), none⟩, by simp, rfl, rfl⟩

/-- A concrete instance for C19 under the sample header: a batch of two
"builtin-receiver" entries for Out with no input device active. -/
theorem set_devices_receiver_inert_witness :
    16 < tizenHeader.MAX_NAME_LEN ∧
      tizenHeader.AUDIO_DEVICE_OUT_RECEIVER ∉ inCatalogTypes ∧
      tizenHeader.AUDIO_DEVICE_OUT_RECEIVER ∉ outCatalogTypes ∧
      ∃ o, __set_devices tizenHeader ucmOk ⟨⟨0, 0x5, 0⟩⟩ "HiFi"
            [⟨"builtin-receiver", 1⟩, ⟨"builtin-receiver", 1⟩] 2 = some o ∧
        o.ret = tizenHeader.AUDIO_ERR_PARAMETER ∧ o.call = none :=
  ⟨by decide, by decide, by decide,
    (set_devices_receiver_inert tizenHeader ucmOk ⟨⟨0, 0x5, 0⟩⟩ "HiFi" (by decide) (by decide)
      (by decide)).2 ⟨"builtin-receiver", 1⟩ [⟨"builtin-receiver", 1⟩] (by decide) (by decide)
      (by decide)⟩

/-! ## The states that can be reached -/

theorem orAll_append (vs ws : List Nat) : orAll (vs ++ ws) = orAll vs ||| orAll ws := by
  induction vs with
  | nil => simp [orAll]
  | cons v vs ih =>
    simp only [orAll] at ih
    simp only [orAll, List.cons_append, List.foldr_cons, ih, Nat.or_assoc]

theorem isOrOf_zero (types : List Nat) : IsOrOf types 0 := ⟨[], by simp, rfl⟩

theorem isOrOf_or (types : List Nat) (a b : Nat) (ha : IsOrOf types a) (hb : IsOrOf types b) :
    IsOrOf types (a ||| b) := by
  obtain ⟨vs, hvs, rfl⟩ := ha
  obtain ⟨ws, hws, rfl⟩ := hb
  refine ⟨vs ++ ws, ?_, (orAll_append vs ws).symm⟩
  intro v hv
  rcases List.mem_append.mp hv with h | h
  · exact hvs v h
  · exact hws v h

theorem isOrOf_filter (types : List Nat) (vs : List Nat) :
    IsOrOf types (orAll (vs.filter fun v => decide (v ∈ types))) :=
  ⟨_, fun v hv => by simpa using (List.mem_filter.mp hv).2, rfl⟩

theorem inMasks_closed : ∀ v ∈ inCatalogTypes, ∀ m ∈ inMasks, v ||| m ∈ inMasks := by decide

theorem outMasks_closed : ∀ v ∈ outCatalogTypes, ∀ m ∈ outMasks, v ||| m ∈ outMasks := by decide

theorem mem_inMasks_of_isOrOf (m : Nat) (h : IsOrOf inCatalogTypes m) : m ∈ inMasks := by
  obtain ⟨vs, hvs, rfl⟩ := h
  induction vs with
  | nil => decide
  | cons v vs ih =>
    have h1 := ih (fun x hx => hvs x (List.mem_cons_of_mem _ hx))
    exact inMasks_closed v (hvs v (List.mem_cons_self _ _)) _ h1

theorem mem_outMasks_of_isOrOf (m : Nat) (h : IsOrOf outCatalogTypes m) : m ∈ outMasks := by
  obtain ⟨vs, hvs, rfl⟩ := h
  induction vs with
  | nil => decide
  | cons v vs ih =>
    have h1 := ih (fun x hx => hvs x (List.mem_cons_of_mem _ hx))
    exact outMasks_closed v (hvs v (List.mem_cons_self _ _)) _ h1

theorem outMasks_bits : ∀ m ∈ outMasks, m &&& 0x3D = m := by decide

theorem outMasks_scan : ∀ m ∈ outMasks, m ≠ 0 → outScanNames ⟨⟨0, m, 0⟩⟩ ≠ [] := by decide

theorem inMasks_scan : ∀ m ∈ inMasks, m ≠ 0 → inScanNames ⟨⟨m, 0, 0⟩⟩ ≠ [] := by decide

theorem clearedAh_isOrOf (H : Header) (direction : Nat) (ah : audio_hal_t)
    (ho : IsOrOf outCatalogTypes ah.device.active_out)
    (hi : IsOrOf inCatalogTypes ah.device.active_in) :
    IsOrOf outCatalogTypes (clearedAh H direction ah).device.active_out ∧
      IsOrOf inCatalogTypes (clearedAh H direction ah).device.active_in := by
  unfold clearedAh
  split
  · exact ⟨by simpa [clearOut] using isOrOf_zero outCatalogTypes, hi⟩
  · split
    · exact ⟨ho, by simpa [clearIn] using isOrOf_zero inCatalogTypes⟩
    · exact ⟨ho, hi⟩

theorem resetAh_isOrOf (H : Header) (direction : Nat) (ah : audio_hal_t)
    (ho : IsOrOf outCatalogTypes ah.device.active_out)
    (hi : IsOrOf inCatalogTypes ah.device.active_in) :
    IsOrOf outCatalogTypes (resetAh H direction ah).device.active_out ∧
      IsOrOf inCatalogTypes (resetAh H direction ah).device.active_in := by
  unfold resetAh
  split
  · exact ⟨by simpa [clearOut] using isOrOf_zero outCatalogTypes, hi⟩
  · exact ⟨ho, by simpa [clearIn] using isOrOf_zero inCatalogTypes⟩

theorem setDevicesAh_isOrOf (H : Header) (ah : audio_hal_t) (ds : List device_info_t)
    (ho : IsOrOf outCatalogTypes ah.device.active_out)
    (hi : IsOrOf inCatalogTypes ah.device.active_in) :
    IsOrOf outCatalogTypes (setDevicesAh H ah ds).device.active_out ∧
      IsOrOf inCatalogTypes (setDevicesAh H ah ds).device.active_in := by
  cases ds with
  | nil => exact ⟨ho, hi⟩
  | cons d0 rest =>
    rw [setDevicesAh_eq_masks]
    have hc := clearedAh_isOrOf H d0.direction ah ho hi
    exact ⟨isOrOf_or _ _ _ hc.1 (isOrOf_filter _ _), isOrOf_or _ _ _ hc.2 (isOrOf_filter _ _)⟩

/-- Every defined outcome of `__set_devices` keeps the masks within the
catalogs and leaves the mode as it was. -/
theorem set_devices_isOrOf (H : Header) (ucm : Ucm) (ah : audio_hal_t) (verb : String)
    (ds : List device_info_t) (n : Nat) (o : Outcome)
    (h : __set_devices H ucm ah verb ds n = some o)
    (ho : IsOrOf outCatalogTypes ah.device.active_out)
    (hi : IsOrOf inCatalogTypes ah.device.active_in) :
    IsOrOf outCatalogTypes o.ah.device.active_out ∧
      IsOrOf inCatalogTypes o.ah.device.active_in ∧ o.ah.device.mode = ah.device.mode := by
  rcases set_devices_some H ucm ah verb ds n o h with ⟨-, ho1⟩ | ⟨-, -, -, -, -, ho2⟩
  · rw [ho1]
    exact ⟨ho, hi, rfl⟩
  · have hs := setDevicesAh_isOrOf H ah (ds.take n) ho hi
    have hm := setDevicesAh_mode H ah (ds.take n)
    have hah : o.ah = setDevicesAh H ah (ds.take n) := by
      rw [ho2]
      split <;> rfl
    rw [hah]
    exact ⟨hs.1, hs.2, hm⟩

/-- Every defined outcome of `__update_route_reset` leaves the handle with the
mask of the given direction cleared. -/
theorem update_route_reset_ah (H : Header) (ucm : Ucm) (ah : audio_hal_t) (direction : Nat)
    (o : Outcome) (h : __update_route_reset H ucm ah direction = some o) :
    o.ah = resetAh H direction ah := by
  by_cases hM : H.MAX_DEVICES = 0
  · rw [update_route_reset_of_no_slot H ucm ah direction hM] at h
    exact absurd h (by simp)
  · rw [update_route_reset_eq H ucm ah direction (by omega)] at h
    split at h
    · exact absurd h (by simp)
    · split at h
      · rw [← Option.some.inj h]
      · split at h
        · exact absurd h (by simp)
        · rw [← Option.some.inj h]

/-- Every defined outcome of `audio_update_route` from a handle that satisfies
the invariant leaves one that satisfies it. -/
theorem audio_update_route_invariant (H : Header) (ucm : Ucm) (ah : audio_hal_t)
    (info : audio_route_info_t) (o : Outcome)
    (h : audio_update_route H ucm ah info = some o) (hinv : RouteInvariant ah) :
    RouteInvariant o.ah := by
  obtain ⟨ho, hi, hm⟩ := hinv
  by_cases hrole : strncmp "voip" info.role H.MAX_NAME_LEN = 0 ∨
      strncmp "reset" info.role H.MAX_NAME_LEN ≠ 0
  · rw [audio_update_route_of_not_reset H ucm ah info hrole] at h
    obtain ⟨o1, h1, ho1⟩ := Option.map_eq_some'.mp h
    have hs := set_devices_isOrOf H ucm ah _ _ _ o1 h1 ho hi
    have hk := setModeOnSuccess_masks o1
    rw [← ho1]
    refine ⟨by rw [hk.2.1]; exact hs.1, by rw [hk.1]; exact hs.2.1, ?_⟩
    unfold setModeOnSuccess
    split
    · exact hs.2.2.trans hm
    · rfl
  · have hv : ¬ strncmp "voip" info.role H.MAX_NAME_LEN = 0 := fun e => hrole (Or.inl e)
    have hr : strncmp "reset" info.role H.MAX_NAME_LEN = 0 := by
      by_contra e
      exact hrole (Or.inr e)
    unfold audio_update_route at h
    rw [if_neg hv, if_pos hr] at h
    cases hds : info.device_infos with
    | nil =>
      rw [hds] at h
      exact absurd h (by simp)
    | cons d0 rest =>
      rw [hds] at h
      have hah := update_route_reset_ah H ucm ah d0.direction o h
      have hs := resetAh_isOrOf H d0.direction ah ho hi
      rw [hah]
      exact ⟨hs.1, hs.2, (resetAh_mode H d0.direction ah).trans hm⟩

/-- Every reachable handle satisfies the invariant. -/
theorem reachable_invariant (H : Header) (ah : audio_hal_t) (hr : Reachable H ah) :
    RouteInvariant ah := by
  induction hr with
  | init ucm_init a s h =>
    rw [audio_routing_init_state] at h
    rw [← Option.some.inj h]
    exact ⟨isOrOf_zero _, isOrOf_zero _, rfl⟩
  | route ucm ah info o _ h ih => exact audio_update_route_invariant H ucm ah info o h ih
  | option ah opt _ ih => exact ih

theorem land_eq_zero_of_disjoint (m k b : Nat) (hm : m &&& k = m) (hb : b &&& k = 0) :
    m &&& b = 0 := by
  rw [← hm, Nat.and_assoc, Nat.and_comm k b, hb, Nat.and_zero]

/-- What C17 describes, as far as every call has a defined outcome: in every
state reached from `_audio_routing_init` by calls of `audio_update_route` with
a defined outcome and of `audio_update_route_option`, whatever the roles, the
batches and the backend's answers, `active_out` is an
OR of output-catalog values, so it has only bits of those devices (none of a
value disjoint from them, such as the input flag or a receiver bit outside
the catalog), `active_in` is 0 or an OR of input-catalog values, and the mode
is `VERB_NORMAL`; hence `mode_to_verb_str[mode]` is in bounds and is "HiFi",
`__update_route_reset` has a defined outcome whenever `active_devices` has
room for the five catalog names, and a nonzero mask is scanned to a non-empty
list of names. -/
theorem reachable_state_invariant (H : Header) (ah : audio_hal_t) (hr : Reachable H ah) :
    IsOrOf outCatalogTypes ah.device.active_out ∧
    IsOrOf inCatalogTypes ah.device.active_in ∧
    ah.device.mode = VERB_NORMAL ∧
    ah.device.active_out &&& orAll outCatalogTypes = ah.device.active_out ∧
    (∀ b : Nat, b &&& orAll outCatalogTypes = 0 → ah.device.active_out &&& b = 0) ∧
    ah.device.active_out &&& AUDIO_DEVICE_IN = 0 ∧
    mode_to_verb_str[ah.device.mode]? = some AUDIO_USE_CASE_VERB_HIFI ∧
    (∀ (ucm : Ucm) (direction : Nat), 5 ≤ H.MAX_DEVICES →
      ∃ o, __update_route_reset H ucm ah direction = some o) ∧
    (ah.device.active_in ≠ 0 → inScanNames ah ≠ []) ∧
    (ah.device.active_out ≠ 0 → outScanNames ah ≠ []) := by
  obtain ⟨ho, hi, hm⟩ := reachable_invariant H ah hr
  have h3d : orAll outCatalogTypes = 0x3D := by decide
  have hbits : ah.device.active_out &&& orAll outCatalogTypes = ah.device.active_out := by
    rw [h3d]
    exact outMasks_bits _ (mem_outMasks_of_isOrOf _ ho)
  refine ⟨ho, hi, hm, hbits, ?_, ?_, ?_, ?_, ?_, ?_⟩
  · intro b hb
    exact land_eq_zero_of_disjoint _ _ b hbits hb
  · exact land_eq_zero_of_disjoint _ _ _ hbits (by decide)
  · rw [hm]
    rfl
  · intro ucm direction hM
    rw [update_route_reset_normal H ucm ah direction hM hm]
    split
    · exact ⟨_, rfl⟩
    · exact ⟨_, rfl⟩
  · intro hne
    rw [inScanNames_congr ah _ rfl]
    exact inMasks_scan _ (mem_inMasks_of_isOrOf _ hi) hne
  · intro hne
    rw [outScanNames_congr ah _ rfl]
    exact outMasks_scan _ (mem_outMasks_of_isOrOf _ ho) hne

/-- The invariant at a concrete state: after `_audio_routing_init`, the route update of
role "voip" with the batch "bt" of direction In leaves
`active_in = AUDIO_DEVICE_IN_BT_SCO`, a reachable state, for which the
statement holds. -/
theorem reachable_state_invariant_witness :
    Reachable tizenHeader ⟨⟨0x80000008, 0, VERB_NORMAL⟩⟩ ∧
    (IsOrOf outCatalogTypes 0 ∧
    IsOrOf inCatalogTypes 0x80000008 ∧
    VERB_NORMAL = VERB_NORMAL ∧
    0 &&& orAll outCatalogTypes = 0 ∧
    (∀ b : Nat, b &&& orAll outCatalogTypes = 0 → 0 &&& b = 0) ∧
    0 &&& AUDIO_DEVICE_IN = 0 ∧
    mode_to_verb_str[VERB_NORMAL]? = some AUDIO_USE_CASE_VERB_HIFI ∧
    (∀ (ucm : Ucm) (direction : Nat), 5 ≤ tizenHeader.MAX_DEVICES →
      ∃ o, __update_route_reset tizenHeader ucm ⟨⟨0x80000008, 0, VERB_NORMAL⟩⟩ direction
        = some o) ∧
    ((0x80000008 : Nat) ≠ 0 → inScanNames ⟨⟨0x80000008, 0, VERB_NORMAL⟩⟩ ≠ []) ∧
    ((0 : Nat) ≠ 0 → outScanNames ⟨⟨0x80000008, 0, VERB_NORMAL⟩⟩ ≠ [])) :=
  have hr : Reachable tizenHeader ⟨⟨0x80000008, 0, VERB_NORMAL⟩⟩ :=
    Reachable.route ucmOk ⟨⟨0, 0, VERB_NORMAL⟩⟩ ⟨"voip", [⟨"bt", 0⟩], 1⟩
      ⟨0, ⟨⟨0x80000008, 0, VERB_NORMAL⟩⟩,
        some ⟨AUDIO_USE_CASE_VERB_HIFI, [some "BT Mic", none, none, none, none]⟩⟩
      (Reachable.init (fun _ => 0) ⟨⟨7, 7, 7⟩⟩ _ (by decide)) (by decide)
  ⟨hr, reachable_state_invariant tizenHeader _ hr⟩

/-! ## Repeated requests -/

theorem catalog_count : ∀ v ∈ catalogTypes, ∀ e ∈ inCatalog ++ outCatalog,
    (((inCatalog ++ outCatalog).filter fun x => decide (v = x.type)).map (·.name)).count e.name
      = if v = e.type then 1 else 0 := by decide

theorem requestNames_count (H : Header) (d : device_info_t) (e : device_type_t)
    (he : e ∈ inCatalog ++ outCatalog) :
    (requestNames H d).count e.name
      = if __convert_device_string_to_enum H d.type d.direction = e.type then 1 else 0 := by
  unfold requestNames
  rw [requestEntries_eq_filter]
  by_cases hv : __convert_device_string_to_enum H d.type d.direction ∈ catalogTypes
  · exact catalog_count _ hv e he
  · have hv2 : __convert_device_string_to_enum H d.type d.direction
        ∉ (inCatalog ++ outCatalog).map (·.type) := by
      simpa [catalogTypes, inCatalogTypes, outCatalogTypes] using hv
    have hne : ¬ __convert_device_string_to_enum H d.type d.direction = e.type := by
      intro h
      apply hv2
      rw [h]
      exact List.mem_map_of_mem _ he
    rw [(filter_type_eq_nil_iff _ _).mpr hv2, if_neg hne]
    rfl

theorem batchNames_count (H : Header) (e : device_type_t) (he : e ∈ inCatalog ++ outCatalog) :
    ∀ ds : List device_info_t, (batchNames H ds).count e.name = timesRequested H e.type ds := by
  intro ds
  induction ds with
  | nil => rfl
  | cons d ds ih =>
    have hb : batchNames H (d :: ds) = requestNames H d ++ batchNames H ds := by
      simp [batchNames]
    rw [hb, List.count_append, ih, requestNames_count H d e he]
    unfold timesRequested
    by_cases hv : __convert_device_string_to_enum H d.type d.direction = e.type
    · simp [hv, List.filter_cons]
      omega
    · simp [hv, List.filter_cons]

theorem lor_left_comm (a b c : Nat) : a ||| (b ||| c) = b ||| (a ||| c) := by
  rw [← Nat.or_assoc, Nat.or_comm a b, Nat.or_assoc]

theorem lor_absorb (S R v : Nat) (h : v ||| S = S) : S ||| R = S ||| (v ||| R) := by
  rw [← Nat.or_assoc, Nat.or_comm S v, h]

theorem lor_cancel (S v R1 R2 : Nat) (h : (v ||| S) ||| R1 = (v ||| S) ||| R2) :
    S ||| (v ||| R1) = S ||| (v ||| R2) := by
  rw [lor_left_comm S v R1, ← Nat.or_assoc, h, Nat.or_assoc, lor_left_comm v S R2]

theorem orAll_mem (v : Nat) : ∀ xs : List Nat, v ∈ xs → v ||| orAll xs = orAll xs := by
  intro xs
  induction xs with
  | nil => intro h; exact absurd h (List.not_mem_nil _)
  | cons x xs ih =>
    intro h
    have hc : orAll (x :: xs) = x ||| orAll xs := rfl
    rw [hc]
    rcases List.mem_cons.mp h with rfl | h2
    · rw [← Nat.or_assoc, Nat.or_self]
    · rw [lor_left_comm, ih h2]

/-- Dropping the repeated requests does not change the OR of the resolved
values that lie in `types`. -/
theorem orAll_dropRepeatedFrom (H : Header) (types : List Nat) :
    ∀ (ds : List device_info_t) (seen : List Nat),
      orAll (seen.filter fun v => decide (v ∈ types)) |||
          orAll ((resolvedValues H (dropRepeatedFrom H seen ds)).filter
            fun v => decide (v ∈ types))
        = orAll (seen.filter fun v => decide (v ∈ types)) |||
          orAll ((resolvedValues H ds).filter fun v => decide (v ∈ types)) := by
  intro ds
  induction ds with
  | nil => intro seen; rfl
  | cons d ds ih =>
    intro seen
    have hres : ∀ l : List device_info_t, resolvedValues H (d :: l)
        = __convert_device_string_to_enum H d.type d.direction :: resolvedValues H l :=
      fun _ => rfl
    by_cases hdrop : __convert_device_string_to_enum H d.type d.direction ∈ catalogTypes ∧
        __convert_device_string_to_enum H d.type d.direction ∈ seen
    · have hd : dropRepeatedFrom H seen (d :: ds) = dropRepeatedFrom H seen ds := by
        simp only [dropRepeatedFrom, if_pos hdrop]
      rw [hd, ih seen, hres]
      by_cases hv : __convert_device_string_to_enum H d.type d.direction ∈ types
      · have hmem : __convert_device_string_to_enum H d.type d.direction
            ∈ seen.filter fun v => decide (v ∈ types) :=
          List.mem_filter.mpr ⟨hdrop.2, by simpa using hv⟩
        have hc : ∀ l : List Nat,
            orAll ((__convert_device_string_to_enum H d.type d.direction :: l).filter
              fun v => decide (v ∈ types))
            = __convert_device_string_to_enum H d.type d.direction |||
              orAll (l.filter fun v => decide (v ∈ types)) := by
          intro l
          rw [List.filter_cons_of_pos (by simpa using hv)]
          rfl
        rw [hc]
        exact lor_absorb _ _ _ (orAll_mem _ _ hmem)
      · rw [List.filter_cons_of_neg (by simpa using hv)]
    · have hd : dropRepeatedFrom H seen (d :: ds)
          = d :: dropRepeatedFrom H
              (__convert_device_string_to_enum H d.type d.direction :: seen) ds := by
        simp only [dropRepeatedFrom, if_neg hdrop]
      rw [hd, hres, hres]
      have h1 := ih (__convert_device_string_to_enum H d.type d.direction :: seen)
      by_cases hv : __convert_device_string_to_enum H d.type d.direction ∈ types
      · have hc : ∀ l : List Nat,
            orAll ((__convert_device_string_to_enum H d.type d.direction :: l).filter
              fun v => decide (v ∈ types))
            = __convert_device_string_to_enum H d.type d.direction |||
              orAll (l.filter fun v => decide (v ∈ types)) := by
          intro l
          rw [List.filter_cons_of_pos (by simpa using hv)]
          rfl
        rw [hc] at h1
        rw [hc, hc]
        exact lor_cancel _ _ _ _ h1
      · rw [List.filter_cons_of_neg (by simpa using hv)] at h1
        rw [List.filter_cons_of_neg (by simpa using hv),
          List.filter_cons_of_neg (by simpa using hv)]
        exact h1

theorem orAll_dropRepeated (H : Header) (types : List Nat) (ds : List device_info_t) :
    orAll ((resolvedValues H (dropRepeated H ds)).filter fun v => decide (v ∈ types))
      = orAll ((resolvedValues H ds).filter fun v => decide (v ∈ types)) := by
  have h := orAll_dropRepeatedFrom H types ds []
  have h0 : orAll (([] : List Nat).filter fun v => decide (v ∈ types)) = 0 := rfl
  rw [h0, Nat.zero_or, Nat.zero_or] at h
  exact h

theorem dropRepeated_cons (H : Header) (d0 : device_info_t) (rest : List device_info_t) :
    dropRepeated H (d0 :: rest)
      = d0 :: dropRepeatedFrom H [__convert_device_string_to_enum H d0.type d0.direction] rest := by
  simp [dropRepeated, dropRepeatedFrom]

theorem dropRepeatedFrom_length_le (H : Header) :
    ∀ (ds : List device_info_t) (seen : List Nat),
      (dropRepeatedFrom H seen ds).length ≤ ds.length ∧
        (batchNames H (dropRepeatedFrom H seen ds)).length ≤ (batchNames H ds).length := by
  intro ds
  induction ds with
  | nil => intro seen; exact ⟨Nat.le_refl _, Nat.le_refl _⟩
  | cons d ds ih =>
    intro seen
    have hb : ∀ l : List device_info_t,
        (batchNames H (d :: l)).length = (requestNames H d).length + (batchNames H l).length := by
      intro l
      simp [batchNames]
    by_cases hdrop : __convert_device_string_to_enum H d.type d.direction ∈ catalogTypes ∧
        __convert_device_string_to_enum H d.type d.direction ∈ seen
    · have hd : dropRepeatedFrom H seen (d :: ds) = dropRepeatedFrom H seen ds := by
        simp only [dropRepeatedFrom, if_pos hdrop]
      have h1 := ih seen
      rw [hd, hb]
      simp only [List.length_cons]
      omega
    · have hd : dropRepeatedFrom H seen (d :: ds)
          = d :: dropRepeatedFrom H
              (__convert_device_string_to_enum H d.type d.direction :: seen) ds := by
        simp only [dropRepeatedFrom, if_neg hdrop]
      have h1 := ih (__convert_device_string_to_enum H d.type d.direction :: seen)
      rw [hd, hb, hb]
      simp only [List.length_cons]
      omega

/-- The handle `__set_devices` leaves for a batch is the one it leaves for the
batch without its repeated requests. -/
theorem setDevicesAh_dropRepeated (H : Header) (ah : audio_hal_t) (d0 : device_info_t)
    (rest : List device_info_t) :
    setDevicesAh H ah (dropRepeated H (d0 :: rest)) = setDevicesAh H ah (d0 :: rest) := by
  have hD := dropRepeated_cons H d0 rest
  have hin := orAll_dropRepeated H inCatalogTypes (d0 :: rest)
  have hout := orAll_dropRepeated H outCatalogTypes (d0 :: rest)
  rw [hD] at hin hout
  rw [hD, setDevicesAh_eq_masks, setDevicesAh_eq_masks, hin, hout]

theorem count_drop_padded (H : Header) (scan batch : List (Option String)) (x : Option String)
    (hx : x ≠ none) :
    ((padded H (scan ++ batch)).drop scan.length).count x = batch.count x := by
  have h0 : (List.replicate (H.MAX_DEVICES - (scan ++ batch).length) (none : Option String)).count x
      = 0 := by
    apply List.count_eq_zero_of_not_mem
    intro h
    exact hx (List.eq_of_mem_replicate h)
  unfold padded
  rw [List.append_assoc, List.drop_left, List.count_append, h0, Nat.add_zero]

/-- C15, where the code departs from it: with both masks 0 and room for five
names, the batch of six entries "builtin-speaker" of direction Out, in which
`AUDIO_DEVICE_OUT_SPEAKER` is requested six times, is rejected with
`AUDIO_ERR_PARAMETER`: no list is emitted and `active_out` stays 0, whereas the
batch with the repeated entries removed, the single "builtin-speaker", is
handed over and sets `active_out` to `AUDIO_DEVICE_OUT_SPEAKER`. -/
theorem set_devices_duplicates_rejected :
    timesRequested tizenHeader AUDIO_DEVICE_OUT_SPEAKER
        (List.replicate 6 ⟨"builtin-speaker", tizenHeader.AUDIO_DIRECTION_OUT⟩) = 6 ∧
    __set_devices tizenHeader ucmOk ⟨⟨0, 0, VERB_NORMAL⟩⟩ AUDIO_USE_CASE_VERB_HIFI
        (List.replicate 6 ⟨"builtin-speaker", tizenHeader.AUDIO_DIRECTION_OUT⟩) 6
      = some ⟨tizenHeader.AUDIO_ERR_PARAMETER, ⟨⟨0, 0, VERB_NORMAL⟩⟩, none⟩ ∧
    dropRepeated tizenHeader
        (List.replicate 6 ⟨"builtin-speaker", tizenHeader.AUDIO_DIRECTION_OUT⟩)
      = [⟨"builtin-speaker", tizenHeader.AUDIO_DIRECTION_OUT⟩] ∧
    __set_devices tizenHeader ucmOk ⟨⟨0, 0, VERB_NORMAL⟩⟩ AUDIO_USE_CASE_VERB_HIFI
        [⟨"builtin-speaker", tizenHeader.AUDIO_DIRECTION_OUT⟩] 1
      = some ⟨0, ⟨⟨0, AUDIO_DEVICE_OUT_SPEAKER, VERB_NORMAL⟩⟩,
          some ⟨AUDIO_USE_CASE_VERB_HIFI, [some "Speaker", none, none, none, none]⟩⟩ := by
  decide

/-- C15 (amended): for a batch of 1 to `MAX_DEVICES` entries whose assembled
names fit the array, `__set_devices` returns for the batch and for the batch
with its repeated entries removed (the first kept); if a catalog device is
requested at all the backend is called; whenever it is called, the name of
each catalog device appears, in the emitted array after the names of the
other direction, exactly as many times as the batch requests that device; and
both batches leave the same handle, so the same masks. -/
theorem set_devices_duplicates (H : Header) (ucm : Ucm) (ah : audio_hal_t) (verb : String)
    (d0 : device_info_t) (rest : List device_info_t)
    (hM : (d0 :: rest).length ≤ H.MAX_DEVICES)
    (hfit : (setDevicesNames H ah (d0 :: rest)).length ≤ H.MAX_DEVICES) :
    ∃ o o1, __set_devices H ucm ah verb (d0 :: rest) (d0 :: rest).length = some o ∧
      __set_devices H ucm ah verb (dropRepeated H (d0 :: rest))
        (dropRepeated H (d0 :: rest)).length = some o1 ∧
      ((∃ e ∈ inCatalog ++ outCatalog, 0 < timesRequested H e.type (d0 :: rest)) →
        ∃ c, o.call = some c) ∧
      (∀ c, o.call = some c → ∀ e ∈ inCatalog ++ outCatalog,
        (c.devices.drop (scanNames H d0.direction ah).length).count e.name
          = timesRequested H e.type (d0 :: rest)) ∧
      o1.ah.device.active_in = o.ah.device.active_in ∧
      o1.ah.device.active_out = o.ah.device.active_out := by
  have hD := dropRepeated_cons H d0 rest
  have hlen := dropRepeatedFrom_length_le H (d0 :: rest) []
  have hnames : setDevicesNames H ah (d0 :: rest)
      = scanNames H d0.direction ah ++ batchNames H (d0 :: rest) := rfl
  have hDne : dropRepeated H (d0 :: rest) ≠ [] := by
    rw [hD]
    exact List.cons_ne_nil _ _
  have hDM : (dropRepeated H (d0 :: rest)).length ≤ H.MAX_DEVICES :=
    Nat.le_trans hlen.1 hM
  have hDfit : (setDevicesNames H ah (dropRepeated H (d0 :: rest))).length ≤ H.MAX_DEVICES := by
    have h1 : setDevicesNames H ah (dropRepeated H (d0 :: rest))
        = scanNames H d0.direction ah ++ batchNames H (dropRepeated H (d0 :: rest)) := by
      rw [hD]
      rfl
    have h2 := hlen.2
    rw [hnames, List.length_append] at hfit
    rw [h1, List.length_append]
    exact Nat.le_trans (Nat.add_le_add_left h2 _) hfit
  obtain ⟨o1, hrun1, ho1⟩ :=
    set_devices_of_fit H ucm ah verb (dropRepeated H (d0 :: rest)) hDne hDM hDfit
  rw [setDevicesAh_dropRepeated] at ho1
  have hname : ∀ e ∈ inCatalog ++ outCatalog, e.name ≠ none := by
    intro e he
    rcases List.mem_append.mp he with h | h
    · exact inCatalog_name_ne_none e h
    · exact outCatalog_name_ne_none e h
  rw [set_devices_eq H ucm ah verb (d0 :: rest) (List.cons_ne_nil _ _) hM, if_neg (by omega)]
  by_cases hnil : setDevicesNames H ah (d0 :: rest) = []
  · rw [if_pos hnil]
    refine ⟨⟨H.AUDIO_ERR_PARAMETER, setDevicesAh H ah (d0 :: rest), none⟩, o1, rfl, hrun1,
      ?_, ?_, by rw [ho1], by rw [ho1]⟩
    · rintro ⟨e, he, hk⟩
      have hb : batchNames H (d0 :: rest) = [] := by
        rw [hnames] at hnil
        exact (List.append_eq_nil.mp hnil).2
      have hc := batchNames_count H e he (d0 :: rest)
      rw [hb] at hc
      simp only [List.count_nil] at hc
      omega
    · intro c hc
      exact absurd hc (by simp)
  · rw [if_neg hnil]
    refine ⟨⟨ucm (setDevicesAh H ah (d0 :: rest)) verb
        (padded H (setDevicesNames H ah (d0 :: rest))), setDevicesAh H ah (d0 :: rest),
        some ⟨verb, padded H (setDevicesNames H ah (d0 :: rest))⟩⟩, o1, rfl, hrun1,
      fun _ => ⟨_, rfl⟩, ?_, by rw [ho1], by rw [ho1]⟩
    intro c hc e he
    have hc2 : c = ⟨verb, padded H (setDevicesNames H ah (d0 :: rest))⟩ :=
      (Option.some.inj hc).symm
    rw [hc2, hnames]
    exact (count_drop_padded H _ _ e.name (hname e he)).trans (batchNames_count H e he _)

/-- C15 (amended) at a concrete batch: with `active_in = AUDIO_DEVICE_IN_MAIN_MIC`
and five slots, the batch "builtin-speaker", "builtin-speaker", "audio-jack" of
direction Out fits, so the statement holds for it. -/
theorem set_devices_duplicates_witness :
    ([⟨"builtin-speaker", 1⟩, ⟨"builtin-speaker", 1⟩, ⟨"audio-jack", 1⟩] :
        List device_info_t).length ≤ tizenHeader.MAX_DEVICES ∧
    (setDevicesNames tizenHeader ⟨⟨AUDIO_DEVICE_IN_MAIN_MIC, 0, VERB_NORMAL⟩⟩
        [⟨"builtin-speaker", 1⟩, ⟨"builtin-speaker", 1⟩, ⟨"audio-jack", 1⟩]).length
      ≤ tizenHeader.MAX_DEVICES ∧
    ∃ o o1, __set_devices tizenHeader ucmOk ⟨⟨AUDIO_DEVICE_IN_MAIN_MIC, 0, VERB_NORMAL⟩⟩
        AUDIO_USE_CASE_VERB_HIFI
        [⟨"builtin-speaker", 1⟩, ⟨"builtin-speaker", 1⟩, ⟨"audio-jack", 1⟩]
        ([⟨"builtin-speaker", 1⟩, ⟨"builtin-speaker", 1⟩, ⟨"audio-jack", 1⟩] :
          List device_info_t).length = some o ∧
      __set_devices tizenHeader ucmOk ⟨⟨AUDIO_DEVICE_IN_MAIN_MIC, 0, VERB_NORMAL⟩⟩
        AUDIO_USE_CASE_VERB_HIFI
        (dropRepeated tizenHeader
          [⟨"builtin-speaker", 1⟩, ⟨"builtin-speaker", 1⟩, ⟨"audio-jack", 1⟩])
        (dropRepeated tizenHeader
          [⟨"builtin-speaker", 1⟩, ⟨"builtin-speaker", 1⟩, ⟨"audio-jack", 1⟩]).length
        = some o1 ∧
      ((∃ e ∈ inCatalog ++ outCatalog, 0 < timesRequested tizenHeader e.type
          [⟨"builtin-speaker", 1⟩, ⟨"builtin-speaker", 1⟩, ⟨"audio-jack", 1⟩]) →
        ∃ c, o.call = some c) ∧
      (∀ c, o.call = some c → ∀ e ∈ inCatalog ++ outCatalog,
        (c.devices.drop (scanNames tizenHeader 1
            ⟨⟨AUDIO_DEVICE_IN_MAIN_MIC, 0, VERB_NORMAL⟩⟩).length).count e.name
          = timesRequested tizenHeader e.type
              [⟨"builtin-speaker", 1⟩, ⟨"builtin-speaker", 1⟩, ⟨"audio-jack", 1⟩]) ∧
      o1.ah.device.active_in = o.ah.device.active_in ∧
      o1.ah.device.active_out = o.ah.device.active_out :=
  ⟨by decide, by decide,
    set_devices_duplicates tizenHeader ucmOk ⟨⟨AUDIO_DEVICE_IN_MAIN_MIC, 0, VERB_NORMAL⟩⟩
      AUDIO_USE_CASE_VERB_HIFI ⟨"builtin-speaker", 1⟩
      [⟨"builtin-speaker", 1⟩, ⟨"audio-jack", 1⟩] (by decide) (by decide)⟩

/-! ## The frame of a reset -/

/-- C7: for every state and direction, every outcome of `__update_route_reset`
has the mask of the given direction at 0 (`active_out` for Out, `active_in`
for any other direction, In included) and the other mask and the mode as they
were, whether or not the backend is called and whatever it returns; and the
function has an outcome whenever `active_devices` has room for the five
catalog names and either the mode is `VERB_NORMAL`, the only value the routing
code assigns to it, or the scan of the other direction finds no name. -/
theorem update_route_reset_frame (H : Header) (ucm : Ucm) (ah : audio_hal_t) (direction : Nat) :
    (5 ≤ H.MAX_DEVICES →
      (ah.device.mode = VERB_NORMAL ∨ resetNames H direction ah = []) →
      ∃ o, __update_route_reset H ucm ah direction = some o) ∧
    (∀ o, __update_route_reset H ucm ah direction = some o →
      (direction = H.AUDIO_DIRECTION_OUT →
        o.ah.device.active_out = 0 ∧ o.ah.device.active_in = ah.device.active_in) ∧
      (direction ≠ H.AUDIO_DIRECTION_OUT →
        o.ah.device.active_in = 0 ∧ o.ah.device.active_out = ah.device.active_out) ∧
      o.ah.device.mode = ah.device.mode) := by
  constructor
  · intro hM hdef
    rcases hdef with hmode | hnames
    · rw [update_route_reset_normal H ucm ah direction hM hmode]
      split
      · exact ⟨_, rfl⟩
      · exact ⟨_, rfl⟩
    · rw [update_route_reset_eq H ucm ah direction (by omega), hnames,
        if_neg (by simp), if_pos rfl]
      exact ⟨_, rfl⟩
  · intro o ho
    rw [update_route_reset_ah H ucm ah direction o ho]
    refine ⟨?_, ?_, resetAh_mode H direction ah⟩
    · intro hd
      simp [resetAh, hd, clearOut]
    · intro hd
      simp [resetAh, hd, clearIn]

/-- A concrete instance for C7: reset of In with two output devices active and
a backend that reports a failure. -/
theorem update_route_reset_frame_witness :
    5 ≤ tizenHeader.MAX_DEVICES ∧
      (⟨⟨AUDIO_DEVICE_IN_JACK, 0x5, 0⟩⟩ : audio_hal_t).device.mode = VERB_NORMAL ∧
      ∃ o, __update_route_reset tizenHeader (fun _ _ _ => -1)
          ⟨⟨AUDIO_DEVICE_IN_JACK, 0x5, 0⟩⟩ 0 = some o ∧
        (0 = tizenHeader.AUDIO_DIRECTION_OUT →
          o.ah.device.active_out = 0 ∧ o.ah.device.active_in = AUDIO_DEVICE_IN_JACK) ∧
        (0 ≠ tizenHeader.AUDIO_DIRECTION_OUT →
          o.ah.device.active_in = 0 ∧ o.ah.device.active_out = 0x5) ∧
        o.ah.device.mode = 0 := by
  have h := update_route_reset_frame tizenHeader (fun _ _ _ => -1)
    ⟨⟨AUDIO_DEVICE_IN_JACK, 0x5, 0⟩⟩ 0
  obtain ⟨o, ho⟩ := h.1 (by decide) (Or.inl rfl)
  exact ⟨by decide, rfl, o, ho, h.2 o ho⟩

/-! ## A call that leaves the reachable states -/

/-- C17, where the code departs from it.  The route update of role "voip" for
the batch "bt" of direction In, made right after `_audio_routing_init`, leaves
`active_in = AUDIO_DEVICE_IN_BT_SCO`, a reachable state.  From that state the
route update for `MAX_DEVICES` entries "builtin-speaker" of direction Out
stores "BT Mic" and then `MAX_DEVICES` times "Speaker": the last store is at
the index `MAX_DEVICES`, outside `active_devices`, so the call has no defined
outcome and what the handle holds afterwards is not determined by the code. -/
theorem audio_update_route_overrun_after_init (H : Header) (ucm : Ucm)
    (hM : 0 < H.MAX_DEVICES) (hlen : 16 < H.MAX_NAME_LEN)
    (hdir : H.AUDIO_DIRECTION_IN ≠ H.AUDIO_DIRECTION_OUT) :
    ∃ o1, audio_update_route H ucm ⟨⟨0, 0, VERB_NORMAL⟩⟩
          ⟨"voip", [⟨"bt", H.AUDIO_DIRECTION_IN⟩], 1⟩ = some o1 ∧
      Reachable H o1.ah ∧
      o1.ah.device.active_in = AUDIO_DEVICE_IN_BT_SCO ∧ o1.ah.device.active_out = 0 ∧
      audio_update_route H ucm o1.ah
          ⟨"voip", List.replicate H.MAX_DEVICES ⟨"builtin-speaker", H.AUDIO_DIRECTION_OUT⟩,
            H.MAX_DEVICES⟩ = none := by
  obtain ⟨o1, hrun, hin, hout, -⟩ :=
    audio_update_route_voip_scenario H ucm 0 VERB_NORMAL hM hlen hdir
  refine ⟨o1, hrun, Reachable.route ucm _ _ o1 (reachable_init H) hrun, hin, hout, ?_⟩
  have hscan : inScanNames o1.ah ≠ [] := by
    rw [inScanNames_congr o1.ah AUDIO_DEVICE_IN_BT_SCO hin]
    decide
  rw [audio_update_route_of_not_reset H ucm _ _ (Or.inl (strncmp_voip_voip H hlen))]
  show (__set_devices H ucm o1.ah AUDIO_USE_CASE_VERB_HIFI
      (List.replicate H.MAX_DEVICES ⟨"builtin-speaker", H.AUDIO_DIRECTION_OUT⟩)
      H.MAX_DEVICES).map setModeOnSuccess = none
  rw [set_devices_speakers H ucm o1.ah _ hM hlen, if_neg hscan]
  rfl

/-- A concrete instance for C17's failure under the sample header: "bt" of
direction In, then five "builtin-speaker" entries of direction Out. -/
theorem audio_update_route_overrun_after_init_witness :
    0 < tizenHeader.MAX_DEVICES ∧ 16 < tizenHeader.MAX_NAME_LEN ∧
      tizenHeader.AUDIO_DIRECTION_IN ≠ tizenHeader.AUDIO_DIRECTION_OUT ∧
      ∃ o1, audio_update_route tizenHeader ucmOk ⟨⟨0, 0, VERB_NORMAL⟩⟩
            ⟨"voip", [⟨"bt", 0⟩], 1⟩ = some o1 ∧
        Reachable tizenHeader o1.ah ∧
        o1.ah.device.active_in = AUDIO_DEVICE_IN_BT_SCO ∧ o1.ah.device.active_out = 0 ∧
        audio_update_route tizenHeader ucmOk o1.ah
            ⟨"voip", List.replicate 5 ⟨"builtin-speaker", 1⟩, 5⟩ = none :=
  ⟨by decide, by decide, by decide,
    audio_update_route_overrun_after_init tizenHeader ucmOk (by decide) (by decide) (by decide)⟩

/-- The same failure with a batch of one entry, under the sample header: the
route update for the five output devices, made right after
`_audio_routing_init`, fills the five slots and leaves `active_out = 0x3D`, a
reachable state; from it the route update of role "voip" for the single entry
"bt" of direction In stores the five output names and then "BT Mic" at the
index 5, outside `active_devices`. -/
theorem audio_update_route_single_entry_overrun :
    audio_update_route tizenHeader ucmOk ⟨⟨0, 0, VERB_NORMAL⟩⟩
        ⟨"media", [⟨"builtin-speaker", 1⟩, ⟨"audio-jack", 1⟩, ⟨"bt", 1⟩, ⟨"aux", 1⟩, ⟨"hdmi", 1⟩], 5⟩
      = some ⟨0, ⟨⟨0, 0x3D, VERB_NORMAL⟩⟩,
          some ⟨"HiFi", [some "Speaker", some "Headphones", some "Bluetooth", some "Line",
            some "HDMI"]⟩⟩ ∧
    Reachable tizenHeader ⟨⟨0, 0x3D, VERB_NORMAL⟩⟩ ∧
    audio_update_route tizenHeader ucmOk ⟨⟨0, 0x3D, VERB_NORMAL⟩⟩
        ⟨"voip", [⟨"bt", 0⟩], 1⟩ = none := by
  have h1 : audio_update_route tizenHeader ucmOk ⟨⟨0, 0, VERB_NORMAL⟩⟩
        ⟨"media", [⟨"builtin-speaker", 1⟩, ⟨"audio-jack", 1⟩, ⟨"bt", 1⟩, ⟨"aux", 1⟩,
          ⟨"hdmi", 1⟩], 5⟩
      = some ⟨0, ⟨⟨0, 0x3D, VERB_NORMAL⟩⟩,
          some ⟨"HiFi", [some "Speaker", some "Headphones", some "Bluetooth", some "Line",
            some "HDMI"]⟩⟩ := by
    decide
  exact ⟨h1, Reachable.route ucmOk _ _ _ (reachable_init tizenHeader) h1, by decide⟩

end TizenAudio
